import Mathlib

/-!
# CavyCave firmware: the decision engine of `Controller.cpp`

A shallow embedding of `Controller::Implementation` (the periodic control
loop `run`, the mode setters, the fan timers and the configuration store)
together with the three actuator objects it commits to (`Fan`, `Heating`,
`Led`), the sensor reader with its fault counters (`Sensors`), the effect of
received radio frames on the engine (`Radio.run`) and the console output of
tenths values (`printTemperature`, `printHumidity`).

Conventions of the embedding

* `uint32_t` timestamps are natural numbers taken modulo `2^32`
  (`add32`, `mul32`, `sub32`); `int32_t` casts go through `toInt32`.
* `int16_t` readings and thresholds are integers; the code only compares
  them, so no wrap-around is involved.
* `uint8_t` configuration fields are natural numbers; theorems that need
  the 8-bit range state it as a hypothesis.
* An `enum class X : uint8_t` is a one-field structure holding the raw
  byte, with the enumerators as named constants: the firmware casts
  received bytes to these types, so values outside the enumerators exist.
* One call of `run` reads the clock up to seven times (Controller.cpp 120,
  121, 178, 199, 209, 212, 216), with the blocking sensor reads between the
  second and the third; a `Clock` holds one value per `millis()` call, and
  `Clock.still now` is the special case of a clock that does not advance
  during the call. The four `millis()` calls of the sensor reader during one
  heavy evaluation are held by a `Sensors.Clock` in the same way.
* The five `sensors.*` calls of a heavy evaluation are represented by
  their return values, collected in `Readings`; `Sensors.poll` computes them
  from the state of the sensor reader (`Sensors.cpp`) and the outcome of the
  hardware reads, and `System.run` puts the two together.
* The EEPROM is a byte per address; a `Configuration` is stored as its 18
  bytes (`int16_t` low byte first).
-/

namespace CavyCave

/-! ## Machine arithmetic -/

/-- Addition of two `uint32_t` values. -/
def add32 (a b : Nat) : Nat := (a + b) % 4294967296

/-- Multiplication of two `uint32_t` values. -/
def mul32 (a b : Nat) : Nat := (a * b) % 4294967296

/-- Subtraction `a - b` of two `uint32_t` values. -/
def sub32 (a b : Nat) : Nat :=
  (a % 4294967296 + 4294967296 - b % 4294967296) % 4294967296

/-- The cast `static_cast<int32_t>(x)` of a `uint32_t` value (two's complement). -/
def toInt32 (x : Nat) : Int :=
  if x % 4294967296 < 2147483648 then ((x % 4294967296 : Nat) : Int)
  else ((x % 4294967296 : Nat) : Int) - 4294967296

/-- Controller.cpp 33-36: `return static_cast<int32_t>(b - a) < 0;` -/
def timeAfter (a b : Nat) : Bool := decide (toInt32 (sub32 b a) < 0)

/-! ## Enumerations -/

/-- Fan.hpp 36-40: `enum class Speed : uint8_t { OFF, LOW, HIGH }`, as its raw byte. -/
structure Fan.Speed where
  raw : Nat
  deriving DecidableEq, Repr

/-- Enumerator `Fan::Speed::OFF`. -/
def Fan.Speed.OFF : Fan.Speed := ⟨0⟩

/-- Enumerator `Fan::Speed::LOW`. -/
def Fan.Speed.LOW : Fan.Speed := ⟨1⟩

/-- Enumerator `Fan::Speed::HIGH`. -/
def Fan.Speed.HIGH : Fan.Speed := ⟨2⟩

/-- Modelled from the spec: `Led.hpp` is not among the sources; the lamp
color enumeration is taken from the radio protocol description
("payload byte 0/1/2 = GREEN/YELLOW/RED") and from its uses in `Led.cpp`. -/
structure Led.Color where
  raw : Nat
  deriving DecidableEq, Repr

/-- Enumerator `Led::Color::GREEN`. -/
def Led.Color.GREEN : Led.Color := ⟨0⟩

/-- Enumerator `Led::Color::YELLOW`. -/
def Led.Color.YELLOW : Led.Color := ⟨1⟩

/-- Enumerator `Led::Color::RED`. -/
def Led.Color.RED : Led.Color := ⟨2⟩

/-- Controller.hpp 33-36: `enum class Mode : uint8_t { AUTO, MANUAL }`.
The firmware only ever assigns the two enumerators. -/
inductive Mode where
  | AUTO
  | MANUAL
  deriving DecidableEq, Repr

/-- Controller.hpp 39-42: `enum class AutoMode : uint8_t { INDEPENDENT, LINKED }`,
as its raw byte (a stored configuration may hold any byte). -/
structure AutoMode where
  raw : Nat
  deriving DecidableEq, Repr

/-- Enumerator `Configuration::AutoMode::INDEPENDENT`. -/
def AutoMode.INDEPENDENT : AutoMode := ⟨0⟩

/-- Enumerator `Configuration::AutoMode::LINKED`. -/
def AutoMode.LINKED : AutoMode := ⟨1⟩

/-- Controller.cpp 422-426: the private `enum class FanTimer { OFF, ON, PAUSE }`. -/
inductive FanTimer where
  | OFF
  | ON
  | PAUSE
  deriving DecidableEq, Repr

/-! ## Records -/

/-- Modelled from the spec: `Controller.hpp` as found under the sources
declares the `Configuration` record without `fan_max_run_minutes` and
`fan_pause_minutes`, which `Controller.cpp` reads and initialises (twelve
initialisers, lines 60-73). The two fields are added here, placed so that
the initialiser list `0, 0, 5` gives the documented defaults (max-run 0 =
unlimited, speed-up delay 5). -/
structure Configuration where
  min_room_temperature_10th_c : Int
  max_room_temperature_10th_c : Int
  min_floor_temperature_10th_c : Int
  max_floor_temperature_10th_c : Int
  max_humidity_per_mill : Int
  min_humidity_per_mill : Int
  fan_max_run_minutes : Nat
  fan_pause_minutes : Nat
  fan_speedup_delay_minutes : Nat
  fan_speed_low : Nat
  fan_speed_high : Nat
  auto_mode : AutoMode
  deriving DecidableEq, Repr

/-- Controller.hpp 60-76: `struct State`. -/
structure State where
  room_values_valid : Bool
  temperature_10th_c : Int
  humidity_per_mill : Int
  floor_value_valid : Bool
  floor_temperature_10th_c : Int
  mode : Mode
  fan_speed : Fan.Speed
  heating_lounge : Bool
  heating_vestibule : Bool
  led_color : Led.Color
  deriving DecidableEq, Repr

/-- The values returned by the five `sensors.*` calls of one heavy
evaluation (Controller.cpp 123-128), in call order. -/
structure Readings where
  room_values_valid : Bool
  temperature_10th_c : Int
  humidity_per_mill : Int
  floor_value_valid : Bool
  floor_temperature_10th_c : Int
  deriving DecidableEq, Repr

/-- Controller.cpp 444-451 (with `FanTimer`): the data members of `Controller::Implementation`. -/
structure Implementation where
  configuration : Configuration
  state : State
  next_update_timestamp : Nat
  fan_timer : FanTimer
  fan_timer_timestamp : Nat
  fan_speedup_timestamp : Nat
  deriving DecidableEq, Repr

/-- Fan.hpp 52-55: data members of `Fan`, plus the duty last written with
`analogWrite(Pin::FAN, _)`. -/
structure Fan where
  speed : Fan.Speed
  low_speed : Nat
  high_speed : Nat
  pwm : Nat
  deriving DecidableEq, Repr

/-- Heating.hpp 37-39: data members of `Heating`, plus the levels last
written to `Pin::HEAT_A` and `Pin::HEAT_B`. -/
structure Heating where
  lounge : Bool
  vestibule : Bool
  pin_heat_a : Bool
  pin_heat_b : Bool
  deriving DecidableEq, Repr

/-- Led.cpp: the data member `color` of `Led`, plus the levels last
written to `Pin::LED_R` and `Pin::LED_G`. -/
structure Led where
  color : Led.Color
  pin_led_r : Bool
  pin_led_g : Bool
  deriving DecidableEq, Repr

/-- The state of the translation unit `Controller.cpp`: the implementation
object and the file-scope actuator objects `fan`, `heating`, `led`
(lines 28-30). -/
structure Controller where
  implementation : Implementation
  fan : Fan
  heating : Heating
  led : Led
  deriving DecidableEq, Repr

/-! ## Actuators -/

/-- Fan.cpp 47-67: `Fan::setSpeed`. -/
def Fan.setSpeed (value : Fan.Speed) (f : Fan) : Fan :=
  let f1 : Fan := { f with speed := value }
  if value = Fan.Speed.OFF then { f1 with pwm := 0 }
  else if value = Fan.Speed.LOW then { f1 with pwm := f1.low_speed }
  else if value = Fan.Speed.HIGH then { f1 with pwm := f1.high_speed }
  else f1

/-- Fan.cpp 69-73: `Fan::setLowSpeed`. -/
def Fan.setLowSpeed (value : Nat) (f : Fan) : Fan :=
  Fan.setSpeed f.speed { f with low_speed := value }

/-- Fan.cpp 75-79: `Fan::setHighSpeed`. -/
def Fan.setHighSpeed (value : Nat) (f : Fan) : Fan :=
  Fan.setSpeed f.speed { f with high_speed := value }

/-- Heating.cpp 46-50: `Heating::setLounge`. -/
def Heating.setLounge (value : Bool) (h : Heating) : Heating :=
  { h with lounge := value, pin_heat_a := value }

/-- Heating.cpp 57-61: `Heating::setVestibule`. -/
def Heating.setVestibule (value : Bool) (h : Heating) : Heating :=
  { h with vestibule := value, pin_heat_b := value }

/-- Led.cpp 64-87: `Led::setColor`. -/
def Led.setColor (value : Led.Color) (l : Led) : Led :=
  let l1 : Led := { l with color := value }
  if value = Led.Color.GREEN then { l1 with pin_led_r := false, pin_led_g := true }
  else if value = Led.Color.YELLOW then { l1 with pin_led_r := true, pin_led_g := true }
  else if value = Led.Color.RED then { l1 with pin_led_r := true, pin_led_g := false }
  else l1

/-! ## The decision engine -/

/-- Controller.cpp 59-91: the constructor of `Controller::Implementation`. -/
def Implementation.init : Implementation :=
  { configuration :=
      { min_room_temperature_10th_c := 95
        max_room_temperature_10th_c := 110
        min_floor_temperature_10th_c := 100
        max_floor_temperature_10th_c := 200
        max_humidity_per_mill := 750
        min_humidity_per_mill := 700
        fan_max_run_minutes := 0
        fan_pause_minutes := 0
        fan_speedup_delay_minutes := 5
        fan_speed_low := 140
        fan_speed_high := 180
        auto_mode := AutoMode.INDEPENDENT }
    state :=
      { room_values_valid := false
        temperature_10th_c := 0
        humidity_per_mill := 0
        floor_value_valid := false
        floor_temperature_10th_c := 0
        mode := Mode.AUTO
        fan_speed := Fan.Speed.OFF
        heating_lounge := false
        heating_vestibule := false
        led_color := Led.Color.RED }
    next_update_timestamp := 0
    fan_timer := FanTimer.OFF
    fan_timer_timestamp := 0
    fan_speedup_timestamp := 0 }

/-- Controller.cpp 123-128: the sensor fields of `State` are overwritten
with the values returned by the sensor reader. -/
def refreshSensors (r : Readings) (s : State) : State :=
  { s with
    room_values_valid := r.room_values_valid
    temperature_10th_c := r.temperature_10th_c
    humidity_per_mill := r.humidity_per_mill
    floor_value_valid := r.floor_value_valid
    floor_temperature_10th_c := r.floor_temperature_10th_c }

/-- Controller.cpp 132-151: `case Configuration::AutoMode::INDEPENDENT`. -/
def heatingIndependent (cfg : Configuration) (s : State) : State :=
  let s1 : State :=
    if s.room_values_valid = true then
      if s.heating_lounge = false
          ∧ s.temperature_10th_c ≤ cfg.min_room_temperature_10th_c then
        { s with heating_lounge := true }
      else if s.heating_lounge = true
          ∧ s.temperature_10th_c ≥ cfg.max_room_temperature_10th_c then
        { s with heating_lounge := false }
      else s
    else s
  if s1.floor_value_valid = true then
    if s1.heating_vestibule = false
        ∧ s1.floor_temperature_10th_c ≤ cfg.min_floor_temperature_10th_c then
      { s1 with heating_vestibule := true }
    else if s1.heating_vestibule = true
        ∧ s1.floor_temperature_10th_c ≥ cfg.max_floor_temperature_10th_c then
      { s1 with heating_vestibule := false }
    else s1
  else s1

/-- Controller.cpp 153-172: `case Configuration::AutoMode::LINKED`. -/
def heatingLinked (cfg : Configuration) (s : State) : State :=
  if s.room_values_valid = true ∧ s.floor_value_valid = true then
    if s.heating_lounge = false
        ∧ (s.temperature_10th_c ≤ cfg.min_room_temperature_10th_c
          ∨ s.floor_temperature_10th_c ≤ cfg.min_floor_temperature_10th_c)
        ∧ s.floor_temperature_10th_c < cfg.max_floor_temperature_10th_c then
      { s with heating_lounge := true, heating_vestibule := true }
    else if s.heating_lounge = true
        ∧ s.floor_temperature_10th_c ≥ cfg.max_floor_temperature_10th_c then
      { s with heating_lounge := false, heating_vestibule := false }
    else s
  else s

/-- Controller.cpp 131-173: `switch (configuration.auto_mode)`; a byte that
is neither enumerator selects no case. -/
def heatingPolicy (cfg : Configuration) (s : State) : State :=
  if cfg.auto_mode = AutoMode.INDEPENDENT then heatingIndependent cfg s
  else if cfg.auto_mode = AutoMode.LINKED then heatingLinked cfg s
  else s

/-- Controller.cpp 175-184: the humidity rule of the fan; `now` is the clock
read at line 178. -/
def fanHumidityPolicy (now : Nat) (i : Implementation) : Implementation :=
  if i.fan_timer ≠ FanTimer.PAUSE ∧ i.state.room_values_valid = true then
    if i.state.fan_speed = Fan.Speed.OFF
        ∧ i.state.humidity_per_mill ≥ i.configuration.max_humidity_per_mill then
      { i with
        state := { i.state with fan_speed := Fan.Speed.LOW }
        fan_speedup_timestamp :=
          add32 now (mul32 (mul32 i.configuration.fan_speedup_delay_minutes 60) 1000) }
    else if i.state.fan_speed ≠ Fan.Speed.OFF
        ∧ i.state.humidity_per_mill ≤ i.configuration.min_humidity_per_mill then
      { i with
        state := { i.state with fan_speed := Fan.Speed.OFF }
        fan_timer := FanTimer.OFF }
    else i
  else i

/-- Controller.cpp 186-194: the lamp color. -/
def lampPolicy (s : State) : State :=
  if s.room_values_valid = true ∧ s.floor_value_valid = true then
    if s.heating_lounge = true ∨ s.heating_vestibule = true then
      { s with led_color := Led.Color.YELLOW }
    else
      { s with led_color := Led.Color.GREEN }
  else
    { s with led_color := Led.Color.RED }

/-- The values returned by the `millis()` calls of one call of `run`, one
field per call site in source order: Controller.cpp 120 (`rate_check`), 121
(`rate_stamp`), 178 (`speedup_arm`), 199 (`speedup_check`), 209
(`max_run_arm`), 212 (`timer_check`) and 216 (`pause_arm`). A call site that
the control flow skips leaves its field unused. -/
structure Clock where
  rate_check : Nat
  rate_stamp : Nat
  speedup_arm : Nat
  speedup_check : Nat
  max_run_arm : Nat
  timer_check : Nat
  pause_arm : Nat
  deriving DecidableEq, Repr

/-- A clock that does not advance during the call: every `millis()` call
returns `now`. -/
def Clock.still (now : Nat) : Clock :=
  { rate_check := now
    rate_stamp := now
    speedup_arm := now
    speedup_check := now
    max_run_arm := now
    timer_check := now
    pause_arm := now }

/-- Controller.cpp 121-195: the body of the rate-limited block of `run`
(the heavy evaluation); `millis()` is read at line 121 and at line 178. -/
def heavyEvaluation (clk : Clock) (r : Readings) (i : Implementation) : Implementation :=
  let i1 : Implementation :=
    { i with
      next_update_timestamp := add32 clk.rate_stamp 2500
      state := refreshSensors r i.state }
  if i1.state.mode = Mode.AUTO then
    let i2 : Implementation := { i1 with state := heatingPolicy i1.configuration i1.state }
    let i3 : Implementation := fanHumidityPolicy clk.speedup_arm i2
    { i3 with state := lampPolicy i3.state }
  else i1

/-- Controller.cpp 199-201: the speed-up timer; `now` is the clock read at
line 199. -/
def fanSpeedup (now : Nat) (i : Implementation) : Implementation :=
  if i.state.fan_speed = Fan.Speed.LOW ∧ timeAfter now i.fan_speedup_timestamp = true then
    { i with state := { i.state with fan_speed := Fan.Speed.HIGH } }
  else i

/-- Controller.cpp 203-210: arming of the max-run timer; `now` is the clock
read at line 209. -/
def fanTimerArm (now : Nat) (i : Implementation) : Implementation :=
  if i.configuration.fan_max_run_minutes ≠ 0
      ∧ i.state.fan_speed ≠ Fan.Speed.OFF
      ∧ i.fan_timer = FanTimer.OFF then
    { i with
      fan_timer := FanTimer.ON
      fan_timer_timestamp :=
        add32 now (mul32 (mul32 i.configuration.fan_max_run_minutes 60) 1000) }
  else i

/-- Controller.cpp 212-220: expiry of the max-run and of the pause timer;
`check` is the clock read at line 212 and `arm` the one at line 216. -/
def fanTimerExpire (check arm : Nat) (i : Implementation) : Implementation :=
  if i.fan_timer ≠ FanTimer.OFF ∧ timeAfter check i.fan_timer_timestamp = true then
    if i.fan_timer = FanTimer.ON then
      { i with
        state := { i.state with fan_speed := Fan.Speed.OFF }
        fan_timer := FanTimer.PAUSE
        fan_timer_timestamp :=
          add32 arm (mul32 (mul32 i.configuration.fan_pause_minutes 60) 1000) }
    else
      { i with fan_timer := FanTimer.OFF }
  else i

/-- Controller.cpp 198-221: the timers advanced on every call in AUTO mode. -/
def advanceTimers (clk : Clock) (i : Implementation) : Implementation :=
  if i.state.mode = Mode.AUTO then
    fanTimerExpire clk.timer_check clk.pause_arm
      (fanTimerArm clk.max_run_arm (fanSpeedup clk.speedup_check i))
  else i

/-- Controller.cpp 118-221: `Controller::Implementation::run` up to the
commit, on the implementation object alone. -/
def Implementation.step (clk : Clock) (r : Readings) (i : Implementation) : Implementation :=
  advanceTimers clk
    (if timeAfter clk.rate_check i.next_update_timestamp = true then heavyEvaluation clk r i
      else i)

/-- Controller.cpp 118-229: `Controller::Implementation::run`; `clk` holds
what the `millis()` calls return and `r` what the sensor reader returns if it
is asked. -/
def Controller.run (clk : Clock) (r : Readings) (c : Controller) : Controller :=
  let i : Implementation := Implementation.step clk r c.implementation
  { implementation := i
    fan := Fan.setSpeed i.state.fan_speed c.fan
    heating := Heating.setVestibule i.state.heating_vestibule
      (Heating.setLounge i.state.heating_lounge c.heating)
    led := Led.setColor i.state.led_color c.led }

/-- Controller.cpp 384-390: `setAutoMode`. -/
def Implementation.setAutoMode (i : Implementation) : Implementation :=
  { i with
    state := { i.state with mode := Mode.AUTO, fan_speed := Fan.Speed.OFF }
    fan_timer := FanTimer.OFF }

/-- Controller.cpp 392-398: `setFanSpeed`. -/
def Implementation.setFanSpeed (value : Fan.Speed) (i : Implementation) : Implementation :=
  { i with
    state := { i.state with mode := Mode.MANUAL, fan_speed := value }
    fan_timer := FanTimer.OFF }

/-- Controller.cpp 400-405: `setHeatingLounge`. -/
def Implementation.setHeatingLounge (value : Bool) (i : Implementation) : Implementation :=
  { i with state := { i.state with mode := Mode.MANUAL, heating_lounge := value } }

/-- Controller.cpp 407-412: `setHeatingVestibule`. -/
def Implementation.setHeatingVestibule (value : Bool) (i : Implementation) : Implementation :=
  { i with state := { i.state with mode := Mode.MANUAL, heating_vestibule := value } }

/-- Controller.cpp 414-419: `setLedColor`. -/
def Implementation.setLedColor (value : Led.Color) (i : Implementation) : Implementation :=
  { i with state := { i.state with mode := Mode.MANUAL, led_color := value } }

/-- Controller.cpp 499-502: `Controller::setAutoMode`. -/
def Controller.setAutoMode (c : Controller) : Controller :=
  { c with implementation := c.implementation.setAutoMode }

/-- Controller.cpp 504-507: `Controller::setFanSpeed`. -/
def Controller.setFanSpeed (value : Fan.Speed) (c : Controller) : Controller :=
  { c with implementation := c.implementation.setFanSpeed value }

/-- Controller.cpp 509-512: `Controller::setHeatingLounge`. -/
def Controller.setHeatingLounge (value : Bool) (c : Controller) : Controller :=
  { c with implementation := c.implementation.setHeatingLounge value }

/-- Controller.cpp 514-517: `Controller::setHeatingVestibule`. -/
def Controller.setHeatingVestibule (value : Bool) (c : Controller) : Controller :=
  { c with implementation := c.implementation.setHeatingVestibule value }

/-- Controller.cpp 519-522: `Controller::setLedColor`. -/
def Controller.setLedColor (value : Led.Color) (c : Controller) : Controller :=
  { c with implementation := c.implementation.setLedColor value }

/-- The actuator objects as their constructors leave them (Fan.cpp 27-34,
Heating.cpp 27-35, Led.cpp 47-52; the lamp pins are not written there). -/
def Controller.init : Controller :=
  { implementation := Implementation.init
    fan := { speed := Fan.Speed.OFF, low_speed := 140, high_speed := 180, pwm := 0 }
    heating := { lounge := false, vestibule := false, pin_heat_a := false, pin_heat_b := false }
    led := { color := Led.Color.GREEN, pin_led_r := false, pin_led_g := false } }

/-! ## Example inputs -/

/-- Both channels valid, room and floor cold, air dry. -/
def Readings.cold : Readings :=
  { room_values_valid := true
    temperature_10th_c := 90
    humidity_per_mill := 500
    floor_value_valid := true
    floor_temperature_10th_c := 90 }

/-- Both channels valid, room cold, floor at 25.0 °C, above the default
floor-max of 20.0 °C. -/
def Readings.hotFloor : Readings :=
  { room_values_valid := true
    temperature_10th_c := 50
    humidity_per_mill := 500
    floor_value_valid := true
    floor_temperature_10th_c := 250 }

/-- The start-up controller with the default configuration switched to the
LINKED policy. -/
def Controller.linked : Controller :=
  { Controller.init with
    implementation :=
      { Implementation.init with
        configuration :=
          { Implementation.init.configuration with auto_mode := AutoMode.LINKED } } }

/-- The LINKED controller after the operator switched the vestibule heating
on by hand and then returned to automatic mode. -/
def Controller.vestibuleOnly : Controller :=
  Controller.setAutoMode (Controller.setHeatingVestibule true Controller.linked)

/-- Both channels valid, temperatures inside their bands, air at 80.0 %
(above the default max-humidity of 75.0 %). -/
def Readings.humid : Readings :=
  { room_values_valid := true
    temperature_10th_c := 150
    humidity_per_mill := 800
    floor_value_valid := true
    floor_temperature_10th_c := 150 }

/-- The start-up controller with max-run-minutes = 1 and pause-minutes = 1. -/
def Controller.timed : Controller :=
  { Controller.init with
    implementation :=
      { Implementation.init with
        configuration :=
          { Implementation.init.configuration with
            fan_max_run_minutes := 1
            fan_pause_minutes := 1 } } }

/-- The controller `timed` after a first tick at 1 ms with humid air: the fan
runs LOW and the max-run timer is armed. -/
def Controller.timedRunning : Controller :=
  Controller.run (Clock.still 1) Readings.humid Controller.timed

/-- The controller `timedRunning` one minute later: the max-run timer has
expired, the fan is forced OFF and the pause runs. -/
def Controller.timedPaused : Controller :=
  Controller.run (Clock.still 60002) Readings.humid Controller.timedRunning

/-- The start-up controller with speedup-delay-minutes = 0. -/
def Controller.noDelay : Controller :=
  { Controller.init with
    implementation :=
      { Implementation.init with
        configuration :=
          { Implementation.init.configuration with fan_speedup_delay_minutes := 0 } } }

/-- A first tick entered at 1 ms whose sensor reads take 29 ms: the clock is
read as 30 at line 178 and as 31 from line 199 on. -/
def Clock.slow : Clock :=
  { rate_check := 1
    rate_stamp := 1
    speedup_arm := 30
    speedup_check := 31
    max_run_arm := 31
    timer_check := 31
    pause_arm := 31 }

/-- The start-up controller after the operator switched the fan to HIGH by
hand (MANUAL mode). -/
def Controller.manualHigh : Controller :=
  Controller.setFanSpeed Fan.Speed.HIGH Controller.init

/-- Sensors.cpp 36-39: the copy of `timeAfter` in the sensor reader. -/
def Sensors.timeAfter (a b : Nat) : Bool := decide (toInt32 (sub32 b a) < 0)

/-- Stats.cpp 32-35: the copy of `timeAfter` in the statistics module. -/
def Stats.timeAfter (a b : Nat) : Bool := decide (toInt32 (sub32 b a) < 0)

/-- The polling loop: `run` called once per entry of `ticks`, each entry
giving the clock values of the call and what the sensor reader would return. -/
def Controller.runs : List (Clock × Readings) → Controller → Controller
  | [], c => c
  | p :: ps, c => Controller.runs ps (Controller.run p.1 p.2 c)

/-! ## Sensor reader (`Sensors.cpp`) -/

/-- What one call of `dht22.read()` leaves behind: whether it returned
`DHT_OK`, and the values `getTemperatureC() * 10` and `getHumidity() * 10`
yield afterwards (as `int16_t`). The DHT driver is an external library; its
outcome is an input of the model. -/
structure DhtRead where
  ok : Bool
  temperature_10th_c : Int
  humidity_per_mill : Int
  deriving DecidableEq, Repr

/-- Sensors.cpp 126-133: the data members of `Sensors::Implementation`. The
driver object `dht22` is represented by the two values its getters return,
the 16-bit counters by natural numbers below `65536`, and the two power
lines `Pin::DHT_PWR`, `Pin::DS_PWR` by the level last written to them. -/
structure Sensors where
  dht22_temperature_10th_c : Int
  dht22_humidity_per_mill : Int
  dht22_next_update_timestamp : Nat
  dht22_consecutive_errors : Nat
  ds18b20_last_value : Int
  ds18b20_consecutive_errors : Nat
  pin_dht_pwr : Bool
  pin_ds_pwr : Bool
  deriving DecidableEq, Repr

/-- Sensors.cpp 46-59: the constructor; both power lines are driven high.
The values held by the DHT driver before its first read are parameters. -/
def Sensors.init (temperature_10th_c humidity_per_mill : Int) : Sensors :=
  { dht22_temperature_10th_c := temperature_10th_c
    dht22_humidity_per_mill := humidity_per_mill
    dht22_next_update_timestamp := 0
    dht22_consecutive_errors := 0
    ds18b20_last_value := 20
    ds18b20_consecutive_errors := 0
    pin_dht_pwr := true
    pin_ds_pwr := true }

/-- Sensors.cpp 66-69: `areRoomValuesValid`. -/
def Sensors.areRoomValuesValid (s : Sensors) : Bool :=
  decide (s.dht22_consecutive_errors < 5)

/-- Sensors.cpp 107-124: `updateDht22`; `check` is the clock read at line
109 and `stamp` the one at line 122, and `read` is what `dht22.read()` does
if it is called. -/
def Sensors.updateDht22 (check stamp : Nat) (read : DhtRead) (s : Sensors) : Sensors :=
  if Sensors.timeAfter check s.dht22_next_update_timestamp = true then
    let s1 : Sensors :=
      { s with
        dht22_temperature_10th_c := read.temperature_10th_c
        dht22_humidity_per_mill := read.humidity_per_mill }
    let s2 : Sensors :=
      if read.ok = true then
        { s1 with dht22_consecutive_errors := 0 }
      else
        let e1 : Nat := (s1.dht22_consecutive_errors + 1) % 65536
        let e2 : Nat := if e1 = 0 then (e1 + 1) % 65536 else e1
        { s1 with
          dht22_consecutive_errors := e2
          pin_dht_pwr := decide (e2 % 5 ≠ 0) }
    { s2 with dht22_next_update_timestamp := add32 stamp 2000 }
  else s

/-- Sensors.cpp 71-75: `getTemperature10thC`. -/
def Sensors.getTemperature10thC (check stamp : Nat) (read : DhtRead) (s : Sensors) :
    Int × Sensors :=
  ((Sensors.updateDht22 check stamp read s).dht22_temperature_10th_c,
    Sensors.updateDht22 check stamp read s)

/-- Sensors.cpp 77-81: `getHumidityPerMill`. -/
def Sensors.getHumidityPerMill (check stamp : Nat) (read : DhtRead) (s : Sensors) :
    Int × Sensors :=
  ((Sensors.updateDht22 check stamp read s).dht22_humidity_per_mill,
    Sensors.updateDht22 check stamp read s)

/-- Sensors.cpp 83-86: `isFloorValueValid`. -/
def Sensors.isFloorValueValid (s : Sensors) : Bool :=
  decide (s.ds18b20_consecutive_errors < 5)

/-- Sensors.cpp 88-104: `getFloorTemperature10thC`; `read` is `some v` when
`requestTemperaturesByIndex(0)` succeeds and `getTempCByIndex(0) * 10` is `v`,
and `none` when the request fails. -/
def Sensors.getFloorTemperature10thC (read : Option Int) (s : Sensors) : Int × Sensors :=
  match read with
  | some v =>
    (v, { s with ds18b20_last_value := v, ds18b20_consecutive_errors := 0 })
  | none =>
    let e1 : Nat := (s.ds18b20_consecutive_errors + 1) % 65536
    let e2 : Nat := if e1 = 0 then (e1 + 1) % 65536 else e1
    (s.ds18b20_last_value,
      { s with
        ds18b20_consecutive_errors := e2
        pin_ds_pwr := decide (e2 % 5 ≠ 0) })

/-- The state of the floor channel after `n` consecutive failed reads. -/
def Sensors.floorFailures : Nat → Sensors → Sensors
  | 0, s => s
  | n + 1, s => (Sensors.getFloorTemperature10thC none (Sensors.floorFailures n s)).2

/-- The EEPROM of the microcontroller: one byte per address. -/
structure EEPROM where
  cell : Nat → Nat

/-- An EEPROM that was never written: every cell reads `0xFF`. -/
def EEPROM.erased : EEPROM := { cell := fun _ => 255 }

/-- The library call `EEPROM.read(address)`. -/
def EEPROM.read (address : Nat) (e : EEPROM) : Nat := e.cell address

/-- The library call `EEPROM.write(address, value)` with a `uint8_t` value. -/
def EEPROM.write (address value : Nat) (e : EEPROM) : EEPROM :=
  { cell := fun a => if a = address then value % 256 else e.cell a }

/-- The library call `EEPROM.put(address, object)`, given the bytes of the
object: they are written to consecutive addresses. -/
def EEPROM.put (address : Nat) : List Nat → EEPROM → EEPROM
  | [], e => e
  | b :: bs, e => EEPROM.put (address + 1) bs (EEPROM.write address b e)

/-- The library call `EEPROM.get(address, object)` for an object of `size`
bytes: the bytes at consecutive addresses. -/
def EEPROM.get (address : Nat) : Nat → EEPROM → List Nat
  | 0, _ => []
  | size + 1, e => EEPROM.read address e :: EEPROM.get (address + 1) size e

/-- The two bytes of an `int16_t` in memory (two's complement, low byte first). -/
def int16ToBytes (x : Int) : List Nat :=
  [(x % 65536).toNat % 256, (x % 65536).toNat / 256]

/-- The `int16_t` held by two bytes in memory (low byte first). -/
def int16OfBytes (lo hi : Nat) : Int :=
  if lo + 256 * hi < 32768 then ((lo + 256 * hi : Nat) : Int)
  else ((lo + 256 * hi : Nat) : Int) - 65536

/-- The object representation of a `Configuration`: the fields in
declaration order, without padding (18 bytes). -/
def Configuration.toBytes (c : Configuration) : List Nat :=
  int16ToBytes c.min_room_temperature_10th_c
    ++ int16ToBytes c.max_room_temperature_10th_c
    ++ int16ToBytes c.min_floor_temperature_10th_c
    ++ int16ToBytes c.max_floor_temperature_10th_c
    ++ int16ToBytes c.max_humidity_per_mill
    ++ int16ToBytes c.min_humidity_per_mill
    ++ [c.fan_max_run_minutes % 256, c.fan_pause_minutes % 256,
        c.fan_speedup_delay_minutes % 256, c.fan_speed_low % 256,
        c.fan_speed_high % 256, c.auto_mode.raw % 256]

/-- The `Configuration` whose object representation is the given bytes. -/
def Configuration.ofBytes (b : List Nat) : Configuration :=
  { min_room_temperature_10th_c := int16OfBytes (b.getD 0 0) (b.getD 1 0)
    max_room_temperature_10th_c := int16OfBytes (b.getD 2 0) (b.getD 3 0)
    min_floor_temperature_10th_c := int16OfBytes (b.getD 4 0) (b.getD 5 0)
    max_floor_temperature_10th_c := int16OfBytes (b.getD 6 0) (b.getD 7 0)
    max_humidity_per_mill := int16OfBytes (b.getD 8 0) (b.getD 9 0)
    min_humidity_per_mill := int16OfBytes (b.getD 10 0) (b.getD 11 0)
    fan_max_run_minutes := b.getD 12 0
    fan_pause_minutes := b.getD 13 0
    fan_speedup_delay_minutes := b.getD 14 0
    fan_speed_low := b.getD 15 0
    fan_speed_high := b.getD 16 0
    auto_mode := { raw := b.getD 17 0 } }

/-- The values a `Configuration` object can hold: `int16_t` thresholds and
`uint8_t` minutes, levels and policy byte. -/
def Configuration.InRange (c : Configuration) : Prop :=
  (-32768 ≤ c.min_room_temperature_10th_c ∧ c.min_room_temperature_10th_c ≤ 32767)
  ∧ (-32768 ≤ c.max_room_temperature_10th_c ∧ c.max_room_temperature_10th_c ≤ 32767)
  ∧ (-32768 ≤ c.min_floor_temperature_10th_c ∧ c.min_floor_temperature_10th_c ≤ 32767)
  ∧ (-32768 ≤ c.max_floor_temperature_10th_c ∧ c.max_floor_temperature_10th_c ≤ 32767)
  ∧ (-32768 ≤ c.max_humidity_per_mill ∧ c.max_humidity_per_mill ≤ 32767)
  ∧ (-32768 ≤ c.min_humidity_per_mill ∧ c.min_humidity_per_mill ≤ 32767)
  ∧ c.fan_max_run_minutes < 256 ∧ c.fan_pause_minutes < 256
  ∧ c.fan_speedup_delay_minutes < 256 ∧ c.fan_speed_low < 256
  ∧ c.fan_speed_high < 256 ∧ c.auto_mode.raw < 256

/-- Controller.cpp 428-436: `loadConfiguration`. -/
def Implementation.loadConfiguration (e : EEPROM) (i : Implementation) : Implementation :=
  if EEPROM.read 0 e ≠ 255 then
    let i1 : Implementation :=
      { i with configuration := Configuration.ofBytes (EEPROM.get 1 18 e) }
    if i1.configuration.auto_mode ≠ AutoMode.INDEPENDENT
        ∧ i1.configuration.auto_mode ≠ AutoMode.LINKED then
      { i1 with
        configuration := { i1.configuration with auto_mode := AutoMode.INDEPENDENT } }
    else i1
  else i

/-- Controller.cpp 438-442: `saveConfiguration`. -/
def Implementation.saveConfiguration (i : Implementation) (e : EEPROM) : EEPROM :=
  EEPROM.put 1 i.configuration.toBytes (EEPROM.write 0 0 e)

/-- The whole firmware state seen by the decision engine: the translation
unit `Controller.cpp`, the sensor reader behind `sensors`, and the EEPROM. -/
structure System where
  controller : Controller
  sensors : Sensors
  eeprom : EEPROM

/-- Controller.cpp 110-116: `setConfiguration`. -/
def System.setConfiguration (value : Configuration) (sys : System) : System :=
  let i : Implementation := { sys.controller.implementation with configuration := value }
  { sys with
    controller :=
      { sys.controller with
        implementation := i
        fan := Fan.setHighSpeed value.fan_speed_high
          (Fan.setLowSpeed value.fan_speed_low sys.controller.fan) }
    eeprom := i.saveConfiguration sys.eeprom }

/-- Controller.cpp 93-103: `begin`. `fan.begin()` only sets the PWM
frequency divisor, `heating.begin()` is empty and `sensors.begin()` starts the
DHT driver; `led.begin()` (Led.cpp 54-57) shows GREEN. -/
def System.begin (sys : System) : System :=
  let i : Implementation := sys.controller.implementation.loadConfiguration sys.eeprom
  { sys with
    controller :=
      { implementation := i
        fan := Fan.setHighSpeed i.configuration.fan_speed_high
          (Fan.setLowSpeed i.configuration.fan_speed_low sys.controller.fan)
        heating := sys.controller.heating
        led := Led.setColor Led.Color.GREEN sys.controller.led } }

/-- The firmware after the constructors have run, with a given EEPROM
content and given values in the DHT driver. -/
def System.init (e : EEPROM) (temperature_10th_c humidity_per_mill : Int) : System :=
  { controller := Controller.init
    sensors := Sensors.init temperature_10th_c humidity_per_mill
    eeprom := e }

/-- A stored configuration whose policy byte is neither enumerator. -/
def Configuration.oddPolicy : Configuration :=
  { Implementation.init.configuration with auto_mode := { raw := 7 } }

/-- Membership in the machine ranges can be computed. -/
instance Configuration.decidableInRange (c : Configuration) : Decidable c.InRange := by
  unfold Configuration.InRange
  exact inferInstance

/-! ## The engine together with the sensor reader -/

/-- What the two sensors do when they are read during one tick: the outcome
of `dht22.read()` if `getTemperature10thC` calls it, its outcome if
`getHumidityPerMill` calls it, and the outcome of the floor probe request. -/
structure Hardware where
  dht : DhtRead
  dht_again : DhtRead
  floor : Option Int
  deriving DecidableEq, Repr

/-- The values returned by the `millis()` calls of the sensor reader during
one heavy evaluation: Sensors.cpp 109 and 122 inside `getTemperature10thC`,
then the same two lines inside `getHumidityPerMill`. -/
structure Sensors.Clock where
  temperature_check : Nat
  temperature_stamp : Nat
  humidity_check : Nat
  humidity_stamp : Nat
  deriving DecidableEq, Repr

/-- A sensor clock that does not advance: every `millis()` call returns
`now`. -/
def Sensors.Clock.still (now : Nat) : Sensors.Clock :=
  { temperature_check := now
    temperature_stamp := now
    humidity_check := now
    humidity_stamp := now }

/-- Controller.cpp 123-128: the five calls on `sensors` of one heavy
evaluation, in source order, with the values they return and the state they
leave the sensor reader in. -/
def Sensors.poll (sclk : Sensors.Clock) (hw : Hardware) (s : Sensors) : Readings × Sensors :=
  let room_valid : Bool := Sensors.areRoomValuesValid s
  let t : Int × Sensors :=
    Sensors.getTemperature10thC sclk.temperature_check sclk.temperature_stamp hw.dht s
  let h : Int × Sensors :=
    Sensors.getHumidityPerMill sclk.humidity_check sclk.humidity_stamp hw.dht_again t.2
  let floor_valid : Bool := Sensors.isFloorValueValid h.2
  let f : Int × Sensors := Sensors.getFloorTemperature10thC hw.floor h.2
  ({ room_values_valid := room_valid
     temperature_10th_c := t.1
     humidity_per_mill := h.1
     floor_value_valid := floor_valid
     floor_temperature_10th_c := f.1 }, f.2)

/-- Controller.cpp 118-229: `run` with the sensor reader attached. The sensor
calls happen only inside the rate-limited block, so the reader changes only
when that block is entered (`Controller.run` uses the readings only there). -/
def System.run (clk : Clock) (sclk : Sensors.Clock) (hw : Hardware) (sys : System) : System :=
  { sys with
    controller := Controller.run clk (Sensors.poll sclk hw sys.sensors).1 sys.controller
    sensors :=
      if timeAfter clk.rate_check sys.controller.implementation.next_update_timestamp = true then
        (Sensors.poll sclk hw sys.sensors).2
      else sys.sensors }

/-- One tick of the whole firmware at a clock that does not advance during
the call. -/
def System.runAt (now : Nat) (hw : Hardware) (sys : System) : System :=
  System.run (Clock.still now) (Sensors.Clock.still now) hw sys

/-- The polling loop of the whole firmware: one `run` per entry, each at a
clock that does not advance during the call. -/
def System.runs : List (Nat × Hardware) → System → System
  | [], sys => sys
  | p :: ps, sys => System.runs ps (System.runAt p.1 p.2 sys)

/-- The room channel is flagged invalid while its reading is far below
room-min; the floor is fine. -/
def Readings.roomInvalid : Readings :=
  { room_values_valid := false
    temperature_10th_c := 50
    humidity_per_mill := 500
    floor_value_valid := true
    floor_temperature_10th_c := 150 }

/-- The start-up controller with the room thresholds in the wrong order:
room-min 20.0 °C above room-max 10.0 °C. -/
def Controller.inverted : Controller :=
  { Controller.init with
    implementation :=
      { Implementation.init with
        configuration :=
          { Implementation.init.configuration with
            min_room_temperature_10th_c := 200
            max_room_temperature_10th_c := 100 } } }

/-- The start-up controller after the fan was started by humid air at 1 ms
and escalated to HIGH once the five-minute speed-up delay had passed. -/
def Controller.autoHigh : Controller :=
  Controller.run (Clock.still 300002) Readings.humid
    (Controller.run (Clock.still 1) Readings.humid Controller.init)

/-- The calls the firmware makes on the decision engine: a tick with what the
sensor hardware does during it, the mode and manual setters, and the
replacement of the Configuration; `begin` is the start-up call. -/
inductive Operation where
  | begin
  | run (clk : Clock) (sclk : Sensors.Clock) (hw : Hardware)
  | setAutoMode
  | setFanSpeed (value : Fan.Speed)
  | setHeatingLounge (value : Bool)
  | setHeatingVestibule (value : Bool)
  | setLedColor (value : Led.Color)
  | setConfiguration (value : Configuration)

/-- One call on the engine. -/
def System.apply (op : Operation) (sys : System) : System :=
  match op with
  | Operation.begin => System.begin sys
  | Operation.run clk sclk hw => System.run clk sclk hw sys
  | Operation.setAutoMode =>
    { sys with controller := Controller.setAutoMode sys.controller }
  | Operation.setFanSpeed value =>
    { sys with controller := Controller.setFanSpeed value sys.controller }
  | Operation.setHeatingLounge value =>
    { sys with controller := Controller.setHeatingLounge value sys.controller }
  | Operation.setHeatingVestibule value =>
    { sys with controller := Controller.setHeatingVestibule value sys.controller }
  | Operation.setLedColor value =>
    { sys with controller := Controller.setLedColor value sys.controller }
  | Operation.setConfiguration value => System.setConfiguration value sys

/-- A sequence of calls, first to last. -/
def System.applyAll : List Operation → System → System
  | [], sys => sys
  | op :: ops, sys => System.applyAll ops (System.apply op sys)

/-- The humid air of `Readings.humid` as the sensor hardware delivers it. -/
def Hardware.humid : Hardware :=
  { dht := { ok := true, temperature_10th_c := 150, humidity_per_mill := 800 }
    dht_again := { ok := true, temperature_10th_c := 150, humidity_per_mill := 800 }
    floor := some 150 }

/-- A tick of the whole firmware at a clock that does not advance during the
call. -/
def Operation.runAt (now : Nat) (hw : Hardware) : Operation :=
  Operation.run (Clock.still now) (Sensors.Clock.still now) hw

/-- The default configuration with the fan levels changed to 100 (low) and
200 (high). -/
def Configuration.quiet : Configuration :=
  { Implementation.init.configuration with
    fan_speed_low := 100
    fan_speed_high := 200 }

/-- The default configuration with max-run-minutes = 1 and pause-minutes = 1. -/
def Configuration.timed : Configuration :=
  { Implementation.init.configuration with
    fan_max_run_minutes := 1
    fan_pause_minutes := 1 }

/-! ## Radio commands (`Radio.cpp`) -/

/-- Radio.cpp 83-270: `Radio::Implementation::run`, as far as the decision
engine is concerned. `frame` is the payload waiting in the receiver, if any
(`rf24.available()`), its length being `rf24.getDynamicPayloadSize()`; the
result is the return value `again` and the firmware state afterwards. The
replies written to the transmitter and the statistics object (`RESET_STATS`)
are outside the state modelled here. Command bytes follow the declaration
order of `enum class Command` (lines 85-98). -/
def Radio.run (frame : Option (List Nat)) (sys : System) : Bool × System :=
  match frame with
  | none => (false, sys)
  | some payload =>
    if payload.length = 0 then (false, sys)
    else
      let buffer : List Nat := payload.take 32
      let command : Nat := buffer.getD 0 0
      if command = 0 then (false, sys)
      else if command = 1 then (true, sys)
      else if command = 2 then (true, sys)
      else if command = 3 then
        if payload.length - 1 = 18 then
          (false, System.setConfiguration (Configuration.ofBytes (buffer.drop 1)) sys)
        else (false, sys)
      else if command = 4 then
        (false, { sys with controller := Controller.setAutoMode sys.controller })
      else if command = 5 then
        if payload.length > 1 then
          (false,
            { sys with
              controller := Controller.setFanSpeed { raw := buffer.getD 1 0 } sys.controller })
        else (false, sys)
      else if command = 6 then
        if payload.length > 1 then
          (false,
            { sys with
              controller :=
                Controller.setHeatingLounge (decide (buffer.getD 1 0 ≠ 0)) sys.controller })
        else (false, sys)
      else if command = 7 then
        if payload.length > 1 then
          (false,
            { sys with
              controller :=
                Controller.setHeatingVestibule (decide (buffer.getD 1 0 ≠ 0)) sys.controller })
        else (false, sys)
      else if command = 8 then
        if payload.length > 1 then
          (false,
            { sys with
              controller := Controller.setLedColor { raw := buffer.getD 1 0 } sys.controller })
        else (false, sys)
      else if command = 9 then (true, sys)
      else if command = 10 then (true, sys)
      else (false, sys)

/-! ## Console output of tenths values -/

/-- The value of an `int` expression of the 16-bit target after wrap-around. -/
def toInt16 (x : Int) : Int :=
  if x % 65536 < 32768 then x % 65536 else x % 65536 - 65536

/-- The Arduino macro `abs(x)`, `((x)>0?(x):-(x))`, on a 16-bit `int`. -/
def absInt16 (x : Int) : Int := if x > 0 then x else toInt16 (-x)

/-- Controller.cpp 38-44 (the same text in Stats.cpp 37-43 and Debug.cpp
32-38): `printTemperature`, as the characters sent to the console.
`Serial.print` of an `int` writes its decimal digits with a leading `-` for a
negative value; `/` and `%` are the truncating C operators; `println` ends the
line with CR LF. -/
def printTemperature (temperature_10th_c : Int) : String :=
  toString (Int.tdiv temperature_10th_c 10) ++ "."
    ++ toString (Int.tmod (absInt16 temperature_10th_c) 10) ++ "°C"
    ++ String.singleton (Char.ofNat 13) ++ String.singleton (Char.ofNat 10)

/-- Controller.cpp 46-52 (the same text in Stats.cpp 45-51 and Debug.cpp
40-46): `printHumidity`. -/
def printHumidity (humidity_per_mill : Int) : String :=
  toString (Int.tdiv humidity_per_mill 10) ++ "."
    ++ toString (Int.tmod (absInt16 humidity_per_mill) 10) ++ "%"
    ++ String.singleton (Char.ofNat 13) ++ String.singleton (Char.ofNat 10)

/-! ## Auxiliary lemmas -/

theorem timeAfter_iff (a b : Nat) :
    timeAfter a b = true ↔ 2147483648 ≤ sub32 b a := by
  unfold timeAfter toInt32 sub32
  simp only [decide_eq_true_eq]
  split <;> omega

theorem timeAfter_iff_window (a b : Nat) :
    timeAfter a b = true ↔ (1 ≤ sub32 a b ∧ sub32 a b ≤ 2147483648) := by
  rw [timeAfter_iff]
  unfold sub32
  have hx : a % 4294967296 < 4294967296 := Nat.mod_lt _ (by decide)
  have hy : b % 4294967296 < 4294967296 := Nat.mod_lt _ (by decide)
  generalize a % 4294967296 = x at hx
  generalize b % 4294967296 = y at hy
  omega

theorem minutes_millis (m : Nat) (hm : m < 256) :
    mul32 (mul32 m 60) 1000 = m * 60000 := by
  unfold mul32
  have h1 : m * 60 % 4294967296 = m * 60 := Nat.mod_eq_of_lt (by omega)
  rw [h1]
  have h2 : m * 60 * 1000 % 4294967296 = m * 60 * 1000 := Nat.mod_eq_of_lt (by omega)
  rw [h2]
  omega

theorem sub32_add32 (now x : Nat) : sub32 (add32 now x) now = x % 4294967296 := by
  unfold sub32 add32
  rw [Nat.add_mod now x]
  have hr : now % 4294967296 < 4294967296 := Nat.mod_lt _ (by decide)
  have hy : x % 4294967296 < 4294967296 := Nat.mod_lt _ (by decide)
  generalize now % 4294967296 = r at hr
  generalize x % 4294967296 = y at hy
  omega

theorem timeAfter_arm (now m : Nat) (hm : m < 256) :
    timeAfter now (add32 now (mul32 (mul32 m 60) 1000)) = false := by
  rw [Bool.eq_false_iff, Ne, timeAfter_iff, minutes_millis m hm, sub32_add32,
    Nat.mod_eq_of_lt (by omega)]
  omega

theorem advanceTimers_heating_lounge (clk : Clock) (i : Implementation) :
    (advanceTimers clk i).state.heating_lounge = i.state.heating_lounge := by
  unfold advanceTimers fanTimerExpire fanTimerArm fanSpeedup
  split_ifs <;> rfl


theorem advanceTimers_heating_vestibule (clk : Clock) (i : Implementation) :
    (advanceTimers clk i).state.heating_vestibule = i.state.heating_vestibule := by
  unfold advanceTimers fanTimerExpire fanTimerArm fanSpeedup
  split_ifs <;> rfl

theorem step_heavy (clk : Clock) (r : Readings) (i : Implementation)
    (h : timeAfter clk.rate_check i.next_update_timestamp = true) :
    Implementation.step clk r i = advanceTimers clk (heavyEvaluation clk r i) := by
  simp [Implementation.step, h]

theorem heavy_heating_lounge (clk : Clock) (r : Readings) (i : Implementation)
    (hmode : i.state.mode = Mode.AUTO) :
    (heavyEvaluation clk r i).state.heating_lounge
      = (heatingPolicy i.configuration (refreshSensors r i.state)).heating_lounge := by
  have hm : (refreshSensors r i.state).mode = Mode.AUTO := hmode
  simp only [heavyEvaluation, hm, if_true]
  unfold fanHumidityPolicy lampPolicy
  split_ifs <;> rfl

theorem heavy_heating_vestibule (clk : Clock) (r : Readings) (i : Implementation)
    (hmode : i.state.mode = Mode.AUTO) :
    (heavyEvaluation clk r i).state.heating_vestibule
      = (heatingPolicy i.configuration (refreshSensors r i.state)).heating_vestibule := by
  have hm : (refreshSensors r i.state).mode = Mode.AUTO := hmode
  simp only [heavyEvaluation, hm, if_true]
  unfold fanHumidityPolicy lampPolicy
  split_ifs <;> rfl

/-! ## Heating policies -/

theorem independent_lounge (cfg : Configuration) (r : Readings) (s : State) :
    (heatingIndependent cfg (refreshSensors r s)).heating_lounge
      = if r.room_values_valid = true then
          if s.heating_lounge = false
              ∧ r.temperature_10th_c ≤ cfg.min_room_temperature_10th_c then true
          else if s.heating_lounge = true
              ∧ r.temperature_10th_c ≥ cfg.max_room_temperature_10th_c then false
          else s.heating_lounge
        else s.heating_lounge := by
  unfold heatingIndependent refreshSensors
  simp only []
  split_ifs <;> rfl

theorem independent_vestibule (cfg : Configuration) (r : Readings) (s : State) :
    (heatingIndependent cfg (refreshSensors r s)).heating_vestibule
      = if r.floor_value_valid = true then
          if s.heating_vestibule = false
              ∧ r.floor_temperature_10th_c ≤ cfg.min_floor_temperature_10th_c then true
          else if s.heating_vestibule = true
              ∧ r.floor_temperature_10th_c ≥ cfg.max_floor_temperature_10th_c then false
          else s.heating_vestibule
        else s.heating_vestibule := by
  unfold heatingIndependent refreshSensors
  simp only []
  split_ifs <;> rfl


theorem run_heavy_independent_lounge (clk : Clock) (r : Readings) (c : Controller)
    (hmode : c.implementation.state.mode = Mode.AUTO)
    (hauto : c.implementation.configuration.auto_mode = AutoMode.INDEPENDENT)
    (hheavy : timeAfter clk.rate_check c.implementation.next_update_timestamp = true) :
    (Controller.run clk r c).implementation.state.heating_lounge
      = if r.room_values_valid = true then
          if c.implementation.state.heating_lounge = false
              ∧ r.temperature_10th_c
                ≤ c.implementation.configuration.min_room_temperature_10th_c then true
          else if c.implementation.state.heating_lounge = true
              ∧ r.temperature_10th_c
                ≥ c.implementation.configuration.max_room_temperature_10th_c then false
          else c.implementation.state.heating_lounge
        else c.implementation.state.heating_lounge := by
  show (Implementation.step clk r c.implementation).state.heating_lounge = _
  rw [step_heavy clk r _ hheavy, advanceTimers_heating_lounge,
    heavy_heating_lounge clk r _ hmode]
  unfold heatingPolicy
  rw [if_pos hauto, independent_lounge]

theorem run_heavy_independent_vestibule (clk : Clock) (r : Readings) (c : Controller)
    (hmode : c.implementation.state.mode = Mode.AUTO)
    (hauto : c.implementation.configuration.auto_mode = AutoMode.INDEPENDENT)
    (hheavy : timeAfter clk.rate_check c.implementation.next_update_timestamp = true) :
    (Controller.run clk r c).implementation.state.heating_vestibule
      = if r.floor_value_valid = true then
          if c.implementation.state.heating_vestibule = false
              ∧ r.floor_temperature_10th_c
                ≤ c.implementation.configuration.min_floor_temperature_10th_c then true
          else if c.implementation.state.heating_vestibule = true
              ∧ r.floor_temperature_10th_c
                ≥ c.implementation.configuration.max_floor_temperature_10th_c then false
          else c.implementation.state.heating_vestibule
        else c.implementation.state.heating_vestibule := by
  show (Implementation.step clk r c.implementation).state.heating_vestibule = _
  rw [step_heavy clk r _ hheavy, advanceTimers_heating_vestibule,
    heavy_heating_vestibule clk r _ hmode]
  unfold heatingPolicy
  rw [if_pos hauto, independent_vestibule]

/-- C1: in AUTO mode with the INDEPENDENT policy, a tick that performs a heavy
evaluation with a valid room reading `t` and room-min < room-max leaves
`heating_lounge` true if `t ≤ room-min`, false if `t ≥ room-max` and unchanged
inside the band; the same holds for `heating_vestibule` with the floor reading
and the floor thresholds; and the result of each zone is determined by that
zone's own prior value, reading, validity flag and thresholds. -/
theorem independent_hysteresis (clk : Clock) (r : Readings) (c : Controller)
    (hmode : c.implementation.state.mode = Mode.AUTO)
    (hauto : c.implementation.configuration.auto_mode = AutoMode.INDEPENDENT)
    (hheavy : timeAfter clk.rate_check c.implementation.next_update_timestamp = true) :
    (r.room_values_valid = true →
      c.implementation.configuration.min_room_temperature_10th_c
        < c.implementation.configuration.max_room_temperature_10th_c →
      (r.temperature_10th_c ≤ c.implementation.configuration.min_room_temperature_10th_c →
        (Controller.run clk r c).implementation.state.heating_lounge = true)
      ∧ (r.temperature_10th_c ≥ c.implementation.configuration.max_room_temperature_10th_c →
        (Controller.run clk r c).implementation.state.heating_lounge = false)
      ∧ (c.implementation.configuration.min_room_temperature_10th_c < r.temperature_10th_c →
        r.temperature_10th_c < c.implementation.configuration.max_room_temperature_10th_c →
        (Controller.run clk r c).implementation.state.heating_lounge
          = c.implementation.state.heating_lounge))
    ∧ (r.floor_value_valid = true →
      c.implementation.configuration.min_floor_temperature_10th_c
        < c.implementation.configuration.max_floor_temperature_10th_c →
      (r.floor_temperature_10th_c
          ≤ c.implementation.configuration.min_floor_temperature_10th_c →
        (Controller.run clk r c).implementation.state.heating_vestibule = true)
      ∧ (r.floor_temperature_10th_c
          ≥ c.implementation.configuration.max_floor_temperature_10th_c →
        (Controller.run clk r c).implementation.state.heating_vestibule = false)
      ∧ (c.implementation.configuration.min_floor_temperature_10th_c
          < r.floor_temperature_10th_c →
        r.floor_temperature_10th_c
          < c.implementation.configuration.max_floor_temperature_10th_c →
        (Controller.run clk r c).implementation.state.heating_vestibule
          = c.implementation.state.heating_vestibule))
    ∧ (∀ (clk2 : Clock) (r2 : Readings) (c2 : Controller),
      c2.implementation.state.mode = Mode.AUTO →
      c2.implementation.configuration.auto_mode = AutoMode.INDEPENDENT →
      timeAfter clk2.rate_check c2.implementation.next_update_timestamp = true →
      c2.implementation.state.heating_lounge = c.implementation.state.heating_lounge →
      r2.room_values_valid = r.room_values_valid →
      r2.temperature_10th_c = r.temperature_10th_c →
      c2.implementation.configuration.min_room_temperature_10th_c
        = c.implementation.configuration.min_room_temperature_10th_c →
      c2.implementation.configuration.max_room_temperature_10th_c
        = c.implementation.configuration.max_room_temperature_10th_c →
      (Controller.run clk2 r2 c2).implementation.state.heating_lounge
        = (Controller.run clk r c).implementation.state.heating_lounge)
    ∧ (∀ (clk2 : Clock) (r2 : Readings) (c2 : Controller),
      c2.implementation.state.mode = Mode.AUTO →
      c2.implementation.configuration.auto_mode = AutoMode.INDEPENDENT →
      timeAfter clk2.rate_check c2.implementation.next_update_timestamp = true →
      c2.implementation.state.heating_vestibule = c.implementation.state.heating_vestibule →
      r2.floor_value_valid = r.floor_value_valid →
      r2.floor_temperature_10th_c = r.floor_temperature_10th_c →
      c2.implementation.configuration.min_floor_temperature_10th_c
        = c.implementation.configuration.min_floor_temperature_10th_c →
      c2.implementation.configuration.max_floor_temperature_10th_c
        = c.implementation.configuration.max_floor_temperature_10th_c →
      (Controller.run clk2 r2 c2).implementation.state.heating_vestibule
        = (Controller.run clk r c).implementation.state.heating_vestibule) := by
  refine ⟨?_, ?_, ?_, ?_⟩
  · intro hv hlt
    rw [run_heavy_independent_lounge clk r c hmode hauto hheavy, if_pos hv]
    refine ⟨fun h => ?_, fun h => ?_, fun h1 h2 => ?_⟩
    · cases hl : c.implementation.state.heating_lounge
      · simp [h]
      · simp; omega
    · cases hl : c.implementation.state.heating_lounge
      · simp; omega
      · simp [h]
    · rw [if_neg (fun h3 => absurd h3.2 (by omega)),
        if_neg (fun h3 => absurd h3.2 (by omega))]
  · intro hv hlt
    rw [run_heavy_independent_vestibule clk r c hmode hauto hheavy, if_pos hv]
    refine ⟨fun h => ?_, fun h => ?_, fun h1 h2 => ?_⟩
    · cases hl : c.implementation.state.heating_vestibule
      · simp [h]
      · simp; omega
    · cases hl : c.implementation.state.heating_vestibule
      · simp; omega
      · simp [h]
    · rw [if_neg (fun h3 => absurd h3.2 (by omega)),
        if_neg (fun h3 => absurd h3.2 (by omega))]
  · intro clk2 r2 c2 hm2 ha2 hh2 e1 e2 e3 e4 e5
    rw [run_heavy_independent_lounge clk r c hmode hauto hheavy,
      run_heavy_independent_lounge clk2 r2 c2 hm2 ha2 hh2, e1, e2, e3, e4, e5]
  · intro clk2 r2 c2 hm2 ha2 hh2 e1 e2 e3 e4 e5
    rw [run_heavy_independent_vestibule clk r c hmode hauto hheavy,
      run_heavy_independent_vestibule clk2 r2 c2 hm2 ha2 hh2, e1, e2, e3, e4, e5]



/-! ## What the blocks of `run` leave alone, and the fan fields they compute -/

theorem heatingPolicy_frame (cfg : Configuration) (s : State) :
    (heatingPolicy cfg s).room_values_valid = s.room_values_valid
    ∧ (heatingPolicy cfg s).temperature_10th_c = s.temperature_10th_c
    ∧ (heatingPolicy cfg s).humidity_per_mill = s.humidity_per_mill
    ∧ (heatingPolicy cfg s).floor_value_valid = s.floor_value_valid
    ∧ (heatingPolicy cfg s).floor_temperature_10th_c = s.floor_temperature_10th_c
    ∧ (heatingPolicy cfg s).mode = s.mode
    ∧ (heatingPolicy cfg s).fan_speed = s.fan_speed
    ∧ (heatingPolicy cfg s).led_color = s.led_color := by
  unfold heatingPolicy heatingIndependent heatingLinked
  simp only []
  split_ifs <;> simp

theorem lampPolicy_frame (s : State) :
    (lampPolicy s).room_values_valid = s.room_values_valid
    ∧ (lampPolicy s).temperature_10th_c = s.temperature_10th_c
    ∧ (lampPolicy s).humidity_per_mill = s.humidity_per_mill
    ∧ (lampPolicy s).floor_value_valid = s.floor_value_valid
    ∧ (lampPolicy s).floor_temperature_10th_c = s.floor_temperature_10th_c
    ∧ (lampPolicy s).mode = s.mode
    ∧ (lampPolicy s).fan_speed = s.fan_speed
    ∧ (lampPolicy s).heating_lounge = s.heating_lounge
    ∧ (lampPolicy s).heating_vestibule = s.heating_vestibule := by
  unfold lampPolicy
  split_ifs <;> simp



theorem heavy_auto (clk : Clock) (r : Readings) (i : Implementation)
    (hmode : i.state.mode = Mode.AUTO) :
    heavyEvaluation clk r i
      = { fanHumidityPolicy clk.speedup_arm
            { i with
              next_update_timestamp := add32 clk.rate_stamp 2500
              state := heatingPolicy i.configuration (refreshSensors r i.state) } with
          state := lampPolicy (fanHumidityPolicy clk.speedup_arm
            { i with
              next_update_timestamp := add32 clk.rate_stamp 2500
              state := heatingPolicy i.configuration (refreshSensors r i.state) }).state } := by
  have hm : (refreshSensors r i.state).mode = Mode.AUTO := hmode
  simp only [heavyEvaluation, hm, if_true]

theorem heavy_fan (clk : Clock) (r : Readings) (i : Implementation)
    (hmode : i.state.mode = Mode.AUTO) :
    (heavyEvaluation clk r i).state.mode = Mode.AUTO
    ∧ (heavyEvaluation clk r i).configuration = i.configuration
    ∧ (heavyEvaluation clk r i).fan_timer_timestamp = i.fan_timer_timestamp
    ∧ (heavyEvaluation clk r i).state.fan_speed
        = (if i.fan_timer ≠ FanTimer.PAUSE ∧ r.room_values_valid = true then
            if i.state.fan_speed = Fan.Speed.OFF
                ∧ r.humidity_per_mill ≥ i.configuration.max_humidity_per_mill then
              Fan.Speed.LOW
            else if i.state.fan_speed ≠ Fan.Speed.OFF
                ∧ r.humidity_per_mill ≤ i.configuration.min_humidity_per_mill then
              Fan.Speed.OFF
            else i.state.fan_speed
          else i.state.fan_speed)
    ∧ (heavyEvaluation clk r i).fan_timer
        = (if i.fan_timer ≠ FanTimer.PAUSE ∧ r.room_values_valid = true then
            if i.state.fan_speed = Fan.Speed.OFF
                ∧ r.humidity_per_mill ≥ i.configuration.max_humidity_per_mill then
              i.fan_timer
            else if i.state.fan_speed ≠ Fan.Speed.OFF
                ∧ r.humidity_per_mill ≤ i.configuration.min_humidity_per_mill then
              FanTimer.OFF
            else i.fan_timer
          else i.fan_timer)
    ∧ (heavyEvaluation clk r i).fan_speedup_timestamp
        = (if i.fan_timer ≠ FanTimer.PAUSE ∧ r.room_values_valid = true then
            if i.state.fan_speed = Fan.Speed.OFF
                ∧ r.humidity_per_mill ≥ i.configuration.max_humidity_per_mill then
              add32 clk.speedup_arm
                (mul32 (mul32 i.configuration.fan_speedup_delay_minutes 60) 1000)
            else i.fan_speedup_timestamp
          else i.fan_speedup_timestamp) := by
  obtain ⟨p1, -, p3, -, -, p6, p7, -⟩ :=
    heatingPolicy_frame i.configuration (refreshSensors r i.state)
  have q1 : (refreshSensors r i.state).room_values_valid = r.room_values_valid := rfl
  have q3 : (refreshSensors r i.state).humidity_per_mill = r.humidity_per_mill := rfl
  have q6 : (refreshSensors r i.state).mode = i.state.mode := rfl
  have q7 : (refreshSensors r i.state).fan_speed = i.state.fan_speed := rfl
  rw [q1] at p1
  rw [q3] at p3
  rw [q6, hmode] at p6
  rw [q7] at p7
  rw [heavy_auto clk r i hmode]
  unfold fanHumidityPolicy
  simp only [p1, p3, p7]
  split_ifs <;> simp [lampPolicy_frame, p6, p7]


theorem advanceTimers_fan (clk : Clock) (i : Implementation)
    (hmode : i.state.mode = Mode.AUTO) (sp : Fan.Speed) (tm : FanTimer) (ts : Nat)
    (hsp : sp = if i.state.fan_speed = Fan.Speed.LOW
        ∧ timeAfter clk.speedup_check i.fan_speedup_timestamp = true then Fan.Speed.HIGH
      else i.state.fan_speed)
    (htm : tm = if i.configuration.fan_max_run_minutes ≠ 0 ∧ sp ≠ Fan.Speed.OFF
        ∧ i.fan_timer = FanTimer.OFF then FanTimer.ON
      else i.fan_timer)
    (hts : ts = if i.configuration.fan_max_run_minutes ≠ 0 ∧ sp ≠ Fan.Speed.OFF
        ∧ i.fan_timer = FanTimer.OFF then
        add32 clk.max_run_arm (mul32 (mul32 i.configuration.fan_max_run_minutes 60) 1000)
      else i.fan_timer_timestamp) :
    (advanceTimers clk i).state.fan_speed
        = (if tm ≠ FanTimer.OFF ∧ timeAfter clk.timer_check ts = true then
            if tm = FanTimer.ON then Fan.Speed.OFF else sp
          else sp)
    ∧ (advanceTimers clk i).fan_timer
        = (if tm ≠ FanTimer.OFF ∧ timeAfter clk.timer_check ts = true then
            if tm = FanTimer.ON then FanTimer.PAUSE else FanTimer.OFF
          else tm)
    ∧ (advanceTimers clk i).fan_timer_timestamp
        = (if tm ≠ FanTimer.OFF ∧ timeAfter clk.timer_check ts = true then
            if tm = FanTimer.ON then
              add32 clk.pause_arm (mul32 (mul32 i.configuration.fan_pause_minutes 60) 1000)
            else ts
          else ts)
    ∧ (advanceTimers clk i).fan_speedup_timestamp = i.fan_speedup_timestamp
    ∧ (advanceTimers clk i).configuration = i.configuration
    ∧ (advanceTimers clk i).state.mode = Mode.AUTO := by
  subst hsp htm hts
  unfold advanceTimers
  rw [if_pos hmode]
  unfold fanTimerExpire fanTimerArm fanSpeedup
  split_ifs <;> simp_all

/-! ## Heating policies: witnesses and the LINKED case -/

/-- Witness for C1: the start-up controller with a cold, valid room reading. -/
theorem independent_hysteresis_witness :
    Controller.init.implementation.state.mode = Mode.AUTO
    ∧ Controller.init.implementation.configuration.auto_mode = AutoMode.INDEPENDENT
    ∧ timeAfter 1 Controller.init.implementation.next_update_timestamp = true
    ∧ (Controller.run (Clock.still 1) Readings.cold
        Controller.init).implementation.state.heating_lounge
        = true :=
  ⟨rfl, rfl, by decide,
    ((independent_hysteresis (Clock.still 1) Readings.cold Controller.init rfl rfl (by decide)).1
      rfl (by decide)).1 (by decide)⟩

theorem run_heavy_linked (clk : Clock) (r : Readings) (c : Controller)
    (hmode : c.implementation.state.mode = Mode.AUTO)
    (hauto : c.implementation.configuration.auto_mode = AutoMode.LINKED)
    (hheavy : timeAfter clk.rate_check c.implementation.next_update_timestamp = true) :
    (Controller.run clk r c).implementation.state.heating_lounge
        = (heatingLinked c.implementation.configuration
            (refreshSensors r c.implementation.state)).heating_lounge
    ∧ (Controller.run clk r c).implementation.state.heating_vestibule
        = (heatingLinked c.implementation.configuration
            (refreshSensors r c.implementation.state)).heating_vestibule := by
  have hne : ¬ c.implementation.configuration.auto_mode = AutoMode.INDEPENDENT := by
    rw [hauto]; decide
  constructor
  · show (Implementation.step clk r c.implementation).state.heating_lounge = _
    rw [step_heavy clk r _ hheavy, advanceTimers_heating_lounge,
      heavy_heating_lounge clk r _ hmode]
    unfold heatingPolicy
    rw [if_neg hne, if_pos hauto]
  · show (Implementation.step clk r c.implementation).state.heating_vestibule = _
    rw [step_heavy clk r _ hheavy, advanceTimers_heating_vestibule,
      heavy_heating_vestibule clk r _ hmode]
    unfold heatingPolicy
    rw [if_neg hne, if_pos hauto]

/-- C2: in AUTO mode with the LINKED policy, a tick that performs a heavy
evaluation with a floor reading at or above floor-max never takes
`heating_lounge` or `heating_vestibule` from false to true, for every prior
state, every room reading and every validity flag. -/
theorem linked_never_starts_at_floor_max (clk : Clock) (r : Readings) (c : Controller)
    (hmode : c.implementation.state.mode = Mode.AUTO)
    (hauto : c.implementation.configuration.auto_mode = AutoMode.LINKED)
    (hheavy : timeAfter clk.rate_check c.implementation.next_update_timestamp = true)
    (hfloor : r.floor_temperature_10th_c
      ≥ c.implementation.configuration.max_floor_temperature_10th_c) :
    (c.implementation.state.heating_lounge = false →
      (Controller.run clk r c).implementation.state.heating_lounge = false)
    ∧ (c.implementation.state.heating_vestibule = false →
      (Controller.run clk r c).implementation.state.heating_vestibule = false) := by
  obtain ⟨e1, e2⟩ := run_heavy_linked clk r c hmode hauto hheavy
  have hflr : (refreshSensors r c.implementation.state).floor_temperature_10th_c
      = r.floor_temperature_10th_c := rfl
  have hl : (refreshSensors r c.implementation.state).heating_lounge
      = c.implementation.state.heating_lounge := rfl
  have hv : (refreshSensors r c.implementation.state).heating_vestibule
      = c.implementation.state.heating_vestibule := rfl
  rw [e1, e2]
  unfold heatingLinked
  constructor
  · intro h0
    split_ifs with a b d
    · exact absurd b.2.2 (by rw [hflr]; omega)
    · rfl
    · rw [hl, h0]
    · rw [hl, h0]
  · intro h0
    split_ifs with a b d
    · exact absurd b.2.2 (by rw [hflr]; omega)
    · rfl
    · rw [hv, h0]
    · rw [hv, h0]

/-- Witness for C2: the LINKED start-up controller, cold room, floor above floor-max. -/
theorem linked_never_starts_at_floor_max_witness :
    Controller.linked.implementation.state.mode = Mode.AUTO
    ∧ Controller.linked.implementation.configuration.auto_mode = AutoMode.LINKED
    ∧ timeAfter 1 Controller.linked.implementation.next_update_timestamp = true
    ∧ Readings.hotFloor.floor_temperature_10th_c
        ≥ Controller.linked.implementation.configuration.max_floor_temperature_10th_c
    ∧ (Controller.run (Clock.still 1) Readings.hotFloor
        Controller.linked).implementation.state.heating_lounge
        = false :=
  ⟨rfl, rfl, by decide, by decide,
    (linked_never_starts_at_floor_max (Clock.still 1) Readings.hotFloor Controller.linked rfl rfl
      (by decide) (by decide)).1 rfl⟩

/-- C3 fails on the code: in AUTO mode with the LINKED policy and both sensors
valid, a heavy evaluation with the floor above floor-max leaves the vestibule
heating on when the lounge heating is off, because the switch-off branch tests
`heating_lounge` only. The prior state is the one left by
`setHeatingVestibule(true)` followed by `setAutoMode()`. -/
theorem linked_floor_max_leaves_vestibule_on :
    Controller.vestibuleOnly.implementation.state.mode = Mode.AUTO
    ∧ Controller.vestibuleOnly.implementation.configuration.auto_mode = AutoMode.LINKED
    ∧ timeAfter 1 Controller.vestibuleOnly.implementation.next_update_timestamp = true
    ∧ Readings.hotFloor.room_values_valid = true
    ∧ Readings.hotFloor.floor_value_valid = true
    ∧ Readings.hotFloor.floor_temperature_10th_c
        ≥ Controller.vestibuleOnly.implementation.configuration.max_floor_temperature_10th_c
    ∧ Controller.vestibuleOnly.implementation.state.heating_lounge = false
    ∧ Controller.vestibuleOnly.implementation.state.heating_vestibule = true
    ∧ (Controller.run (Clock.still 1) Readings.hotFloor
        Controller.vestibuleOnly).implementation.state.heating_vestibule = true
    ∧ (Controller.run (Clock.still 1) Readings.hotFloor Controller.vestibuleOnly).heating.pin_heat_b
        = true := by
  decide

/-! ## Fan: humidity rule, speed-up, max-run and pause -/

theorem add32_minutes_mod (now m : Nat) :
    add32 now (mul32 (mul32 m 60) 1000) = (now + m * 60000) % 4294967296 := by
  unfold add32 mul32
  omega

theorem timeAfter_deadline (t a d : Nat) (hd : d < 2147483648) :
    timeAfter t ((a + d) % 4294967296) = true
      ↔ (d < sub32 t a ∧ sub32 t a ≤ d + 2147483648) := by
  rw [timeAfter_iff_window]
  unfold sub32
  have hx : t % 4294967296 < 4294967296 := Nat.mod_lt _ (by decide)
  generalize t % 4294967296 = x at hx
  omega

theorem timeAfter_deadline_early (t a m : Nat) (hm : m < 256)
    (h : sub32 t a ≤ m * 60000) :
    timeAfter t ((a + m * 60000) % 4294967296) = false := by
  rw [Bool.eq_false_iff, Ne, timeAfter_deadline t a (m * 60000) (by omega)]
  omega

/-- C4 as the code has it: in AUTO mode, a tick that performs a heavy
evaluation with the room sensor valid, the fan OFF, FanTimer OFF and humidity
at or above max-humidity. The heavy evaluation leaves the fan LOW and arms the
speed-up deadline `t178 + delay * 60000 (mod 2^32)`, `t178` being the clock
read at the arming. The timer block of the same tick compares the later read
`t199` with that deadline: unless a max-run deadline armed in this tick is
already passed at its check, the tick ends with the fan HIGH if `t199` is
after the speed-up deadline and LOW otherwise. FanTimer stays OFF when
max-run-minutes is zero; when it is nonzero FanTimer is armed with the
deadline `t209 + max-run * 60000 (mod 2^32)` and is ON after the tick if the
read `t212` is not after that deadline, while otherwise the tick ends with the
fan OFF and FanTimer PAUSE. If `t199` is at most `delay * 60000` ms after
`t178` and `t212` at most `max-run * 60000` ms after `t209` (as for a clock
that stands still during the call), the tick ends with the fan LOW and, for a
nonzero max-run-minutes, FanTimer ON. -/
theorem fan_start (clk : Clock) (r : Readings) (c : Controller)
    (hmode : c.implementation.state.mode = Mode.AUTO)
    (hheavy : timeAfter clk.rate_check c.implementation.next_update_timestamp = true)
    (hvalid : r.room_values_valid = true)
    (hoff : c.implementation.state.fan_speed = Fan.Speed.OFF)
    (htimer : c.implementation.fan_timer = FanTimer.OFF)
    (hhum : r.humidity_per_mill ≥ c.implementation.configuration.max_humidity_per_mill)
    (hd : c.implementation.configuration.fan_speedup_delay_minutes < 256)
    (hm : c.implementation.configuration.fan_max_run_minutes < 256) :
    (heavyEvaluation clk r c.implementation).state.fan_speed = Fan.Speed.LOW
    ∧ (Controller.run clk r c).implementation.fan_speedup_timestamp
        = (clk.speedup_arm + c.implementation.configuration.fan_speedup_delay_minutes * 60000)
            % 4294967296
    ∧ (c.implementation.configuration.fan_max_run_minutes = 0 →
        (Controller.run clk r c).implementation.fan_timer = FanTimer.OFF
        ∧ (Controller.run clk r c).implementation.state.fan_speed
            = (if timeAfter clk.speedup_check
                  ((clk.speedup_arm
                    + c.implementation.configuration.fan_speedup_delay_minutes * 60000)
                    % 4294967296) = true then Fan.Speed.HIGH
              else Fan.Speed.LOW))
    ∧ (c.implementation.configuration.fan_max_run_minutes ≠ 0 →
        timeAfter clk.timer_check
          ((clk.max_run_arm + c.implementation.configuration.fan_max_run_minutes * 60000)
            % 4294967296) = false →
        (Controller.run clk r c).implementation.fan_timer = FanTimer.ON
        ∧ (Controller.run clk r c).implementation.fan_timer_timestamp
            = (clk.max_run_arm + c.implementation.configuration.fan_max_run_minutes * 60000)
                % 4294967296
        ∧ (Controller.run clk r c).implementation.state.fan_speed
            = (if timeAfter clk.speedup_check
                  ((clk.speedup_arm
                    + c.implementation.configuration.fan_speedup_delay_minutes * 60000)
                    % 4294967296) = true then Fan.Speed.HIGH
              else Fan.Speed.LOW))
    ∧ (c.implementation.configuration.fan_max_run_minutes ≠ 0 →
        timeAfter clk.timer_check
          ((clk.max_run_arm + c.implementation.configuration.fan_max_run_minutes * 60000)
            % 4294967296) = true →
        (Controller.run clk r c).implementation.state.fan_speed = Fan.Speed.OFF
        ∧ (Controller.run clk r c).implementation.fan_timer = FanTimer.PAUSE
        ∧ (Controller.run clk r c).implementation.fan_timer_timestamp
            = (clk.pause_arm + c.implementation.configuration.fan_pause_minutes * 60000)
                % 4294967296)
    ∧ (sub32 clk.speedup_check clk.speedup_arm
          ≤ c.implementation.configuration.fan_speedup_delay_minutes * 60000 →
        sub32 clk.timer_check clk.max_run_arm
          ≤ c.implementation.configuration.fan_max_run_minutes * 60000 →
        (Controller.run clk r c).implementation.state.fan_speed = Fan.Speed.LOW
        ∧ (c.implementation.configuration.fan_max_run_minutes ≠ 0 →
          (Controller.run clk r c).implementation.fan_timer = FanTimer.ON
          ∧ (Controller.run clk r c).implementation.fan_timer_timestamp
              = (clk.max_run_arm
                  + c.implementation.configuration.fan_max_run_minutes * 60000)
                  % 4294967296)
        ∧ (c.implementation.configuration.fan_max_run_minutes = 0 →
          (Controller.run clk r c).implementation.fan_timer = FanTimer.OFF)) := by
  obtain ⟨g1, g2, g3, g4, g5, g6⟩ := heavy_fan clk r c.implementation hmode
  have hgate : c.implementation.fan_timer ≠ FanTimer.PAUSE ∧ r.room_values_valid = true :=
    ⟨by rw [htimer]; decide, hvalid⟩
  rw [if_pos hgate, if_pos ⟨hoff, hhum⟩] at g4 g5 g6
  rw [htimer] at g5
  obtain ⟨a1, a2, a3, a4, a5, a6⟩ :=
    advanceTimers_fan clk (heavyEvaluation clk r c.implementation) g1 _ _ _ rfl rfl rfl
  rw [g4, g5, g6, g2, g3] at a1 a2 a3
  rw [g6, add32_minutes_mod] at a4
  simp only [add32_minutes_mod] at a1 a2 a3
  have hLO : Fan.Speed.LOW ≠ Fan.Speed.OFF := by decide
  have hHO : Fan.Speed.HIGH ≠ Fan.Speed.OFF := by decide
  have hrun : (Controller.run clk r c).implementation
      = advanceTimers clk (heavyEvaluation clk r c.implementation) := by
    show Implementation.step clk r c.implementation = _
    exact step_heavy clk r _ hheavy
  rw [hrun]
  have hzero : c.implementation.configuration.fan_max_run_minutes = 0 →
      (advanceTimers clk (heavyEvaluation clk r c.implementation)).fan_timer = FanTimer.OFF
      ∧ (advanceTimers clk (heavyEvaluation clk r c.implementation)).state.fan_speed
          = (if timeAfter clk.speedup_check
                ((clk.speedup_arm
                  + c.implementation.configuration.fan_speedup_delay_minutes * 60000)
                  % 4294967296) = true then Fan.Speed.HIGH
            else Fan.Speed.LOW) := by
    intro h0
    rw [a1, a2]
    simp [h0]
  have hnz : c.implementation.configuration.fan_max_run_minutes ≠ 0 →
      timeAfter clk.timer_check
        ((clk.max_run_arm + c.implementation.configuration.fan_max_run_minutes * 60000)
          % 4294967296) = false →
      (advanceTimers clk (heavyEvaluation clk r c.implementation)).fan_timer = FanTimer.ON
      ∧ (advanceTimers clk (heavyEvaluation clk r c.implementation)).fan_timer_timestamp
          = (clk.max_run_arm + c.implementation.configuration.fan_max_run_minutes * 60000)
              % 4294967296
      ∧ (advanceTimers clk (heavyEvaluation clk r c.implementation)).state.fan_speed
          = (if timeAfter clk.speedup_check
                ((clk.speedup_arm
                  + c.implementation.configuration.fan_speedup_delay_minutes * 60000)
                  % 4294967296) = true then Fan.Speed.HIGH
            else Fan.Speed.LOW) := by
    intro h0 hna
    rw [a1, a2, a3]
    by_cases hsp : timeAfter clk.speedup_check
        ((clk.speedup_arm
          + c.implementation.configuration.fan_speedup_delay_minutes * 60000)
          % 4294967296) = true
    · simp [h0, hna, hsp, hHO]
    · simp [h0, hna, hsp, hLO]
  have hpass : c.implementation.configuration.fan_max_run_minutes ≠ 0 →
      timeAfter clk.timer_check
        ((clk.max_run_arm + c.implementation.configuration.fan_max_run_minutes * 60000)
          % 4294967296) = true →
      (advanceTimers clk (heavyEvaluation clk r c.implementation)).state.fan_speed
          = Fan.Speed.OFF
      ∧ (advanceTimers clk (heavyEvaluation clk r c.implementation)).fan_timer
          = FanTimer.PAUSE
      ∧ (advanceTimers clk (heavyEvaluation clk r c.implementation)).fan_timer_timestamp
          = (clk.pause_arm + c.implementation.configuration.fan_pause_minutes * 60000)
              % 4294967296 := by
    intro h0 ha
    rw [a1, a2, a3]
    by_cases hsp : timeAfter clk.speedup_check
        ((clk.speedup_arm
          + c.implementation.configuration.fan_speedup_delay_minutes * 60000)
          % 4294967296) = true
    · simp [h0, ha, hsp, hHO]
    · simp [h0, ha, hsp, hLO]
  refine ⟨g4, a4, hzero, hnz, hpass, ?_⟩
  intro he1 he2
  have hs := timeAfter_deadline_early clk.speedup_check clk.speedup_arm _ hd he1
  have ht := timeAfter_deadline_early clk.timer_check clk.max_run_arm _ hm he2
  by_cases h0 : c.implementation.configuration.fan_max_run_minutes = 0
  · obtain ⟨z1, z2⟩ := hzero h0
    rw [hs] at z2
    exact ⟨z2, fun h => absurd h0 h, fun _ => z1⟩
  · obtain ⟨z1, z2, z3⟩ := hnz h0 ht
    rw [hs] at z3
    exact ⟨z3, fun _ => ⟨z1, z2⟩, fun h => absurd h h0⟩

/-- Witness for C4 as amended: the controller with max-run 1 minute at its
first tick, humid air, the sensor reads taking 29 ms: the five-minute
speed-up deadline is armed at 30 ms and the fan ends the tick LOW. -/
theorem fan_start_witness :
    Controller.timed.implementation.state.mode = Mode.AUTO
    ∧ timeAfter Clock.slow.rate_check Controller.timed.implementation.next_update_timestamp
        = true
    ∧ Readings.humid.room_values_valid = true
    ∧ Controller.timed.implementation.state.fan_speed = Fan.Speed.OFF
    ∧ Controller.timed.implementation.fan_timer = FanTimer.OFF
    ∧ Readings.humid.humidity_per_mill
        ≥ Controller.timed.implementation.configuration.max_humidity_per_mill
    ∧ (Controller.run Clock.slow Readings.humid Controller.timed).implementation.state.fan_speed
        = Fan.Speed.LOW
    ∧ (Controller.run Clock.slow Readings.humid
        Controller.timed).implementation.fan_speedup_timestamp = 300030 :=
  ⟨rfl, by decide, rfl, rfl, rfl, by decide,
    ((fan_start Clock.slow Readings.humid Controller.timed rfl (by decide) rfl rfl rfl
      (by decide) (by decide) (by decide)).2.2.2.2.2 (by decide) (by decide)).1,
    (fan_start Clock.slow Readings.humid Controller.timed rfl (by decide) rfl rfl rfl
      (by decide) (by decide) (by decide)).2.1⟩

/-- C4 as stated fails: with speedup-delay-minutes = 0 the deadline armed at
line 178 is the clock value read there, and the read at line 199, one
millisecond later, is after it, so the tick that starts the fan ends with the
fan HIGH, not LOW. -/
theorem fan_start_counterexample :
    Controller.noDelay.implementation.state.mode = Mode.AUTO
    ∧ timeAfter Clock.slow.rate_check Controller.noDelay.implementation.next_update_timestamp
        = true
    ∧ Readings.humid.room_values_valid = true
    ∧ Controller.noDelay.implementation.state.fan_speed = Fan.Speed.OFF
    ∧ Controller.noDelay.implementation.fan_timer = FanTimer.OFF
    ∧ Readings.humid.humidity_per_mill
        ≥ Controller.noDelay.implementation.configuration.max_humidity_per_mill
    ∧ (Controller.run Clock.slow Readings.humid
        Controller.noDelay).implementation.fan_speedup_timestamp = 30
    ∧ (Controller.run Clock.slow Readings.humid Controller.noDelay).implementation.state.fan_speed
        = Fan.Speed.HIGH
    ∧ ¬ ((Controller.run Clock.slow Readings.humid
        Controller.noDelay).implementation.state.fan_speed = Fan.Speed.LOW)
    ∧ (Controller.run Clock.slow Readings.humid Controller.noDelay).fan.speed = Fan.Speed.HIGH := by
  decide

/-- C5: in AUTO mode, a tick that performs a heavy evaluation with the room
sensor valid, FanTimer not PAUSE, the fan LOW or HIGH and humidity at or below
min-humidity leaves the fan OFF and FanTimer OFF, whatever the two deadlines. -/
theorem fan_humidity_stop (clk : Clock) (r : Readings) (c : Controller)
    (hmode : c.implementation.state.mode = Mode.AUTO)
    (hheavy : timeAfter clk.rate_check c.implementation.next_update_timestamp = true)
    (hvalid : r.room_values_valid = true)
    (hnp : c.implementation.fan_timer ≠ FanTimer.PAUSE)
    (hrun : c.implementation.state.fan_speed = Fan.Speed.LOW
      ∨ c.implementation.state.fan_speed = Fan.Speed.HIGH)
    (hhum : r.humidity_per_mill ≤ c.implementation.configuration.min_humidity_per_mill) :
    (Controller.run clk r c).implementation.state.fan_speed = Fan.Speed.OFF
    ∧ (Controller.run clk r c).implementation.fan_timer = FanTimer.OFF := by
  have hne : c.implementation.state.fan_speed ≠ Fan.Speed.OFF := by
    rcases hrun with h | h <;> rw [h] <;> decide
  obtain ⟨g1, g2, g3, g4, g5, g6⟩ := heavy_fan clk r c.implementation hmode
  rw [if_pos ⟨hnp, hvalid⟩, if_neg (fun h => hne h.1), if_pos ⟨hne, hhum⟩] at g4 g5
  obtain ⟨a1, a2, a3, a4, a5, a6⟩ :=
    advanceTimers_fan clk (heavyEvaluation clk r c.implementation) g1 _ _ _ rfl rfl rfl
  rw [g4, g5] at a1 a2
  have hOL : Fan.Speed.OFF ≠ Fan.Speed.LOW := by decide
  simp only [hOL, false_and, if_false, ne_eq, not_true_eq_false, and_false] at a1 a2
  show (Implementation.step clk r c.implementation).state.fan_speed = _
    ∧ (Implementation.step clk r c.implementation).fan_timer = _
  rw [step_heavy clk r _ hheavy]
  exact ⟨a1, a2⟩

/-- Witness for C5: the running fan of `timedRunning`, dry air at the next
heavy evaluation. -/
theorem fan_humidity_stop_witness :
    Controller.timedRunning.implementation.state.mode = Mode.AUTO
    ∧ timeAfter 3000 Controller.timedRunning.implementation.next_update_timestamp = true
    ∧ Readings.cold.room_values_valid = true
    ∧ Controller.timedRunning.implementation.fan_timer ≠ FanTimer.PAUSE
    ∧ Controller.timedRunning.implementation.state.fan_speed = Fan.Speed.LOW
    ∧ Readings.cold.humidity_per_mill
        ≤ Controller.timedRunning.implementation.configuration.min_humidity_per_mill
    ∧ (Controller.run (Clock.still 3000) Readings.cold
        Controller.timedRunning).implementation.state.fan_speed
        = Fan.Speed.OFF
    ∧ (Controller.run (Clock.still 3000) Readings.cold
        Controller.timedRunning).implementation.fan_timer
        = FanTimer.OFF :=
  ⟨by decide, by decide, rfl, by decide, by decide, by decide,
    fan_humidity_stop (Clock.still 3000) Readings.cold Controller.timedRunning (by decide) (by
        decide) rfl
      (by decide) (Or.inl (by decide)) (by decide)⟩

theorem sub32_elapsed_le (t0 d e : Nat) (hle : e ≤ d) (hd : d < 4294967296) :
    sub32 ((t0 + d) % 4294967296) ((t0 + e) % 4294967296) = d - e := by
  obtain ⟨k, rfl⟩ : ∃ k, d = e + k := ⟨d - e, by omega⟩
  unfold sub32
  have hr : (t0 + e) % 4294967296 < 4294967296 := Nat.mod_lt _ (by decide)
  have h1 : (t0 + (e + k)) % 4294967296 = ((t0 + e) % 4294967296 + k) % 4294967296 := by
    rw [← Nat.add_assoc, Nat.add_mod, Nat.mod_eq_of_lt (show k < 4294967296 by omega)]
  rw [h1]
  generalize (t0 + e) % 4294967296 = x at hr
  omega

theorem sub32_elapsed_gt (t0 d e : Nat) (hlt : d < e) (he : e ≤ d + 2147483648) :
    sub32 ((t0 + d) % 4294967296) ((t0 + e) % 4294967296) = 4294967296 - (e - d) := by
  obtain ⟨k, rfl⟩ : ∃ k, e = d + k := ⟨e - d, by omega⟩
  unfold sub32
  have hr : (t0 + d) % 4294967296 < 4294967296 := Nat.mod_lt _ (by decide)
  have h1 : (t0 + (d + k)) % 4294967296 = ((t0 + d) % 4294967296 + k) % 4294967296 := by
    rw [← Nat.add_assoc, Nat.add_mod, Nat.mod_eq_of_lt (show k < 4294967296 by omega)]
  rw [h1]
  generalize (t0 + d) % 4294967296 = x at hr
  omega

theorem timeAfter_not_elapsed (t0 d e : Nat) (hle : e ≤ d) (hd : d < 2147483648) :
    timeAfter ((t0 + e) % 4294967296) ((t0 + d) % 4294967296) = false := by
  rw [Bool.eq_false_iff, Ne, timeAfter_iff, sub32_elapsed_le t0 d e hle (by omega)]
  omega

theorem timeAfter_elapsed (t0 d e : Nat) (hlt : d < e) (he : e ≤ d + 2147483648) :
    timeAfter ((t0 + e) % 4294967296) ((t0 + d) % 4294967296) = true := by
  rw [timeAfter_iff, sub32_elapsed_gt t0 d e hlt he]
  omega

theorem step_fan_low_keeps (clk : Clock) (r : Readings) (i : Implementation)
    (hmode : i.state.mode = Mode.AUTO)
    (hlow : i.state.fan_speed = Fan.Speed.LOW)
    (hshut : ¬ (timeAfter clk.rate_check i.next_update_timestamp = true
      ∧ i.fan_timer ≠ FanTimer.PAUSE ∧ r.room_values_valid = true
      ∧ r.humidity_per_mill ≤ i.configuration.min_humidity_per_mill))
    (hexp : ¬ (i.fan_timer = FanTimer.ON
      ∧ timeAfter clk.timer_check i.fan_timer_timestamp = true))
    (hfresh : ¬ (i.fan_timer = FanTimer.OFF ∧ i.configuration.fan_max_run_minutes ≠ 0
      ∧ timeAfter clk.timer_check
          (add32 clk.max_run_arm (mul32 (mul32 i.configuration.fan_max_run_minutes 60) 1000))
        = true)) :
    (Implementation.step clk r i).state.fan_speed
        = (if timeAfter clk.speedup_check i.fan_speedup_timestamp = true then Fan.Speed.HIGH
          else Fan.Speed.LOW)
    ∧ (Implementation.step clk r i).fan_speedup_timestamp = i.fan_speedup_timestamp := by
  have hLO : Fan.Speed.LOW ≠ Fan.Speed.OFF := by decide
  have hHO : Fan.Speed.HIGH ≠ Fan.Speed.OFF := by decide
  have hne : i.state.fan_speed ≠ Fan.Speed.OFF := by rw [hlow]; exact hLO
  -- the implementation object that reaches the timers
  have hJ : ∃ j : Implementation,
      Implementation.step clk r i = advanceTimers clk j
      ∧ j.state.mode = Mode.AUTO ∧ j.configuration = i.configuration
      ∧ j.fan_timer_timestamp = i.fan_timer_timestamp
      ∧ j.state.fan_speed = Fan.Speed.LOW ∧ j.fan_timer = i.fan_timer
      ∧ j.fan_speedup_timestamp = i.fan_speedup_timestamp := by
    by_cases hheavy : timeAfter clk.rate_check i.next_update_timestamp = true
    · refine ⟨heavyEvaluation clk r i, step_heavy clk r i hheavy, ?_⟩
      obtain ⟨g1, g2, g3, g4, g5, g6⟩ := heavy_fan clk r i hmode
      by_cases hgate : i.fan_timer ≠ FanTimer.PAUSE ∧ r.room_values_valid = true
      · have hns : ¬ (i.state.fan_speed ≠ Fan.Speed.OFF
            ∧ r.humidity_per_mill ≤ i.configuration.min_humidity_per_mill) :=
          fun h => hshut ⟨hheavy, hgate.1, hgate.2, h.2⟩
        rw [if_pos hgate, if_neg (fun h => hne h.1), if_neg hns] at g4 g5
        rw [if_pos hgate, if_neg (fun h => hne h.1)] at g6
        exact ⟨g1, g2, g3, g4.trans hlow, g5, g6⟩
      · rw [if_neg hgate] at g4 g5 g6
        exact ⟨g1, g2, g3, g4.trans hlow, g5, g6⟩
    · refine ⟨i, ?_, hmode, rfl, rfl, hlow, rfl, rfl⟩
      unfold Implementation.step
      rw [if_neg hheavy]
  obtain ⟨j, hstep, j1, j2, j3, j4, j5, j6⟩ := hJ
  obtain ⟨a1, -, -, a4, -, -⟩ := advanceTimers_fan clk j j1 _ _ _ rfl rfl rfl
  rw [j2, j3, j4, j5, j6] at a1
  rw [j6] at a4
  rw [hstep]
  refine ⟨?_, a4⟩
  rw [a1]
  by_cases hsp : timeAfter clk.speedup_check i.fan_speedup_timestamp = true <;>
    by_cases h0 : i.configuration.fan_max_run_minutes = 0 <;>
    cases h3 : i.fan_timer <;>
    simp_all

/-- C6: in AUTO mode with the fan LOW, a tick in which neither the humidity
shut-off nor the max-run expiry fires (be it of the running timer or of one
armed in this very tick) leaves the fan HIGH if `now`, the clock read at line
199, is after the armed speed-up deadline (wrap-around comparison) and LOW
otherwise, and keeps the deadline; so for a deadline armed at `t0` with a
delay of `d` minutes the fan is LOW at a tick `e` ms after arming when
`e ≤ d * 60000` and HIGH when `e` exceeds `d * 60000` (by at most `2^31`, the
reach of the comparison). -/
theorem fan_speedup_escalation (clk : Clock) (r : Readings) (c : Controller)
    (hmode : c.implementation.state.mode = Mode.AUTO)
    (hlow : c.implementation.state.fan_speed = Fan.Speed.LOW)
    (hshut : ¬ (timeAfter clk.rate_check c.implementation.next_update_timestamp = true
      ∧ c.implementation.fan_timer ≠ FanTimer.PAUSE ∧ r.room_values_valid = true
      ∧ r.humidity_per_mill ≤ c.implementation.configuration.min_humidity_per_mill))
    (hexp : ¬ (c.implementation.fan_timer = FanTimer.ON
      ∧ timeAfter clk.timer_check c.implementation.fan_timer_timestamp = true))
    (hfresh : ¬ (c.implementation.fan_timer = FanTimer.OFF
      ∧ c.implementation.configuration.fan_max_run_minutes ≠ 0
      ∧ timeAfter clk.timer_check
          (add32 clk.max_run_arm
            (mul32 (mul32 c.implementation.configuration.fan_max_run_minutes 60) 1000))
        = true)) :
    (Controller.run clk r c).implementation.state.fan_speed
        = (if timeAfter clk.speedup_check c.implementation.fan_speedup_timestamp = true then
            Fan.Speed.HIGH
          else Fan.Speed.LOW)
    ∧ (Controller.run clk r c).implementation.fan_speedup_timestamp
        = c.implementation.fan_speedup_timestamp
    ∧ (∀ t0 d e : Nat, d < 256 →
        c.implementation.fan_speedup_timestamp = (t0 + d * 60000) % 4294967296 →
        clk.speedup_check = (t0 + e) % 4294967296 →
        (e ≤ d * 60000 →
          (Controller.run clk r c).implementation.state.fan_speed = Fan.Speed.LOW)
        ∧ (d * 60000 < e → e ≤ d * 60000 + 2147483648 →
          (Controller.run clk r c).implementation.state.fan_speed = Fan.Speed.HIGH)) := by
  obtain ⟨s1, s2⟩ := step_fan_low_keeps clk r c.implementation hmode hlow hshut hexp hfresh
  refine ⟨s1, s2, ?_⟩
  intro t0 d e hd hts hnow
  constructor
  · intro hle
    show (Implementation.step clk r c.implementation).state.fan_speed = _
    rw [s1, hts, hnow, timeAfter_not_elapsed t0 (d * 60000) e hle (by omega)]
    rfl
  · intro hlt hreach
    show (Implementation.step clk r c.implementation).state.fan_speed = _
    rw [s1, hts, hnow, timeAfter_elapsed t0 (d * 60000) e hlt hreach]
    rfl

/-- Witness for C6: `timedRunning` was armed at 1 ms with a delay of 5
minutes; a tick 1999 ms later leaves the fan LOW. -/
theorem fan_speedup_escalation_witness :
    Controller.timedRunning.implementation.state.mode = Mode.AUTO
    ∧ Controller.timedRunning.implementation.state.fan_speed = Fan.Speed.LOW
    ∧ Controller.timedRunning.implementation.fan_speedup_timestamp
        = (1 + 5 * 60000) % 4294967296
    ∧ (Controller.run (Clock.still 2000) Readings.humid
        Controller.timedRunning).implementation.state.fan_speed = Fan.Speed.LOW :=
  ⟨by decide, by decide, by decide,
    ((fan_speedup_escalation (Clock.still 2000) Readings.humid Controller.timedRunning
      (by decide) (by decide) (by decide) (by decide) (by decide)).2.2 1 5 1999 (by decide)
      (by decide) (by decide)).1 (by decide)⟩

theorem advanceTimers_expire_on (clk : Clock) (j : Implementation)
    (hmode : j.state.mode = Mode.AUTO) (hon : j.fan_timer = FanTimer.ON)
    (hexp : timeAfter clk.timer_check j.fan_timer_timestamp = true) :
    (advanceTimers clk j).state.fan_speed = Fan.Speed.OFF
    ∧ (advanceTimers clk j).fan_timer = FanTimer.PAUSE
    ∧ (advanceTimers clk j).fan_timer_timestamp
        = add32 clk.pause_arm (mul32 (mul32 j.configuration.fan_pause_minutes 60) 1000) := by
  obtain ⟨a1, a2, a3, -, -, -⟩ := advanceTimers_fan clk j hmode _ _ _ rfl rfl rfl
  rw [a1, a2, a3]
  simp [hon, hexp]

theorem advanceTimers_fan_off (clk : Clock) (j : Implementation)
    (hmode : j.state.mode = Mode.AUTO) (hoff : j.state.fan_speed = Fan.Speed.OFF) :
    (advanceTimers clk j).state.fan_speed = Fan.Speed.OFF
    ∧ (advanceTimers clk j).fan_timer
        = (if j.fan_timer ≠ FanTimer.OFF
              ∧ timeAfter clk.timer_check j.fan_timer_timestamp = true then
            if j.fan_timer = FanTimer.ON then FanTimer.PAUSE else FanTimer.OFF
          else j.fan_timer) := by
  have hOL : Fan.Speed.OFF ≠ Fan.Speed.LOW := by decide
  obtain ⟨a1, a2, -, -, -, -⟩ := advanceTimers_fan clk j hmode _ _ _ rfl rfl rfl
  rw [a1, a2]
  simp [hoff, hOL]

/-- C7 as the code has it: in AUTO mode, whenever FanTimer is ON and `now`
(the clock read at line 212) is after its deadline, the tick leaves the fan
OFF whatever the humidity; FanTimer ends PAUSE with deadline
`now + pause * 60000 (mod 2^32)` (`now` as read at line 216), except when the
heavy evaluation of the same tick applied the humidity shut-off (room valid,
fan not OFF, humidity at or below min-humidity), which resets FanTimer to OFF. -/
theorem fan_max_run_expiry (clk : Clock) (r : Readings) (c : Controller)
    (hmode : c.implementation.state.mode = Mode.AUTO)
    (hon : c.implementation.fan_timer = FanTimer.ON)
    (hexp : timeAfter clk.timer_check c.implementation.fan_timer_timestamp = true) :
    (Controller.run clk r c).implementation.state.fan_speed = Fan.Speed.OFF
    ∧ ((timeAfter clk.rate_check c.implementation.next_update_timestamp = true
          ∧ r.room_values_valid = true
          ∧ c.implementation.state.fan_speed ≠ Fan.Speed.OFF
          ∧ r.humidity_per_mill ≤ c.implementation.configuration.min_humidity_per_mill) →
        (Controller.run clk r c).implementation.fan_timer = FanTimer.OFF)
    ∧ (¬ (timeAfter clk.rate_check c.implementation.next_update_timestamp = true
          ∧ r.room_values_valid = true
          ∧ c.implementation.state.fan_speed ≠ Fan.Speed.OFF
          ∧ r.humidity_per_mill ≤ c.implementation.configuration.min_humidity_per_mill) →
        (Controller.run clk r c).implementation.fan_timer = FanTimer.PAUSE
        ∧ (Controller.run clk r c).implementation.fan_timer_timestamp
            = (clk.pause_arm + c.implementation.configuration.fan_pause_minutes * 60000)
                % 4294967296) := by
  have hnp : c.implementation.fan_timer ≠ FanTimer.PAUSE := by rw [hon]; decide
  show (Implementation.step clk r c.implementation).state.fan_speed = _
    ∧ (_ → (Implementation.step clk r c.implementation).fan_timer = _)
    ∧ (_ → (Implementation.step clk r c.implementation).fan_timer = _
      ∧ (Implementation.step clk r c.implementation).fan_timer_timestamp = _)
  by_cases hS : timeAfter clk.rate_check c.implementation.next_update_timestamp = true
      ∧ r.room_values_valid = true
      ∧ c.implementation.state.fan_speed ≠ Fan.Speed.OFF
      ∧ r.humidity_per_mill ≤ c.implementation.configuration.min_humidity_per_mill
  · obtain ⟨hheavy, hvalid, hne, hhum⟩ := hS
    obtain ⟨g1, g2, g3, g4, g5, g6⟩ := heavy_fan clk r c.implementation hmode
    rw [if_pos ⟨hnp, hvalid⟩, if_neg (fun h => hne h.1), if_pos ⟨hne, hhum⟩] at g4 g5
    obtain ⟨b1, b2⟩ := advanceTimers_fan_off clk _ g1 g4
    rw [g5] at b2
    simp only [ne_eq, not_true_eq_false, false_and, if_false] at b2
    rw [step_heavy clk r _ hheavy]
    exact ⟨b1, fun _ => b2, fun h => absurd ⟨hheavy, hvalid, hne, hhum⟩ h⟩
  · have hJ : ∃ j : Implementation,
        Implementation.step clk r c.implementation = advanceTimers clk j
        ∧ j.state.mode = Mode.AUTO ∧ j.configuration = c.implementation.configuration
        ∧ j.fan_timer_timestamp = c.implementation.fan_timer_timestamp
        ∧ j.fan_timer = FanTimer.ON := by
      by_cases hheavy : timeAfter clk.rate_check c.implementation.next_update_timestamp = true
      · refine ⟨heavyEvaluation clk r c.implementation, step_heavy clk r _ hheavy, ?_⟩
        obtain ⟨g1, g2, g3, g4, g5, g6⟩ := heavy_fan clk r c.implementation hmode
        refine ⟨g1, g2, g3, ?_⟩
        rw [g5]
        split_ifs with h1 h2 h3
        · exact hon
        · exact absurd ⟨hheavy, h1.2, h3.1, h3.2⟩ hS
        · exact hon
        · exact hon
      · refine ⟨c.implementation, ?_, hmode, rfl, rfl, hon⟩
        unfold Implementation.step
        rw [if_neg hheavy]
    obtain ⟨j, hstep, j1, j2, j3, j4⟩ := hJ
    obtain ⟨b1, b2, b3⟩ := advanceTimers_expire_on clk j j1 j4 (by rw [j3]; exact hexp)
    rw [j2, add32_minutes_mod] at b3
    rw [hstep]
    exact ⟨b1, fun h => absurd h hS, fun _ => ⟨b2, b3⟩⟩

/-- Witness for C7 as amended: `timedRunning` one minute after arming, humid air. -/
theorem fan_max_run_expiry_witness :
    Controller.timedRunning.implementation.state.mode = Mode.AUTO
    ∧ Controller.timedRunning.implementation.fan_timer = FanTimer.ON
    ∧ timeAfter 60002 Controller.timedRunning.implementation.fan_timer_timestamp = true
    ∧ (Controller.run (Clock.still 60002) Readings.humid
        Controller.timedRunning).implementation.state.fan_speed = Fan.Speed.OFF :=
  ⟨by decide, by decide, by decide,
    (fan_max_run_expiry (Clock.still 60002) Readings.humid Controller.timedRunning (by decide)
        (by decide)
      (by decide)).1⟩

/-- C7 as stated fails: with FanTimer ON and its deadline passed, a tick whose
heavy evaluation sees dry air ends with FanTimer OFF, not PAUSE. -/
theorem fan_max_run_expiry_counterexample :
    Controller.timedRunning.implementation.state.mode = Mode.AUTO
    ∧ Controller.timedRunning.implementation.fan_timer = FanTimer.ON
    ∧ timeAfter 60002 Controller.timedRunning.implementation.fan_timer_timestamp = true
    ∧ (Controller.run (Clock.still 60002) Readings.cold
        Controller.timedRunning).implementation.fan_timer
        = FanTimer.OFF
    ∧ ¬ ((Controller.run (Clock.still 60002) Readings.cold
        Controller.timedRunning).implementation.fan_timer
        = FanTimer.PAUSE) := by
  decide

/-- C8: in AUTO mode, while FanTimer is PAUSE with the fan OFF and `now` (the
clock read at line 212, whatever the other reads of the tick return) is not
after the pause deadline, every tick (heavy evaluation or not, whatever the
readings) leaves the fan OFF and FanTimer PAUSE. -/
theorem fan_pause_holds (clk : Clock) (r : Readings) (c : Controller)
    (hmode : c.implementation.state.mode = Mode.AUTO)
    (hpause : c.implementation.fan_timer = FanTimer.PAUSE)
    (hoff : c.implementation.state.fan_speed = Fan.Speed.OFF)
    (hnot : timeAfter clk.timer_check c.implementation.fan_timer_timestamp = false) :
    (Controller.run clk r c).implementation.state.fan_speed = Fan.Speed.OFF
    ∧ (Controller.run clk r c).implementation.fan_timer = FanTimer.PAUSE := by
  have hJ : ∃ j : Implementation,
      Implementation.step clk r c.implementation = advanceTimers clk j
      ∧ j.state.mode = Mode.AUTO
      ∧ j.fan_timer_timestamp = c.implementation.fan_timer_timestamp
      ∧ j.state.fan_speed = Fan.Speed.OFF ∧ j.fan_timer = FanTimer.PAUSE := by
    by_cases hheavy : timeAfter clk.rate_check c.implementation.next_update_timestamp = true
    · refine ⟨heavyEvaluation clk r c.implementation, step_heavy clk r _ hheavy, ?_⟩
      obtain ⟨g1, g2, g3, g4, g5, g6⟩ := heavy_fan clk r c.implementation hmode
      rw [if_neg (fun h => h.1 hpause)] at g4 g5
      exact ⟨g1, g3, g4.trans hoff, g5.trans hpause⟩
    · refine ⟨c.implementation, ?_, hmode, rfl, hoff, hpause⟩
      unfold Implementation.step
      rw [if_neg hheavy]
  obtain ⟨j, hstep, j1, j3, j4, j5⟩ := hJ
  obtain ⟨b1, b2⟩ := advanceTimers_fan_off clk j j1 j4
  rw [j3, hnot] at b2
  simp only [Bool.false_eq_true, and_false, if_false] at b2
  show (Implementation.step clk r c.implementation).state.fan_speed = _
    ∧ (Implementation.step clk r c.implementation).fan_timer = _
  rw [hstep]
  exact ⟨b1, b2.trans j5⟩

/-- Witness for C8: `timedPaused` ten seconds into its pause, humid air, at a
heavy evaluation. -/
theorem fan_pause_holds_witness :
    Controller.timedPaused.implementation.state.mode = Mode.AUTO
    ∧ Controller.timedPaused.implementation.fan_timer = FanTimer.PAUSE
    ∧ Controller.timedPaused.implementation.state.fan_speed = Fan.Speed.OFF
    ∧ timeAfter 70000 Controller.timedPaused.implementation.fan_timer_timestamp = false
    ∧ timeAfter 70000 Controller.timedPaused.implementation.next_update_timestamp = true
    ∧ Readings.humid.humidity_per_mill
        ≥ Controller.timedPaused.implementation.configuration.max_humidity_per_mill
    ∧ (Controller.run (Clock.still 70000) Readings.humid
        Controller.timedPaused).implementation.state.fan_speed
        = Fan.Speed.OFF
    ∧ (Controller.run (Clock.still 70000) Readings.humid
        Controller.timedPaused).implementation.fan_timer
        = FanTimer.PAUSE :=
  ⟨by decide, by decide, by decide, by decide, by decide, by decide,
    fan_pause_holds (Clock.still 70000) Readings.humid Controller.timedPaused (by decide) (by
        decide)
      (by decide) (by decide)⟩

/-! ## Lamp -/

theorem advanceTimers_frame (clk : Clock) (i : Implementation) :
    (advanceTimers clk i).state.led_color = i.state.led_color
    ∧ (advanceTimers clk i).state.room_values_valid = i.state.room_values_valid
    ∧ (advanceTimers clk i).state.floor_value_valid = i.state.floor_value_valid := by
  unfold advanceTimers fanTimerExpire fanTimerArm fanSpeedup
  split_ifs <;> simp

theorem fanHumidityPolicy_frame (now : Nat) (i : Implementation) :
    (fanHumidityPolicy now i).state.room_values_valid = i.state.room_values_valid
    ∧ (fanHumidityPolicy now i).state.floor_value_valid = i.state.floor_value_valid
    ∧ (fanHumidityPolicy now i).state.heating_lounge = i.state.heating_lounge
    ∧ (fanHumidityPolicy now i).state.heating_vestibule = i.state.heating_vestibule := by
  unfold fanHumidityPolicy
  split_ifs <;> simp

theorem lampPolicy_color (s : State) :
    ((lampPolicy s).led_color = Led.Color.RED
      ↔ (s.room_values_valid = false ∨ s.floor_value_valid = false))
    ∧ ((lampPolicy s).led_color = Led.Color.YELLOW
      ↔ (s.room_values_valid = true ∧ s.floor_value_valid = true
        ∧ (s.heating_lounge = true ∨ s.heating_vestibule = true)))
    ∧ ((lampPolicy s).led_color = Led.Color.GREEN
      ↔ (s.room_values_valid = true ∧ s.floor_value_valid = true
        ∧ s.heating_lounge = false ∧ s.heating_vestibule = false)) := by
  have h1 : Led.Color.YELLOW ≠ Led.Color.RED := by decide
  have h2 : Led.Color.GREEN ≠ Led.Color.RED := by decide
  have h3 : Led.Color.GREEN ≠ Led.Color.YELLOW := by decide
  have h4 : Led.Color.RED ≠ Led.Color.YELLOW := by decide
  have h5 : Led.Color.RED ≠ Led.Color.GREEN := by decide
  have h6 : Led.Color.YELLOW ≠ Led.Color.GREEN := by decide
  unfold lampPolicy
  cases s.room_values_valid <;> cases s.floor_value_valid <;> cases s.heating_lounge <;>
    cases s.heating_vestibule <;> simp [h1, h2, h3, h4, h5, h6]

/-- C9: after a tick that performs a heavy evaluation in AUTO mode, the lamp
color in State is RED iff the room or the floor validity flag in State is
false, YELLOW iff both flags are true and a zone is heating, GREEN iff both
flags are true and no zone is heating; flags and heating booleans are those
the evaluation produced (the flags as read from the sensor reader), and the
rest of the tick leaves the color the evaluation computed. -/
theorem lamp_after_heavy (clk : Clock) (r : Readings) (c : Controller)
    (hmode : c.implementation.state.mode = Mode.AUTO)
    (hheavy : timeAfter clk.rate_check c.implementation.next_update_timestamp = true) :
    ((Controller.run clk r c).implementation.state.led_color = Led.Color.RED
      ↔ ((Controller.run clk r c).implementation.state.room_values_valid = false
        ∨ (Controller.run clk r c).implementation.state.floor_value_valid = false))
    ∧ ((Controller.run clk r c).implementation.state.led_color = Led.Color.YELLOW
      ↔ ((Controller.run clk r c).implementation.state.room_values_valid = true
        ∧ (Controller.run clk r c).implementation.state.floor_value_valid = true
        ∧ ((Controller.run clk r c).implementation.state.heating_lounge = true
          ∨ (Controller.run clk r c).implementation.state.heating_vestibule = true)))
    ∧ ((Controller.run clk r c).implementation.state.led_color = Led.Color.GREEN
      ↔ ((Controller.run clk r c).implementation.state.room_values_valid = true
        ∧ (Controller.run clk r c).implementation.state.floor_value_valid = true
        ∧ (Controller.run clk r c).implementation.state.heating_lounge = false
        ∧ (Controller.run clk r c).implementation.state.heating_vestibule = false))
    ∧ (Controller.run clk r c).implementation.state.led_color
        = (heavyEvaluation clk r c.implementation).state.led_color
    ∧ (Controller.run clk r c).implementation.state.heating_lounge
        = (heavyEvaluation clk r c.implementation).state.heating_lounge
    ∧ (Controller.run clk r c).implementation.state.heating_vestibule
        = (heavyEvaluation clk r c.implementation).state.heating_vestibule
    ∧ (Controller.run clk r c).implementation.state.room_values_valid = r.room_values_valid
    ∧ (Controller.run clk r c).implementation.state.floor_value_valid
        = r.floor_value_valid := by
  obtain ⟨t1, t2, t3⟩ := advanceTimers_frame clk (heavyEvaluation clk r c.implementation)
  have t4 := advanceTimers_heating_lounge clk (heavyEvaluation clk r c.implementation)
  have t5 := advanceTimers_heating_vestibule clk (heavyEvaluation clk r c.implementation)
  have hrun : (Controller.run clk r c).implementation
      = advanceTimers clk (heavyEvaluation clk r c.implementation) :=
    step_heavy clk r c.implementation hheavy
  rw [hrun, t1, t2, t3, t4, t5]
  have hH := heavy_auto clk r c.implementation hmode
  obtain ⟨f1, f2, f3, f4⟩ := fanHumidityPolicy_frame clk.speedup_arm
    { c.implementation with
      next_update_timestamp := add32 clk.rate_stamp 2500
      state := heatingPolicy c.implementation.configuration
        (refreshSensors r c.implementation.state) }
  obtain ⟨p1, -, -, p4, -, -, -, -⟩ :=
    heatingPolicy_frame c.implementation.configuration
      (refreshSensors r c.implementation.state)
  have q1 : (refreshSensors r c.implementation.state).room_values_valid
      = r.room_values_valid := rfl
  have q4 : (refreshSensors r c.implementation.state).floor_value_valid
      = r.floor_value_valid := rfl
  generalize fanHumidityPolicy clk.speedup_arm
    { c.implementation with
      next_update_timestamp := add32 clk.rate_stamp 2500
      state := heatingPolicy c.implementation.configuration
        (refreshSensors r c.implementation.state) } = k at hH f1 f2 f3 f4
  rw [hH]
  obtain ⟨l1, -, -, l4, -, -, -, l8, l9⟩ := lampPolicy_frame k.state
  obtain ⟨m1, m2, m3⟩ := lampPolicy_color k.state
  show (((lampPolicy k.state).led_color = Led.Color.RED
      ↔ ((lampPolicy k.state).room_values_valid = false
        ∨ (lampPolicy k.state).floor_value_valid = false))
    ∧ ((lampPolicy k.state).led_color = Led.Color.YELLOW
      ↔ ((lampPolicy k.state).room_values_valid = true
        ∧ (lampPolicy k.state).floor_value_valid = true
        ∧ ((lampPolicy k.state).heating_lounge = true
          ∨ (lampPolicy k.state).heating_vestibule = true)))
    ∧ ((lampPolicy k.state).led_color = Led.Color.GREEN
      ↔ ((lampPolicy k.state).room_values_valid = true
        ∧ (lampPolicy k.state).floor_value_valid = true
        ∧ (lampPolicy k.state).heating_lounge = false
        ∧ (lampPolicy k.state).heating_vestibule = false))
    ∧ (lampPolicy k.state).led_color = (lampPolicy k.state).led_color
    ∧ (lampPolicy k.state).heating_lounge = (lampPolicy k.state).heating_lounge
    ∧ (lampPolicy k.state).heating_vestibule = (lampPolicy k.state).heating_vestibule
    ∧ (lampPolicy k.state).room_values_valid = r.room_values_valid
    ∧ (lampPolicy k.state).floor_value_valid = r.floor_value_valid)
  rw [l1, l4, l8, l9]
  refine ⟨m1, m2, m3, rfl, rfl, rfl, ?_, ?_⟩
  · rw [f1]; exact p1.trans q1
  · rw [f2]; exact p4.trans q4

/-- Witness for C9: the first tick of the start-up controller with a cold,
valid room and floor shows YELLOW. -/
theorem lamp_after_heavy_witness :
    Controller.init.implementation.state.mode = Mode.AUTO
    ∧ timeAfter 1 Controller.init.implementation.next_update_timestamp = true
    ∧ (Controller.run (Clock.still 1) Readings.cold Controller.init).implementation.state.led_color
        = Led.Color.YELLOW :=
  ⟨rfl, by decide,
    (lamp_after_heavy (Clock.still 1) Readings.cold Controller.init rfl (by decide)).2.1.mpr
      ⟨by decide, by decide, Or.inl (by decide)⟩⟩

/-! ## Mode control -/

/-- C10: from every state, `setAutoMode` yields mode AUTO, fan speed OFF and
FanTimer OFF, leaves both heating booleans, the lamp color, the sensor fields
and the Configuration unchanged, and calling it twice equals calling it once. -/
theorem setAutoMode_effect (c : Controller) :
    (Controller.setAutoMode c).implementation.state.mode = Mode.AUTO
    ∧ (Controller.setAutoMode c).implementation.state.fan_speed = Fan.Speed.OFF
    ∧ (Controller.setAutoMode c).implementation.fan_timer = FanTimer.OFF
    ∧ (Controller.setAutoMode c).implementation.state.heating_lounge
        = c.implementation.state.heating_lounge
    ∧ (Controller.setAutoMode c).implementation.state.heating_vestibule
        = c.implementation.state.heating_vestibule
    ∧ (Controller.setAutoMode c).implementation.state.led_color
        = c.implementation.state.led_color
    ∧ (Controller.setAutoMode c).implementation.state.room_values_valid
        = c.implementation.state.room_values_valid
    ∧ (Controller.setAutoMode c).implementation.state.temperature_10th_c
        = c.implementation.state.temperature_10th_c
    ∧ (Controller.setAutoMode c).implementation.state.humidity_per_mill
        = c.implementation.state.humidity_per_mill
    ∧ (Controller.setAutoMode c).implementation.state.floor_value_valid
        = c.implementation.state.floor_value_valid
    ∧ (Controller.setAutoMode c).implementation.state.floor_temperature_10th_c
        = c.implementation.state.floor_temperature_10th_c
    ∧ (Controller.setAutoMode c).implementation.configuration
        = c.implementation.configuration
    ∧ Controller.setAutoMode (Controller.setAutoMode c) = Controller.setAutoMode c :=
  ⟨rfl, rfl, rfl, rfl, rfl, rfl, rfl, rfl, rfl, rfl, rfl, rfl, rfl⟩

/-! ## Manual setters and MANUAL mode -/

/-- C11: each manual setter, from every state, sets mode MANUAL and its own
State field to the given value and leaves every other State field and the
Configuration unchanged; `setFanSpeed` leaves both heating booleans as they
were and sets FanTimer to OFF, the other three leave FanTimer as it was. -/
theorem manual_setters_effect (c : Controller) (speed : Fan.Speed) (value : Bool)
    (color : Led.Color) :
    ((Controller.setFanSpeed speed c).implementation.state
        = { c.implementation.state with mode := Mode.MANUAL, fan_speed := speed }
      ∧ (Controller.setFanSpeed speed c).implementation.state.heating_lounge
          = c.implementation.state.heating_lounge
      ∧ (Controller.setFanSpeed speed c).implementation.state.heating_vestibule
          = c.implementation.state.heating_vestibule
      ∧ (Controller.setFanSpeed speed c).implementation.configuration
          = c.implementation.configuration
      ∧ (Controller.setFanSpeed speed c).implementation.fan_timer = FanTimer.OFF)
    ∧ ((Controller.setHeatingLounge value c).implementation.state
        = { c.implementation.state with mode := Mode.MANUAL, heating_lounge := value }
      ∧ (Controller.setHeatingLounge value c).implementation.configuration
          = c.implementation.configuration
      ∧ (Controller.setHeatingLounge value c).implementation.fan_timer
          = c.implementation.fan_timer)
    ∧ ((Controller.setHeatingVestibule value c).implementation.state
        = { c.implementation.state with mode := Mode.MANUAL, heating_vestibule := value }
      ∧ (Controller.setHeatingVestibule value c).implementation.configuration
          = c.implementation.configuration
      ∧ (Controller.setHeatingVestibule value c).implementation.fan_timer
          = c.implementation.fan_timer)
    ∧ ((Controller.setLedColor color c).implementation.state
        = { c.implementation.state with mode := Mode.MANUAL, led_color := color }
      ∧ (Controller.setLedColor color c).implementation.configuration
          = c.implementation.configuration
      ∧ (Controller.setLedColor color c).implementation.fan_timer
          = c.implementation.fan_timer) :=
  ⟨⟨rfl, rfl, rfl, rfl, rfl⟩, ⟨rfl, rfl, rfl⟩, ⟨rfl, rfl, rfl⟩, ⟨rfl, rfl, rfl⟩⟩

theorem step_manual (clk : Clock) (r : Readings) (i : Implementation)
    (hmode : i.state.mode = Mode.MANUAL) :
    Implementation.step clk r i
      = if timeAfter clk.rate_check i.next_update_timestamp = true then
          { i with
            next_update_timestamp := add32 clk.rate_stamp 2500
            state := refreshSensors r i.state }
        else i := by
  have hm : (refreshSensors r i.state).mode = Mode.MANUAL := hmode
  have hne : ¬ (Mode.MANUAL = Mode.AUTO) := by decide
  unfold Implementation.step
  split_ifs with h
  · have hh : heavyEvaluation clk r i
        = { i with
            next_update_timestamp := add32 clk.rate_stamp 2500
            state := refreshSensors r i.state } := by
      simp only [heavyEvaluation, hm, hne, if_false]
    rw [hh]
    unfold advanceTimers
    rw [if_neg (by rw [hm]; exact hne)]
  · unfold advanceTimers
    rw [if_neg (by rw [hmode]; exact hne)]

/-- C12: in MANUAL mode a tick, at every time and for every reading, leaves
mode, fan speed, both heating booleans, lamp color, FanTimer, both fan
deadlines and the Configuration unchanged; what may change are the sensor
fields of State and the rate-limiter timestamp. -/
theorem manual_mode_freezes (clk : Clock) (r : Readings) (c : Controller)
    (hmode : c.implementation.state.mode = Mode.MANUAL) :
    (Controller.run clk r c).implementation.state.mode = Mode.MANUAL
    ∧ (Controller.run clk r c).implementation.state.fan_speed
        = c.implementation.state.fan_speed
    ∧ (Controller.run clk r c).implementation.state.heating_lounge
        = c.implementation.state.heating_lounge
    ∧ (Controller.run clk r c).implementation.state.heating_vestibule
        = c.implementation.state.heating_vestibule
    ∧ (Controller.run clk r c).implementation.state.led_color
        = c.implementation.state.led_color
    ∧ (Controller.run clk r c).implementation.fan_timer = c.implementation.fan_timer
    ∧ (Controller.run clk r c).implementation.fan_timer_timestamp
        = c.implementation.fan_timer_timestamp
    ∧ (Controller.run clk r c).implementation.fan_speedup_timestamp
        = c.implementation.fan_speedup_timestamp
    ∧ (Controller.run clk r c).implementation.configuration
        = c.implementation.configuration := by
  have hrun : (Controller.run clk r c).implementation
      = Implementation.step clk r c.implementation := rfl
  rw [hrun, step_manual clk r _ hmode]
  split_ifs
  · exact ⟨hmode, rfl, rfl, rfl, rfl, rfl, rfl, rfl, rfl⟩
  · exact ⟨hmode, rfl, rfl, rfl, rfl, rfl, rfl, rfl, rfl⟩

/-- Witness for C12: the fan set to HIGH by hand stays HIGH across a heavy
tick with dry air. -/
theorem manual_mode_freezes_witness :
    Controller.manualHigh.implementation.state.mode = Mode.MANUAL
    ∧ timeAfter 1 Controller.manualHigh.implementation.next_update_timestamp = true
    ∧ (Controller.run (Clock.still 1) Readings.cold
        Controller.manualHigh).implementation.state.fan_speed
        = Fan.Speed.HIGH :=
  ⟨rfl, by decide,
    (manual_mode_freezes (Clock.still 1) Readings.cold Controller.manualHigh rfl).2.1⟩

/-! ## Wrap-around time comparison -/

/-- C18: `timeAfter(a, b)` holds iff `(a - b) mod 2^32` lies in `[1, 2^31]`;
so for every deadline `d` and every `e` with `0 < e < 2^31`,
`timeAfter(d + e mod 2^32, d)` is true and `timeAfter(d, d + e mod 2^32)` is
false, also when `d + e` overflows, and `timeAfter(d, d)` is false; the copies
in Sensors.cpp and Stats.cpp are the same function as the one in
Controller.cpp. -/
theorem timeAfter_wraparound (a b d e : Nat) (hpos : 0 < e) (hlt : e < 2147483648) :
    (timeAfter a b = true ↔ (1 ≤ sub32 a b ∧ sub32 a b ≤ 2147483648))
    ∧ timeAfter (add32 d e) d = true
    ∧ timeAfter d (add32 d e) = false
    ∧ timeAfter d d = false
    ∧ Sensors.timeAfter a b = timeAfter a b
    ∧ Stats.timeAfter a b = timeAfter a b := by
  refine ⟨timeAfter_iff_window a b, ?_, ?_, ?_, rfl, rfl⟩
  · rw [timeAfter_iff_window, sub32_add32, Nat.mod_eq_of_lt (by omega)]
    omega
  · rw [Bool.eq_false_iff, Ne, timeAfter_iff, sub32_add32, Nat.mod_eq_of_lt (by omega)]
    omega
  · rw [Bool.eq_false_iff, Ne, timeAfter_iff]
    unfold sub32
    omega

/-- Witness for C18: a deadline five ticks ahead of the last clock value
before the 32-bit counter wraps. -/
theorem timeAfter_wraparound_witness :
    add32 4294967295 5 = 4
    ∧ timeAfter (add32 4294967295 5) 4294967295 = true
    ∧ timeAfter 4294967295 (add32 4294967295 5) = false :=
  ⟨by decide,
    (timeAfter_wraparound 0 0 4294967295 5 (by decide) (by decide)).2.1,
    (timeAfter_wraparound 0 0 4294967295 5 (by decide) (by decide)).2.2.1⟩

/-! ## Rate limiter -/

theorem timeAfter_within_period (t t2 : Nat) (h : sub32 t2 t ≤ 2500) :
    timeAfter t2 (add32 t 2500) = false := by
  rw [Bool.eq_false_iff, Ne, timeAfter_iff]
  unfold sub32 add32 at *
  rw [Nat.add_mod t 2500]
  have hx : t % 4294967296 < 4294967296 := Nat.mod_lt _ (by decide)
  have hy : t2 % 4294967296 < 4294967296 := Nat.mod_lt _ (by decide)
  generalize t % 4294967296 = x at hx h
  generalize t2 % 4294967296 = y at hy h
  omega

theorem timeAfter_past_period (t t2 : Nat) (h1 : 2500 < sub32 t2 t)
    (h2 : sub32 t2 t ≤ 2500 + 2147483648) :
    timeAfter t2 (add32 t 2500) = true := by
  rw [timeAfter_iff]
  unfold sub32 add32 at *
  rw [Nat.add_mod t 2500]
  have hx : t % 4294967296 < 4294967296 := Nat.mod_lt _ (by decide)
  have hy : t2 % 4294967296 < 4294967296 := Nat.mod_lt _ (by decide)
  generalize t % 4294967296 = x at hx h1 h2
  generalize t2 % 4294967296 = y at hy h1 h2
  omega

theorem advanceTimers_state (clk : Clock) (i : Implementation) :
    (advanceTimers clk i).state
        = { i.state with fan_speed := (advanceTimers clk i).state.fan_speed }
    ∧ (advanceTimers clk i).next_update_timestamp = i.next_update_timestamp := by
  unfold advanceTimers fanTimerExpire fanTimerArm fanSpeedup
  split_ifs <;> simp

theorem run_light (clk : Clock) (r : Readings) (c : Controller)
    (h : timeAfter clk.rate_check c.implementation.next_update_timestamp = false) :
    (Controller.run clk r c).implementation.state
        = { c.implementation.state with
            fan_speed := (Controller.run clk r c).implementation.state.fan_speed }
    ∧ (Controller.run clk r c).implementation.next_update_timestamp
        = c.implementation.next_update_timestamp := by
  have hrun : (Controller.run clk r c).implementation
      = advanceTimers clk c.implementation := by
    show Implementation.step clk r c.implementation = _
    unfold Implementation.step
    rw [if_neg (by rw [h]; decide)]
  rw [hrun]
  exact advanceTimers_state clk c.implementation

theorem heavy_refresh (clk : Clock) (r : Readings) (i : Implementation) :
    (heavyEvaluation clk r i).next_update_timestamp = add32 clk.rate_stamp 2500
    ∧ (heavyEvaluation clk r i).state.room_values_valid = r.room_values_valid
    ∧ (heavyEvaluation clk r i).state.temperature_10th_c = r.temperature_10th_c
    ∧ (heavyEvaluation clk r i).state.humidity_per_mill = r.humidity_per_mill
    ∧ (heavyEvaluation clk r i).state.floor_value_valid = r.floor_value_valid
    ∧ (heavyEvaluation clk r i).state.floor_temperature_10th_c
        = r.floor_temperature_10th_c := by
  obtain ⟨p1, p2, p3, p4, p5, -, -, -⟩ :=
    heatingPolicy_frame i.configuration (refreshSensors r i.state)
  have q1 : (refreshSensors r i.state).room_values_valid = r.room_values_valid := rfl
  have q2 : (refreshSensors r i.state).temperature_10th_c = r.temperature_10th_c := rfl
  have q3 : (refreshSensors r i.state).humidity_per_mill = r.humidity_per_mill := rfl
  have q4 : (refreshSensors r i.state).floor_value_valid = r.floor_value_valid := rfl
  have q5 : (refreshSensors r i.state).floor_temperature_10th_c
      = r.floor_temperature_10th_c := rfl
  rw [q1] at p1
  rw [q2] at p2
  rw [q3] at p3
  rw [q4] at p4
  rw [q5] at p5
  unfold heavyEvaluation
  simp only []
  split_ifs with hm
  · unfold fanHumidityPolicy
    split_ifs <;>
      simp [lampPolicy_frame, p1, p2, p3, p4, p5]
  · exact ⟨rfl, rfl, rfl, rfl, rfl, rfl⟩

theorem run_heavy_refresh (clk : Clock) (r : Readings) (c : Controller)
    (h : timeAfter clk.rate_check c.implementation.next_update_timestamp = true) :
    (Controller.run clk r c).implementation.next_update_timestamp = add32 clk.rate_stamp 2500
    ∧ (Controller.run clk r c).implementation.state.room_values_valid
        = r.room_values_valid
    ∧ (Controller.run clk r c).implementation.state.temperature_10th_c
        = r.temperature_10th_c
    ∧ (Controller.run clk r c).implementation.state.humidity_per_mill
        = r.humidity_per_mill
    ∧ (Controller.run clk r c).implementation.state.floor_value_valid
        = r.floor_value_valid
    ∧ (Controller.run clk r c).implementation.state.floor_temperature_10th_c
        = r.floor_temperature_10th_c := by
  have hrun : (Controller.run clk r c).implementation
      = advanceTimers clk (heavyEvaluation clk r c.implementation) :=
    step_heavy clk r c.implementation h
  obtain ⟨a1, a2⟩ := advanceTimers_state clk (heavyEvaluation clk r c.implementation)
  obtain ⟨g0, g1, g2, g3, g4, g5⟩ := heavy_refresh clk r c.implementation
  rw [hrun, a2, a1]
  exact ⟨g0, g1, g2, g3, g4, g5⟩

theorem runs_within_period (t : Nat) (ticks : List (Clock × Readings)) :
    ∀ c : Controller, c.implementation.next_update_timestamp = add32 t 2500 →
      (∀ p ∈ ticks, sub32 p.1.rate_check t ≤ 2500) →
      (Controller.runs ticks c).implementation.next_update_timestamp = add32 t 2500
      ∧ (Controller.runs ticks c).implementation.state
          = { c.implementation.state with
              fan_speed := (Controller.runs ticks c).implementation.state.fan_speed } := by
  induction ticks with
  | nil =>
    intro c hc _
    exact ⟨hc, rfl⟩
  | cons p ps ih =>
    intro c hc hwin
    have hp : sub32 p.1.rate_check t ≤ 2500 := hwin p (List.mem_cons_self p ps)
    have hlight : timeAfter p.1.rate_check c.implementation.next_update_timestamp = false := by
      rw [hc]
      exact timeAfter_within_period t p.1.rate_check hp
    obtain ⟨e1, e2⟩ := run_light p.1 p.2 c hlight
    obtain ⟨f1, f2⟩ := ih (Controller.run p.1 p.2 c) (by rw [e2]; exact hc)
      (fun q hq => hwin q (List.mem_cons_of_mem p hq))
    show (Controller.runs ps (Controller.run p.1 p.2 c)).implementation.next_update_timestamp
        = add32 t 2500
      ∧ (Controller.runs ps (Controller.run p.1 p.2 c)).implementation.state
          = { c.implementation.state with
              fan_speed :=
                (Controller.runs ps (Controller.run p.1 p.2 c)).implementation.state.fan_speed }
    refine ⟨f1, ?_⟩
    rw [f2, e1]

/-- C17: once a tick has performed a heavy evaluation, the rate-limiter
timestamp is `t + 2500 (mod 2^32)`, `t` being the clock value that tick read
when it stamped the timestamp (line 121); every later tick whose clock read at
the check (line 120) is a time `t2` with `(t2 - t) mod 2^32 ≤ 2500` performs
none (the branch is not taken, and after any run of such ticks the State
differs from the one after the heavy tick at most in the fan speed); and after
such ticks a tick with `2500 < (t2 - t) mod 2^32 ≤ 2500 + 2^31` performs one
(the branch is taken, the sensor fields are refreshed and the timestamp moves
to 2500 past that tick's own stamp read). All clock values are taken modulo
`2^32`, so the statement covers a wrap of the millisecond counter between `t`
and `t2`; the other clock reads of the ticks are arbitrary. -/
theorem rate_limiter (clk : Clock) (r : Readings) (c : Controller)
    (hheavy : timeAfter clk.rate_check c.implementation.next_update_timestamp = true)
    (ticks : List (Clock × Readings))
    (hwin : ∀ p ∈ ticks, sub32 p.1.rate_check clk.rate_stamp ≤ 2500)
    (clk2 : Clock) (r2 : Readings) :
    (Controller.run clk r c).implementation.next_update_timestamp
        = add32 clk.rate_stamp 2500
    ∧ (∀ (pre : List (Clock × Readings)) (p : Clock × Readings)
        (post : List (Clock × Readings)),
        ticks = pre ++ p :: post →
        timeAfter p.1.rate_check
          (Controller.runs pre (Controller.run clk r c)).implementation.next_update_timestamp
            = false)
    ∧ (Controller.runs ticks (Controller.run clk r c)).implementation.state
        = { (Controller.run clk r c).implementation.state with
            fan_speed :=
              (Controller.runs ticks (Controller.run clk r c)).implementation.state.fan_speed }
    ∧ (Controller.runs ticks (Controller.run clk r c)).implementation.next_update_timestamp
        = add32 clk.rate_stamp 2500
    ∧ (2500 < sub32 clk2.rate_check clk.rate_stamp →
        sub32 clk2.rate_check clk.rate_stamp ≤ 2500 + 2147483648 →
        timeAfter clk2.rate_check
          (Controller.runs ticks (Controller.run clk r c)).implementation.next_update_timestamp
            = true
        ∧ (Controller.run clk2 r2 (Controller.runs ticks
            (Controller.run clk r c))).implementation.next_update_timestamp
              = add32 clk2.rate_stamp 2500
        ∧ (Controller.run clk2 r2 (Controller.runs ticks
            (Controller.run clk r c))).implementation.state.room_values_valid
              = r2.room_values_valid
        ∧ (Controller.run clk2 r2 (Controller.runs ticks
            (Controller.run clk r c))).implementation.state.temperature_10th_c
              = r2.temperature_10th_c
        ∧ (Controller.run clk2 r2 (Controller.runs ticks
            (Controller.run clk r c))).implementation.state.humidity_per_mill
              = r2.humidity_per_mill
        ∧ (Controller.run clk2 r2 (Controller.runs ticks
            (Controller.run clk r c))).implementation.state.floor_value_valid
              = r2.floor_value_valid
        ∧ (Controller.run clk2 r2 (Controller.runs ticks
            (Controller.run clk r c))).implementation.state.floor_temperature_10th_c
              = r2.floor_temperature_10th_c) := by
  obtain ⟨h0, -⟩ := run_heavy_refresh clk r c hheavy
  obtain ⟨k1, k2⟩ := runs_within_period clk.rate_stamp ticks (Controller.run clk r c) h0 hwin
  refine ⟨h0, ?_, k2, k1, ?_⟩
  · intro pre p post hsplit
    have hpre : ∀ q ∈ pre, sub32 q.1.rate_check clk.rate_stamp ≤ 2500 := fun q hq =>
      hwin q (by rw [hsplit]; exact List.mem_append_left _ hq)
    have hp : sub32 p.1.rate_check clk.rate_stamp ≤ 2500 :=
      hwin p (by rw [hsplit]; exact List.mem_append_right _ (List.mem_cons_self p post))
    rw [(runs_within_period clk.rate_stamp pre (Controller.run clk r c) h0 hpre).1]
    exact timeAfter_within_period clk.rate_stamp p.1.rate_check hp
  · intro h1 h2
    have hh : timeAfter clk2.rate_check
        (Controller.runs ticks (Controller.run clk r c)).implementation.next_update_timestamp
          = true := by
      rw [k1]
      exact timeAfter_past_period clk.rate_stamp clk2.rate_check h1 h2
    exact ⟨hh, run_heavy_refresh clk2 r2 _ hh⟩

/-- Witness for C17: a heavy tick entered at 1 ms that stamps the timestamp
at 1 ms, a tick 2500 ms later that is still inside the period, then a tick one
millisecond further that evaluates again. -/
theorem rate_limiter_witness :
    timeAfter Clock.slow.rate_check Controller.init.implementation.next_update_timestamp = true
    ∧ sub32 2501 Clock.slow.rate_stamp ≤ 2500
    ∧ 2500 < sub32 2502 Clock.slow.rate_stamp
    ∧ timeAfter 2501
        (Controller.run Clock.slow Readings.cold
          Controller.init).implementation.next_update_timestamp = false
    ∧ timeAfter 2502
        (Controller.runs [(Clock.still 2501, Readings.humid)]
          (Controller.run Clock.slow Readings.cold
            Controller.init)).implementation.next_update_timestamp = true :=
  ⟨by decide, by decide, by decide,
    (rate_limiter Clock.slow Readings.cold Controller.init (by decide)
      [(Clock.still 2501, Readings.humid)] (by decide) (Clock.still 2502)
      Readings.humid).2.1 [] (Clock.still 2501, Readings.humid) [] rfl,
    ((rate_limiter Clock.slow Readings.cold Controller.init (by decide)
      [(Clock.still 2501, Readings.humid)] (by decide) (Clock.still 2502)
      Readings.humid).2.2.2.2 (by decide) (by decide)).1⟩

/-! ## Commit to the actuators -/

theorem step_configuration (clk : Clock) (r : Readings) (i : Implementation) :
    (Implementation.step clk r i).configuration = i.configuration := by
  have hadv : ∀ j : Implementation, (advanceTimers clk j).configuration = j.configuration := by
    intro j
    unfold advanceTimers fanTimerExpire fanTimerArm fanSpeedup
    split_ifs <;> rfl
  have hheavy : (heavyEvaluation clk r i).configuration = i.configuration := by
    unfold heavyEvaluation fanHumidityPolicy
    simp only []
    split_ifs <;> rfl
  unfold Implementation.step
  rw [hadv]
  split_ifs
  · exact hheavy
  · rfl

theorem Fan.setSpeed_fields (value : Fan.Speed) (f : Fan) :
    (Fan.setSpeed value f).speed = value
    ∧ (Fan.setSpeed value f).low_speed = f.low_speed
    ∧ (Fan.setSpeed value f).high_speed = f.high_speed
    ∧ (value = Fan.Speed.OFF → (Fan.setSpeed value f).pwm = 0)
    ∧ (value = Fan.Speed.LOW → (Fan.setSpeed value f).pwm = f.low_speed)
    ∧ (value = Fan.Speed.HIGH → (Fan.setSpeed value f).pwm = f.high_speed)
    ∧ Fan.setSpeed value (Fan.setSpeed value f) = Fan.setSpeed value f := by
  have h1 : Fan.Speed.LOW ≠ Fan.Speed.OFF := by decide
  have h2 : Fan.Speed.HIGH ≠ Fan.Speed.OFF := by decide
  have h3 : Fan.Speed.HIGH ≠ Fan.Speed.LOW := by decide
  unfold Fan.setSpeed
  simp only []
  split_ifs with a b d
  · subst a
    simp [h1.symm, h2.symm]
  · subst b
    simp [h1, h3.symm]
  · subst d
    simp [h2, h3]
  · simp [a, b, d]

theorem Led.setColor_fields (value : Led.Color) (l : Led) :
    (Led.setColor value l).color = value
    ∧ Led.setColor value (Led.setColor value l) = Led.setColor value l := by
  unfold Led.setColor
  simp only []
  split_ifs <;> simp [*]

theorem Fan.setLevels_fields (low high : Nat) (f : Fan) :
    (Fan.setHighSpeed high (Fan.setLowSpeed low f)).low_speed = low
    ∧ (Fan.setHighSpeed high (Fan.setLowSpeed low f)).high_speed = high := by
  unfold Fan.setHighSpeed
  constructor
  · rw [(Fan.setSpeed_fields _ _).2.1]
    unfold Fan.setLowSpeed
    rw [(Fan.setSpeed_fields _ _).2.1]
  · rw [(Fan.setSpeed_fields _ _).2.2.1]

theorem begin_fan_levels (sys : System) :
    (System.begin sys).controller.fan.low_speed
        = (System.begin sys).controller.implementation.configuration.fan_speed_low
    ∧ (System.begin sys).controller.fan.high_speed
        = (System.begin sys).controller.implementation.configuration.fan_speed_high :=
  Fan.setLevels_fields _ _ sys.controller.fan

theorem setConfiguration_fan_levels (value : Configuration) (sys : System) :
    (System.setConfiguration value sys).controller.implementation.configuration = value
    ∧ (System.setConfiguration value sys).controller.fan.low_speed = value.fan_speed_low
    ∧ (System.setConfiguration value sys).controller.fan.high_speed = value.fan_speed_high :=
  ⟨rfl, (Fan.setLevels_fields _ _ sys.controller.fan).1,
    (Fan.setLevels_fields _ _ sys.controller.fan).2⟩

theorem run_fan_levels (clk : Clock) (r : Readings) (c : Controller)
    (h1 : c.fan.low_speed = c.implementation.configuration.fan_speed_low)
    (h2 : c.fan.high_speed = c.implementation.configuration.fan_speed_high) :
    (Controller.run clk r c).fan.low_speed
        = (Controller.run clk r c).implementation.configuration.fan_speed_low
    ∧ (Controller.run clk r c).fan.high_speed
        = (Controller.run clk r c).implementation.configuration.fan_speed_high := by
  have hi : (Controller.run clk r c).implementation
      = Implementation.step clk r c.implementation := rfl
  have hf : (Controller.run clk r c).fan
      = Fan.setSpeed (Implementation.step clk r c.implementation).state.fan_speed c.fan := rfl
  obtain ⟨-, f2, f3, -, -, -, -⟩ :=
    Fan.setSpeed_fields (Implementation.step clk r c.implementation).state.fan_speed c.fan
  rw [hi, hf, f2, f3, step_configuration clk r c.implementation]
  exact ⟨h1, h2⟩

theorem apply_fan_levels (op : Operation) (sys : System)
    (h1 : sys.controller.fan.low_speed
      = sys.controller.implementation.configuration.fan_speed_low)
    (h2 : sys.controller.fan.high_speed
      = sys.controller.implementation.configuration.fan_speed_high) :
    (System.apply op sys).controller.fan.low_speed
        = (System.apply op sys).controller.implementation.configuration.fan_speed_low
    ∧ (System.apply op sys).controller.fan.high_speed
        = (System.apply op sys).controller.implementation.configuration.fan_speed_high := by
  cases op with
  | begin => exact begin_fan_levels sys
  | run clk sclk hw =>
    exact run_fan_levels clk (Sensors.poll sclk hw sys.sensors).1 sys.controller h1 h2
  | setAutoMode => exact ⟨h1, h2⟩
  | setFanSpeed value => exact ⟨h1, h2⟩
  | setHeatingLounge value => exact ⟨h1, h2⟩
  | setHeatingVestibule value => exact ⟨h1, h2⟩
  | setLedColor value => exact ⟨h1, h2⟩
  | setConfiguration value =>
    exact ⟨(setConfiguration_fan_levels value sys).2.1,
      (setConfiguration_fan_levels value sys).2.2⟩

theorem applyAll_fan_levels (ops : List Operation) :
    ∀ sys : System,
      sys.controller.fan.low_speed
        = sys.controller.implementation.configuration.fan_speed_low →
      sys.controller.fan.high_speed
        = sys.controller.implementation.configuration.fan_speed_high →
      (System.applyAll ops sys).controller.fan.low_speed
          = (System.applyAll ops sys).controller.implementation.configuration.fan_speed_low
      ∧ (System.applyAll ops sys).controller.fan.high_speed
          = (System.applyAll ops sys).controller.implementation.configuration.fan_speed_high := by
  induction ops with
  | nil => intro sys h1 h2; exact ⟨h1, h2⟩
  | cons op ops ih =>
    intro sys h1 h2
    obtain ⟨k1, k2⟩ := apply_fan_levels op sys h1 h2
    exact ih (System.apply op sys) k1 k2

/-- C19: after every tick (any mode, heavy evaluation or not, from any prior
state) the actuator objects hold the targets of State: fan speed, both
heating outputs and the lamp color; the PWM duty written for the fan is 0 for
OFF, the low level held by the fan object for LOW and its high level for
HIGH; and committing the same targets again changes nothing. In every state
reached from the constructors by any sequence of `begin`, ticks,
`setAutoMode`, the manual setters and `setConfiguration`, the levels held by
the fan object are those of the Configuration (`begin` and `setConfiguration`
push them with `setLowSpeed` and `setHighSpeed`), so after a tick from such a
state the duty is the configured low level for LOW and the configured high
level for HIGH. -/
theorem commit_holds_targets (clk : Clock) (r : Readings) (c : Controller)
    (ops : List Operation) (e : EEPROM) (t h : Int) (sclk : Sensors.Clock) (hw : Hardware)
    (value : Configuration) (sys : System) :
    (Controller.run clk r c).fan.speed
        = (Controller.run clk r c).implementation.state.fan_speed
    ∧ (Controller.run clk r c).heating.lounge
        = (Controller.run clk r c).implementation.state.heating_lounge
    ∧ (Controller.run clk r c).heating.pin_heat_a
        = (Controller.run clk r c).implementation.state.heating_lounge
    ∧ (Controller.run clk r c).heating.vestibule
        = (Controller.run clk r c).implementation.state.heating_vestibule
    ∧ (Controller.run clk r c).heating.pin_heat_b
        = (Controller.run clk r c).implementation.state.heating_vestibule
    ∧ (Controller.run clk r c).led.color
        = (Controller.run clk r c).implementation.state.led_color
    ∧ ((Controller.run clk r c).implementation.state.fan_speed = Fan.Speed.OFF →
        (Controller.run clk r c).fan.pwm = 0)
    ∧ ((Controller.run clk r c).implementation.state.fan_speed = Fan.Speed.LOW →
        (Controller.run clk r c).fan.pwm = (Controller.run clk r c).fan.low_speed)
    ∧ ((Controller.run clk r c).implementation.state.fan_speed = Fan.Speed.HIGH →
        (Controller.run clk r c).fan.pwm = (Controller.run clk r c).fan.high_speed)
    ∧ (c.fan.low_speed = c.implementation.configuration.fan_speed_low →
        (Controller.run clk r c).fan.low_speed
          = (Controller.run clk r c).implementation.configuration.fan_speed_low)
    ∧ (c.fan.high_speed = c.implementation.configuration.fan_speed_high →
        (Controller.run clk r c).fan.high_speed
          = (Controller.run clk r c).implementation.configuration.fan_speed_high)
    ∧ Fan.setSpeed (Controller.run clk r c).implementation.state.fan_speed
        (Controller.run clk r c).fan = (Controller.run clk r c).fan
    ∧ Heating.setVestibule (Controller.run clk r c).implementation.state.heating_vestibule
        (Heating.setLounge (Controller.run clk r c).implementation.state.heating_lounge
          (Controller.run clk r c).heating) = (Controller.run clk r c).heating
    ∧ Led.setColor (Controller.run clk r c).implementation.state.led_color
        (Controller.run clk r c).led = (Controller.run clk r c).led
    ∧ (System.applyAll ops (System.init e t h)).controller.fan.low_speed
        = (System.applyAll ops
            (System.init e t h)).controller.implementation.configuration.fan_speed_low
    ∧ (System.applyAll ops (System.init e t h)).controller.fan.high_speed
        = (System.applyAll ops
            (System.init e t h)).controller.implementation.configuration.fan_speed_high
    ∧ ((System.run clk sclk hw
          (System.applyAll ops (System.init e t h))).controller.implementation.state.fan_speed
          = Fan.Speed.OFF →
        (System.run clk sclk hw
          (System.applyAll ops (System.init e t h))).controller.fan.pwm = 0)
    ∧ ((System.run clk sclk hw
          (System.applyAll ops (System.init e t h))).controller.implementation.state.fan_speed
          = Fan.Speed.LOW →
        (System.run clk sclk hw
          (System.applyAll ops (System.init e t h))).controller.fan.pwm
          = (System.run clk sclk hw (System.applyAll ops
              (System.init e t h))).controller.implementation.configuration.fan_speed_low)
    ∧ ((System.run clk sclk hw
          (System.applyAll ops (System.init e t h))).controller.implementation.state.fan_speed
          = Fan.Speed.HIGH →
        (System.run clk sclk hw
          (System.applyAll ops (System.init e t h))).controller.fan.pwm
          = (System.run clk sclk hw (System.applyAll ops
              (System.init e t h))).controller.implementation.configuration.fan_speed_high)
    ∧ ((System.setConfiguration value sys).controller.implementation.configuration = value
      ∧ (System.setConfiguration value sys).controller.fan.low_speed = value.fan_speed_low
      ∧ (System.setConfiguration value sys).controller.fan.high_speed
          = value.fan_speed_high)
    ∧ ((System.begin sys).controller.fan.low_speed
        = (System.begin sys).controller.implementation.configuration.fan_speed_low
      ∧ (System.begin sys).controller.fan.high_speed
        = (System.begin sys).controller.implementation.configuration.fan_speed_high) := by
  have hcommit : ∀ d : Controller,
      (Controller.run clk r d).fan.speed
          = (Controller.run clk r d).implementation.state.fan_speed
      ∧ (Controller.run clk r d).led.color
          = (Controller.run clk r d).implementation.state.led_color
      ∧ ((Controller.run clk r d).implementation.state.fan_speed = Fan.Speed.OFF →
          (Controller.run clk r d).fan.pwm = 0)
      ∧ ((Controller.run clk r d).implementation.state.fan_speed = Fan.Speed.LOW →
          (Controller.run clk r d).fan.pwm = (Controller.run clk r d).fan.low_speed)
      ∧ ((Controller.run clk r d).implementation.state.fan_speed = Fan.Speed.HIGH →
          (Controller.run clk r d).fan.pwm = (Controller.run clk r d).fan.high_speed)
      ∧ Fan.setSpeed (Controller.run clk r d).implementation.state.fan_speed
          (Controller.run clk r d).fan = (Controller.run clk r d).fan
      ∧ Led.setColor (Controller.run clk r d).implementation.state.led_color
          (Controller.run clk r d).led = (Controller.run clk r d).led := by
    intro d
    have hi : (Controller.run clk r d).implementation
        = Implementation.step clk r d.implementation := rfl
    have hf : (Controller.run clk r d).fan
        = Fan.setSpeed (Implementation.step clk r d.implementation).state.fan_speed d.fan :=
      rfl
    have hl : (Controller.run clk r d).led
        = Led.setColor (Implementation.step clk r d.implementation).state.led_color d.led :=
      rfl
    obtain ⟨f1, f2, f3, f4, f5, f6, f7⟩ :=
      Fan.setSpeed_fields (Implementation.step clk r d.implementation).state.fan_speed d.fan
    obtain ⟨l1, l2⟩ :=
      Led.setColor_fields (Implementation.step clk r d.implementation).state.led_color d.led
    rw [hi, hf, hl]
    refine ⟨f1, l1, f4, ?_, ?_, f7, l2⟩
    · intro hlow
      rw [f5 hlow, f2]
    · intro hhigh
      rw [f6 hhigh, f3]
  obtain ⟨c1, c2, c3, c4, c5, c6, c7⟩ := hcommit c
  obtain ⟨v1, v2⟩ := applyAll_fan_levels ops (System.init e t h) rfl rfl
  have hsame : (System.run clk sclk hw (System.applyAll ops (System.init e t h))).controller
      = Controller.run clk
          (Sensors.poll sclk hw (System.applyAll ops (System.init e t h)).sensors).1
          (System.applyAll ops (System.init e t h)).controller := rfl
  have hreach : ∀ q : Readings,
      ((Controller.run clk q
          (System.applyAll ops (System.init e t h)).controller).implementation.state.fan_speed
          = Fan.Speed.OFF →
        (Controller.run clk q
          (System.applyAll ops (System.init e t h)).controller).fan.pwm = 0)
      ∧ ((Controller.run clk q
          (System.applyAll ops (System.init e t h)).controller).implementation.state.fan_speed
          = Fan.Speed.LOW →
        (Controller.run clk q
          (System.applyAll ops (System.init e t h)).controller).fan.pwm
          = (Controller.run clk q (System.applyAll ops
              (System.init e t h)).controller).implementation.configuration.fan_speed_low)
      ∧ ((Controller.run clk q
          (System.applyAll ops (System.init e t h)).controller).implementation.state.fan_speed
          = Fan.Speed.HIGH →
        (Controller.run clk q
          (System.applyAll ops (System.init e t h)).controller).fan.pwm
          = (Controller.run clk q (System.applyAll ops
              (System.init e t h)).controller).implementation.configuration.fan_speed_high) := by
    intro q
    have hi : (Controller.run clk q
          (System.applyAll ops (System.init e t h)).controller).implementation
        = Implementation.step clk q
            (System.applyAll ops (System.init e t h)).controller.implementation := rfl
    have hf : (Controller.run clk q (System.applyAll ops (System.init e t h)).controller).fan
        = Fan.setSpeed (Implementation.step clk q
            (System.applyAll ops (System.init e t h)).controller.implementation).state.fan_speed
            (System.applyAll ops (System.init e t h)).controller.fan := rfl
    obtain ⟨-, -, -, f4, f5, f6, -⟩ :=
      Fan.setSpeed_fields (Implementation.step clk q
        (System.applyAll ops (System.init e t h)).controller.implementation).state.fan_speed
        (System.applyAll ops (System.init e t h)).controller.fan
    rw [hi, hf, step_configuration]
    refine ⟨f4, ?_, ?_⟩
    · intro hlow
      rw [f5 hlow, v1]
    · intro hhigh
      rw [f6 hhigh, v2]
  obtain ⟨u1, u2, u3⟩ :=
    hreach (Sensors.poll sclk hw (System.applyAll ops (System.init e t h)).sensors).1
  rw [hsame]
  exact ⟨c1, rfl, rfl, rfl, rfl, c2, c3, c4, c5,
    fun h1 => by
      have hf : (Controller.run clk r c).fan
          = Fan.setSpeed (Implementation.step clk r c.implementation).state.fan_speed c.fan :=
        rfl
      have hi : (Controller.run clk r c).implementation
          = Implementation.step clk r c.implementation := rfl
      rw [hf, hi, (Fan.setSpeed_fields _ _).2.1, step_configuration]
      exact h1,
    fun h2 => by
      have hf : (Controller.run clk r c).fan
          = Fan.setSpeed (Implementation.step clk r c.implementation).state.fan_speed c.fan :=
        rfl
      have hi : (Controller.run clk r c).implementation
          = Implementation.step clk r c.implementation := rfl
      rw [hf, hi, (Fan.setSpeed_fields _ _).2.2.1, step_configuration]
      exact h2,
    c6, rfl, c7, v1, v2, u1, u2, u3, setConfiguration_fan_levels value sys,
    begin_fan_levels sys⟩

/-- Witness for C19: after `setConfiguration` with a low level of 100 and a
high level of 200, the first tick with humid air starts the fan LOW and the
duty written is 100; from the start-up controller it is the default 140. -/
theorem commit_holds_targets_witness :
    (System.run Clock.slow (Sensors.Clock.still 1) Hardware.humid
        (System.applyAll [Operation.begin, Operation.setConfiguration Configuration.quiet]
          (System.init EEPROM.erased 0 0))).controller.implementation.state.fan_speed
        = Fan.Speed.LOW
    ∧ (System.run Clock.slow (Sensors.Clock.still 1) Hardware.humid
        (System.applyAll [Operation.begin, Operation.setConfiguration Configuration.quiet]
          (System.init EEPROM.erased 0 0))).controller.fan.pwm = 100
    ∧ Controller.timed.fan.low_speed
        = Controller.timed.implementation.configuration.fan_speed_low
    ∧ (Controller.run (Clock.still 1) Readings.humid Controller.timed).fan.pwm = 140 :=
  ⟨by decide,
    ((commit_holds_targets Clock.slow Readings.humid Controller.timed
      [Operation.begin, Operation.setConfiguration Configuration.quiet] EEPROM.erased 0 0
      (Sensors.Clock.still 1) Hardware.humid Configuration.quiet
      (System.init EEPROM.erased 0 0)).2.2.2.2.2.2.2.2.2.2.2.2.2.2.2.2.2.1
      (by decide)).trans (by decide),
    rfl,
    ((commit_holds_targets (Clock.still 1) Readings.humid Controller.timed [] EEPROM.erased 0 0
      (Sensors.Clock.still 1) Hardware.humid Configuration.quiet
      (System.init EEPROM.erased 0 0)).2.2.2.2.2.2.2.1 (by decide)).trans (by decide)⟩

/-! ## Sensor fault counters -/

theorem floorFailures_counter (n : Nat) (s : Sensors)
    (h0 : s.ds18b20_consecutive_errors = 0) :
    (Sensors.floorFailures n s).ds18b20_consecutive_errors
      = if n = 0 then 0 else (n - 1) % 65535 + 1 := by
  induction n with
  | zero => simpa [Sensors.floorFailures] using h0
  | succ k ih =>
    have hstep : (Sensors.floorFailures (k + 1) s).ds18b20_consecutive_errors
        = if ((Sensors.floorFailures k s).ds18b20_consecutive_errors + 1) % 65536 = 0 then
            (((Sensors.floorFailures k s).ds18b20_consecutive_errors + 1) % 65536 + 1) % 65536
          else ((Sensors.floorFailures k s).ds18b20_consecutive_errors + 1) % 65536 := rfl
    rw [hstep, ih]
    have hk : (k + 1 - 1) % 65535 < 65535 := Nat.mod_lt _ (by decide)
    by_cases hz : k = 0
    · subst hz
      decide
    · have hk2 : (k - 1) % 65535 < 65535 := Nat.mod_lt _ (by decide)
      rw [if_neg hz, if_neg (Nat.succ_ne_zero k)]
      split_ifs <;> omega

theorem floorFailures_last_value (n : Nat) (s : Sensors) :
    (Sensors.floorFailures n s).ds18b20_last_value = s.ds18b20_last_value := by
  induction n with
  | zero => rfl
  | succ k ih =>
    have hstep : (Sensors.floorFailures (k + 1) s).ds18b20_last_value
        = (Sensors.floorFailures k s).ds18b20_last_value := rfl
    rw [hstep, ih]

/-- C14: for the floor channel and every prior state, a successful read
returns and stores the new reading and resets the counter to 0, so the channel
reports valid right afterwards; a failed read returns the stored value and
leaves it unchanged, so after a success and any number of failed reads the
value returned is still the one of that success, and before any success it is
the initial value 20. -/
theorem floor_read_contract (s : Sensors) (v : Int) (n : Nat) (t h : Int) :
    (Sensors.getFloorTemperature10thC (some v) s).1 = v
    ∧ (Sensors.getFloorTemperature10thC (some v) s).2.ds18b20_last_value = v
    ∧ (Sensors.getFloorTemperature10thC (some v) s).2.ds18b20_consecutive_errors = 0
    ∧ Sensors.isFloorValueValid (Sensors.getFloorTemperature10thC (some v) s).2 = true
    ∧ (Sensors.getFloorTemperature10thC none s).1 = s.ds18b20_last_value
    ∧ (Sensors.getFloorTemperature10thC none s).2.ds18b20_last_value = s.ds18b20_last_value
    ∧ (Sensors.getFloorTemperature10thC none
        (Sensors.floorFailures n (Sensors.getFloorTemperature10thC (some v) s).2)).1 = v
    ∧ (Sensors.getFloorTemperature10thC none
        (Sensors.floorFailures n (Sensors.init t h))).1 = 20 := by
  refine ⟨rfl, rfl, rfl, rfl, rfl, rfl, ?_, ?_⟩
  · show (Sensors.floorFailures n _).ds18b20_last_value = v
    rw [floorFailures_last_value]
    rfl
  · show (Sensors.floorFailures n _).ds18b20_last_value = 20
    rw [floorFailures_last_value]
    rfl

/-- C13 fails on the code: the wrap guard sends the 16-bit counter from 65535
to 1, not to a value of 5 or more, so after 65536 consecutive failed reads
from start-up the floor channel reports valid again (and stays so for the
next three failures), although the 65535th failure still reported invalid. -/
theorem floor_valid_again_after_wrap :
    (Sensors.floorFailures 65535 (Sensors.init 0 0)).ds18b20_consecutive_errors = 65535
    ∧ Sensors.isFloorValueValid (Sensors.floorFailures 65535 (Sensors.init 0 0)) = false
    ∧ (Sensors.floorFailures 65536 (Sensors.init 0 0)).ds18b20_consecutive_errors = 1
    ∧ Sensors.isFloorValueValid (Sensors.floorFailures 65536 (Sensors.init 0 0)) = true
    ∧ Sensors.isFloorValueValid (Sensors.floorFailures 65539 (Sensors.init 0 0)) = true := by
  have h1 := floorFailures_counter 65535 (Sensors.init 0 0) rfl
  have h2 := floorFailures_counter 65536 (Sensors.init 0 0) rfl
  have h3 := floorFailures_counter 65539 (Sensors.init 0 0) rfl
  have e1 : (Sensors.floorFailures 65535 (Sensors.init 0 0)).ds18b20_consecutive_errors
      = 65535 := by rw [h1]; decide
  have e2 : (Sensors.floorFailures 65536 (Sensors.init 0 0)).ds18b20_consecutive_errors
      = 1 := by rw [h2]; decide
  have e3 : (Sensors.floorFailures 65539 (Sensors.init 0 0)).ds18b20_consecutive_errors
      = 4 := by rw [h3]; decide
  refine ⟨e1, ?_, e2, ?_, ?_⟩
  · unfold Sensors.isFloorValueValid
    rw [e1]
    decide
  · unfold Sensors.isFloorValueValid
    rw [e2]
    decide
  · unfold Sensors.isFloorValueValid
    rw [e3]
    decide

/-! ## Configuration round trip -/

theorem int16_round_trip (x : Int) (h1 : -32768 ≤ x) (h2 : x ≤ 32767) :
    int16OfBytes ((x % 65536).toNat % 256) ((x % 65536).toNat / 256) = x := by
  unfold int16OfBytes
  have h3 : 0 ≤ x % 65536 := Int.emod_nonneg x (by decide)
  have h4 : x % 65536 < 65536 := Int.emod_lt_of_pos x (by decide)
  have h5 : ((x % 65536).toNat : Int) = x % 65536 := Int.toNat_of_nonneg h3
  generalize (x % 65536).toNat = u at h5
  have h6 : u % 256 + 256 * (u / 256) = u := Nat.mod_add_div u 256
  rw [h6]
  split_ifs <;> omega

theorem EEPROM.read_put_below (bs : List Nat) :
    ∀ (a x : Nat) (e : EEPROM), x < a →
      EEPROM.read x (EEPROM.put a bs e) = EEPROM.read x e := by
  induction bs with
  | nil => intro a x e _; rfl
  | cons b bs ih =>
    intro a x e hx
    show EEPROM.read x (EEPROM.put (a + 1) bs (EEPROM.write a b e)) = _
    rw [ih (a + 1) x _ (by omega)]
    show (if x = a then b % 256 else e.cell x) = e.cell x
    rw [if_neg (by omega)]

theorem EEPROM.get_put (bs : List Nat) :
    ∀ (a : Nat) (e : EEPROM), (∀ b ∈ bs, b < 256) →
      EEPROM.get a bs.length (EEPROM.put a bs e) = bs := by
  induction bs with
  | nil => intro a e _; rfl
  | cons b bs ih =>
    intro a e hb
    show EEPROM.read a (EEPROM.put (a + 1) bs (EEPROM.write a b e))
        :: EEPROM.get (a + 1) bs.length (EEPROM.put (a + 1) bs (EEPROM.write a b e))
      = b :: bs
    rw [ih (a + 1) _ (fun c hc => hb c (List.mem_cons_of_mem b hc)),
      EEPROM.read_put_below bs (a + 1) a _ (by omega)]
    have hlt : b < 256 := hb b (List.mem_cons_self b bs)
    show (if a = a then b % 256 else e.cell a) :: bs = b :: bs
    rw [if_pos rfl, Nat.mod_eq_of_lt hlt]

theorem Configuration.toBytes_length (c : Configuration) : c.toBytes.length = 18 := rfl

theorem Configuration.toBytes_lt (c : Configuration) : ∀ b ∈ c.toBytes, b < 256 := by
  intro b hb
  have h256 : ∀ u : Nat, u < 65536 → u / 256 < 256 := fun u hu => by omega
  have hu : ∀ x : Int, (x % 65536).toNat < 65536 := by
    intro x
    have h3 : 0 ≤ x % 65536 := Int.emod_nonneg x (by decide)
    have h4 : x % 65536 < 65536 := Int.emod_lt_of_pos x (by decide)
    omega
  simp only [Configuration.toBytes, int16ToBytes, List.cons_append, List.nil_append,
    List.mem_cons, List.mem_singleton, List.not_mem_nil, or_false] at hb
  rcases hb with h | h | h | h | h | h | h | h | h | h | h | h | h | h | h | h | h | h <;>
    subst h <;>
    first
      | exact Nat.mod_lt _ (by decide)
      | exact h256 _ (hu _)

theorem Configuration.ofBytes_toBytes (c : Configuration) (hc : c.InRange) :
    Configuration.ofBytes c.toBytes = c := by
  obtain ⟨⟨a1, a2⟩, ⟨b1, b2⟩, ⟨c1, c2⟩, ⟨d1, d2⟩, ⟨e1, e2⟩, ⟨f1, f2⟩,
    g1, g2, g3, g4, g5, g6⟩ := hc
  obtain ⟨x1, x2, x3, x4, x5, x6, y1, y2, y3, y4, y5, ⟨z⟩⟩ := c
  simp only [Configuration.ofBytes, Configuration.toBytes, int16ToBytes, List.cons_append,
    List.nil_append, List.getD_cons_zero, List.getD_cons_succ]
  simp only at a1 a2 b1 b2 c1 c2 d1 d2 e1 e2 f1 f2 g1 g2 g3 g4 g5 g6
  rw [int16_round_trip x1 a1 a2, int16_round_trip x2 b1 b2, int16_round_trip x3 c1 c2,
    int16_round_trip x4 d1 d2, int16_round_trip x5 e1 e2, int16_round_trip x6 f1 f2,
    Nat.mod_eq_of_lt g1, Nat.mod_eq_of_lt g2, Nat.mod_eq_of_lt g3, Nat.mod_eq_of_lt g4,
    Nat.mod_eq_of_lt g5, Nat.mod_eq_of_lt g6]

theorem saved_then_read (c : Configuration) (hc : c.InRange) (i : Implementation)
    (e : EEPROM) :
    EEPROM.read 0 (Implementation.saveConfiguration { i with configuration := c } e) = 0
    ∧ Configuration.ofBytes
        (EEPROM.get 1 18 (Implementation.saveConfiguration { i with configuration := c } e))
      = c := by
  constructor
  · show EEPROM.read 0 (EEPROM.put 1 c.toBytes (EEPROM.write 0 0 e)) = 0
    rw [EEPROM.read_put_below c.toBytes 1 0 _ (by decide)]
    rfl
  · show Configuration.ofBytes (EEPROM.get 1 18 (EEPROM.put 1 c.toBytes (EEPROM.write 0 0 e)))
      = c
    have hlen : (18 : Nat) = c.toBytes.length := rfl
    rw [hlen, EEPROM.get_put c.toBytes 1 _ (Configuration.toBytes_lt c)]
    exact Configuration.ofBytes_toBytes c hc

/-- C16: for every Configuration `c` (thresholds in `int16_t`, the other
fields in `uint8_t` range), `setConfiguration c` followed by
`loadConfiguration` gives back `c` when its policy is INDEPENDENT or LINKED,
and `c` with the policy replaced by INDEPENDENT when the stored policy byte is
out of range; nothing else of the implementation object is touched by the
load. When the sentinel at address 0 reads `0xFF`, the load changes nothing, so
`begin` on a fresh firmware keeps the compiled defaults. -/
theorem configuration_round_trip (c : Configuration) (hc : c.InRange) (sys : System)
    (i : Implementation) (e : EEPROM) (t h : Int) :
    (System.setConfiguration c sys).controller.implementation.configuration = c
    ∧ ((c.auto_mode = AutoMode.INDEPENDENT ∨ c.auto_mode = AutoMode.LINKED) →
        Implementation.loadConfiguration (System.setConfiguration c sys).eeprom i
          = { i with configuration := c })
    ∧ ((c.auto_mode ≠ AutoMode.INDEPENDENT ∧ c.auto_mode ≠ AutoMode.LINKED) →
        Implementation.loadConfiguration (System.setConfiguration c sys).eeprom i
          = { i with configuration := { c with auto_mode := AutoMode.INDEPENDENT } })
    ∧ (EEPROM.read 0 e = 255 → Implementation.loadConfiguration e i = i)
    ∧ (EEPROM.read 0 e = 255 →
        (System.begin (System.init e t h)).controller.implementation.configuration
          = Implementation.init.configuration) := by
  obtain ⟨s1, s2⟩ := saved_then_read c hc sys.controller.implementation sys.eeprom
  have he : (System.setConfiguration c sys).eeprom
      = Implementation.saveConfiguration
          { sys.controller.implementation with configuration := c } sys.eeprom := rfl
  have hload : Implementation.loadConfiguration (System.setConfiguration c sys).eeprom i
      = if c.auto_mode ≠ AutoMode.INDEPENDENT ∧ c.auto_mode ≠ AutoMode.LINKED then
          { i with configuration := { c with auto_mode := AutoMode.INDEPENDENT } }
        else { i with configuration := c } := by
    unfold Implementation.loadConfiguration
    rw [he, s1, if_pos (by decide)]
    simp only [s2]
  have hnone : EEPROM.read 0 e = 255 → Implementation.loadConfiguration e i = i := by
    intro h255
    unfold Implementation.loadConfiguration
    rw [if_neg (by rw [h255]; decide)]
  refine ⟨rfl, ?_, ?_, hnone, ?_⟩
  · intro hor
    rw [hload, if_neg]
    intro hand
    rcases hor with h1 | h1
    · exact hand.1 h1
    · exact hand.2 h1
  · intro hand
    rw [hload, if_pos hand]
  · intro h255
    show (Implementation.loadConfiguration e Implementation.init).configuration = _
    unfold Implementation.loadConfiguration
    rw [if_neg (by rw [h255]; decide)]

/-- Witness for C16: the default configuration with policy byte 7 is saved
from the start-up firmware and loaded back with the policy INDEPENDENT. -/
theorem configuration_round_trip_witness :
    Configuration.oddPolicy.InRange
    ∧ Configuration.oddPolicy.auto_mode ≠ AutoMode.INDEPENDENT
    ∧ Configuration.oddPolicy.auto_mode ≠ AutoMode.LINKED
    ∧ Implementation.loadConfiguration
        (System.setConfiguration Configuration.oddPolicy
          (System.init EEPROM.erased 0 0)).eeprom Implementation.init
        = Implementation.init :=
  ⟨by decide, by decide, by decide,
    ((configuration_round_trip Configuration.oddPolicy (by decide)
      (System.init EEPROM.erased 0 0) Implementation.init EEPROM.erased 0 0).2.2.1
      ⟨by decide, by decide⟩).trans (by decide)⟩

/-! ## Validity flags in State -/

/-- C23: in AUTO mode a heavy evaluation leaves `heating_lounge` unchanged
under INDEPENDENT when the room flag is false, leaves `heating_vestibule`
unchanged under INDEPENDENT when the floor flag is false, and leaves both
unchanged under LINKED when either flag is false, whatever the readings. -/
theorem heating_gated_by_validity (clk : Clock) (r : Readings) (c : Controller)
    (hmode : c.implementation.state.mode = Mode.AUTO)
    (hheavy : timeAfter clk.rate_check c.implementation.next_update_timestamp = true) :
    (c.implementation.configuration.auto_mode = AutoMode.INDEPENDENT →
      r.room_values_valid = false →
      (Controller.run clk r c).implementation.state.heating_lounge
        = c.implementation.state.heating_lounge)
    ∧ (c.implementation.configuration.auto_mode = AutoMode.INDEPENDENT →
      r.floor_value_valid = false →
      (Controller.run clk r c).implementation.state.heating_vestibule
        = c.implementation.state.heating_vestibule)
    ∧ (c.implementation.configuration.auto_mode = AutoMode.LINKED →
      (r.room_values_valid = false ∨ r.floor_value_valid = false) →
      (Controller.run clk r c).implementation.state.heating_lounge
          = c.implementation.state.heating_lounge
        ∧ (Controller.run clk r c).implementation.state.heating_vestibule
          = c.implementation.state.heating_vestibule) := by
  refine ⟨?_, ?_, ?_⟩
  · intro hauto hinv
    rw [run_heavy_independent_lounge clk r c hmode hauto hheavy,
      if_neg (by rw [hinv]; decide)]
  · intro hauto hinv
    rw [run_heavy_independent_vestibule clk r c hmode hauto hheavy,
      if_neg (by rw [hinv]; decide)]
  · intro hauto hinv
    obtain ⟨e1, e2⟩ := run_heavy_linked clk r c hmode hauto hheavy
    have hgate : ¬ ((refreshSensors r c.implementation.state).room_values_valid = true
        ∧ (refreshSensors r c.implementation.state).floor_value_valid = true) := by
      intro hboth
      have h1 : r.room_values_valid = true := hboth.1
      have h2 : r.floor_value_valid = true := hboth.2
      rcases hinv with h | h
      · rw [h] at h1
        exact Bool.noConfusion h1
      · rw [h] at h2
        exact Bool.noConfusion h2
    rw [e1, e2]
    unfold heatingLinked
    rw [if_neg hgate]
    exact ⟨rfl, rfl⟩

/-- Witness for C23: the start-up controller (INDEPENDENT) with the room
channel invalid and a reading far below room-min keeps the lounge heating off. -/
theorem heating_gated_by_validity_witness :
    Controller.init.implementation.state.mode = Mode.AUTO
    ∧ timeAfter 1 Controller.init.implementation.next_update_timestamp = true
    ∧ Readings.roomInvalid.temperature_10th_c
        ≤ Controller.init.implementation.configuration.min_room_temperature_10th_c
    ∧ (Controller.run (Clock.still 1) Readings.roomInvalid
        Controller.init).implementation.state.heating_lounge
        = false :=
  ⟨rfl, by decide, by decide,
    (heating_gated_by_validity (Clock.still 1) Readings.roomInvalid Controller.init rfl (by
        decide)).1
      rfl rfl⟩

/-- C22 as the code has it: in AUTO mode with the LINKED policy, from every
prior state in which the two heating booleans are equal a heavy evaluation
changes `heating_lounge` iff it changes `heating_vestibule`, and the two are
equal afterwards; from every prior state, a change of `heating_vestibule`
comes with a change of `heating_lounge`, and after a change of
`heating_lounge` the two are equal. -/
theorem linked_zones_coupled (clk : Clock) (r : Readings) (c : Controller)
    (hmode : c.implementation.state.mode = Mode.AUTO)
    (hauto : c.implementation.configuration.auto_mode = AutoMode.LINKED)
    (hheavy : timeAfter clk.rate_check c.implementation.next_update_timestamp = true) :
    (c.implementation.state.heating_lounge = c.implementation.state.heating_vestibule →
      (((Controller.run clk r c).implementation.state.heating_lounge
            ≠ c.implementation.state.heating_lounge)
          ↔ ((Controller.run clk r c).implementation.state.heating_vestibule
            ≠ c.implementation.state.heating_vestibule))
        ∧ (Controller.run clk r c).implementation.state.heating_lounge
          = (Controller.run clk r c).implementation.state.heating_vestibule)
    ∧ ((Controller.run clk r c).implementation.state.heating_vestibule
        ≠ c.implementation.state.heating_vestibule →
      (Controller.run clk r c).implementation.state.heating_lounge
        ≠ c.implementation.state.heating_lounge)
    ∧ ((Controller.run clk r c).implementation.state.heating_lounge
        ≠ c.implementation.state.heating_lounge →
      (Controller.run clk r c).implementation.state.heating_lounge
        = (Controller.run clk r c).implementation.state.heating_vestibule) := by
  obtain ⟨e1, e2⟩ := run_heavy_linked clk r c hmode hauto hheavy
  rw [e1, e2]
  unfold heatingLinked refreshSensors
  simp only []
  cases hl : c.implementation.state.heating_lounge <;>
    cases hv : c.implementation.state.heating_vestibule <;>
    split_ifs <;> simp_all

/-- Witness for C22 as amended: the LINKED start-up controller (both zones
off) with a cold room switches both zones on together. -/
theorem linked_zones_coupled_witness :
    Controller.linked.implementation.state.mode = Mode.AUTO
    ∧ Controller.linked.implementation.configuration.auto_mode = AutoMode.LINKED
    ∧ timeAfter 1 Controller.linked.implementation.next_update_timestamp = true
    ∧ Controller.linked.implementation.state.heating_lounge
        = Controller.linked.implementation.state.heating_vestibule
    ∧ (Controller.run (Clock.still 1) Readings.cold
        Controller.linked).implementation.state.heating_lounge
        = (Controller.run (Clock.still 1) Readings.cold
            Controller.linked).implementation.state.heating_vestibule :=
  ⟨rfl, rfl, by decide, rfl,
    ((linked_zones_coupled (Clock.still 1) Readings.cold Controller.linked rfl rfl (by decide)).1
        rfl).2⟩

/-- C22 as stated fails: with the lounge off and the vestibule on (left by a
manual setter and `setAutoMode`), a LINKED heavy evaluation with a cold room
changes `heating_lounge` and does not change `heating_vestibule`. -/
theorem linked_zones_counterexample :
    Controller.vestibuleOnly.implementation.state.mode = Mode.AUTO
    ∧ Controller.vestibuleOnly.implementation.configuration.auto_mode = AutoMode.LINKED
    ∧ timeAfter 1 Controller.vestibuleOnly.implementation.next_update_timestamp = true
    ∧ (Controller.run (Clock.still 1) Readings.cold
        Controller.vestibuleOnly).implementation.state.heating_lounge
        ≠ Controller.vestibuleOnly.implementation.state.heating_lounge
    ∧ (Controller.run (Clock.still 1) Readings.cold
        Controller.vestibuleOnly).implementation.state.heating_vestibule
        = Controller.vestibuleOnly.implementation.state.heating_vestibule := by
  decide

theorem heavy_mode (clk : Clock) (r : Readings) (i : Implementation) :
    (heavyEvaluation clk r i).state.mode = i.state.mode := by
  obtain ⟨-, -, -, -, -, p6, -, -⟩ :=
    heatingPolicy_frame i.configuration (refreshSensors r i.state)
  have q6 : (refreshSensors r i.state).mode = i.state.mode := rfl
  rw [q6] at p6
  unfold heavyEvaluation
  simp only []
  split_ifs with hm
  · unfold fanHumidityPolicy
    split_ifs <;> simp [lampPolicy_frame, p6]
  · rfl

theorem step_mode (clk : Clock) (r : Readings) (i : Implementation) :
    (Implementation.step clk r i).state.mode = i.state.mode := by
  unfold Implementation.step
  rw [(advanceTimers_state clk _).1]
  split_ifs
  · exact heavy_mode clk r i
  · rfl

/-- C25 as the code has it: under INDEPENDENT with room-min above room-max, a
constant valid room reading below room-max gives lounge heating on and one
above room-min gives it off, and a second heavy evaluation with the same
reading does not change it; but for a reading between room-max and room-min
(both included) every heavy evaluation toggles `heating_lounge`. -/
theorem inverted_thresholds (clk1 clk2 : Clock) (r1 r2 : Readings) (c : Controller)
    (hmode : c.implementation.state.mode = Mode.AUTO)
    (hauto : c.implementation.configuration.auto_mode = AutoMode.INDEPENDENT)
    (hinv : c.implementation.configuration.min_room_temperature_10th_c
      > c.implementation.configuration.max_room_temperature_10th_c)
    (h1 : timeAfter clk1.rate_check c.implementation.next_update_timestamp = true)
    (h2 : timeAfter clk2.rate_check
      (Controller.run clk1 r1 c).implementation.next_update_timestamp = true)
    (hv1 : r1.room_values_valid = true) (hv2 : r2.room_values_valid = true)
    (hsame : r2.temperature_10th_c = r1.temperature_10th_c) :
    (r1.temperature_10th_c < c.implementation.configuration.max_room_temperature_10th_c →
      (Controller.run clk1 r1 c).implementation.state.heating_lounge = true
      ∧ (Controller.run clk2 r2 (Controller.run clk1 r1 c)).implementation.state.heating_lounge
          = true)
    ∧ (c.implementation.configuration.min_room_temperature_10th_c < r1.temperature_10th_c →
      (Controller.run clk1 r1 c).implementation.state.heating_lounge = false
      ∧ (Controller.run clk2 r2 (Controller.run clk1 r1 c)).implementation.state.heating_lounge
          = false)
    ∧ (c.implementation.configuration.max_room_temperature_10th_c ≤ r1.temperature_10th_c →
      r1.temperature_10th_c ≤ c.implementation.configuration.min_room_temperature_10th_c →
      (Controller.run clk1 r1 c).implementation.state.heating_lounge
          = !c.implementation.state.heating_lounge
      ∧ (Controller.run clk2 r2 (Controller.run clk1 r1 c)).implementation.state.heating_lounge
          = !(Controller.run clk1 r1 c).implementation.state.heating_lounge) := by
  have hmode2 : (Controller.run clk1 r1 c).implementation.state.mode = Mode.AUTO :=
    (step_mode clk1 r1 c.implementation).trans hmode
  have hcfg : (Controller.run clk1 r1 c).implementation.configuration
      = c.implementation.configuration := step_configuration clk1 r1 c.implementation
  have hauto2 : (Controller.run clk1 r1 c).implementation.configuration.auto_mode
      = AutoMode.INDEPENDENT := by rw [hcfg]; exact hauto
  have e1 := run_heavy_independent_lounge clk1 r1 c hmode hauto h1
  have e2 := run_heavy_independent_lounge clk2 r2 (Controller.run clk1 r1 c) hmode2 hauto2 h2
  rw [hcfg, hsame, if_pos hv2] at e2
  rw [if_pos hv1] at e1
  generalize (Controller.run clk2 r2 (Controller.run clk1 r1 c)).implementation.state.heating_lounge
    = b2 at e2
  generalize (Controller.run clk1 r1 c).implementation.state.heating_lounge = b1 at e1 e2
  subst e2
  subst e1
  refine ⟨?_, ?_, ?_⟩
  · intro hlow
    cases c.implementation.state.heating_lounge <;> simp <;> omega
  · intro hhigh
    cases c.implementation.state.heating_lounge <;> simp <;> omega
  · intro ha hb
    have hc : ¬ (c.implementation.configuration.min_room_temperature_10th_c
        < r1.temperature_10th_c) := by omega
    have hd : ¬ (r1.temperature_10th_c
        < c.implementation.configuration.max_room_temperature_10th_c) := by omega
    cases c.implementation.state.heating_lounge <;> simp [ha, hb, hc, hd]

/-- Witness for C25 as amended: thresholds 20.0 / 10.0, constant reading
9.0 °C: on after the first evaluation and still on after the second. -/
theorem inverted_thresholds_witness :
    Controller.inverted.implementation.configuration.min_room_temperature_10th_c
        > Controller.inverted.implementation.configuration.max_room_temperature_10th_c
    ∧ Readings.cold.temperature_10th_c
        < Controller.inverted.implementation.configuration.max_room_temperature_10th_c
    ∧ (Controller.run (Clock.still 2502) Readings.cold
        (Controller.run (Clock.still 1) Readings.cold
            Controller.inverted)).implementation.state.heating_lounge
          = true :=
  ⟨by decide, by decide,
    ((inverted_thresholds (Clock.still 1) (Clock.still 2502) Readings.cold Readings.cold
        Controller.inverted rfl rfl
      (by decide) (by decide) (by decide) rfl rfl rfl).1 (by decide)).2⟩

/-- C25 as stated fails: with room-min 20.0 °C above room-max 10.0 °C and a
constant valid reading of 15.0 °C, the first heavy evaluation switches the
lounge heating on and the second switches it off again. -/
theorem inverted_thresholds_counterexample :
    Controller.inverted.implementation.state.mode = Mode.AUTO
    ∧ Controller.inverted.implementation.configuration.auto_mode = AutoMode.INDEPENDENT
    ∧ Controller.inverted.implementation.configuration.min_room_temperature_10th_c
        > Controller.inverted.implementation.configuration.max_room_temperature_10th_c
    ∧ Readings.humid.room_values_valid = true
    ∧ timeAfter 1 Controller.inverted.implementation.next_update_timestamp = true
    ∧ timeAfter 2502 (Controller.run (Clock.still 1) Readings.humid
        Controller.inverted).implementation.next_update_timestamp = true
    ∧ (Controller.run (Clock.still 1) Readings.humid
        Controller.inverted).implementation.state.heating_lounge
        = true
    ∧ (Controller.run (Clock.still 2502) Readings.humid
        (Controller.run (Clock.still 1) Readings.humid
            Controller.inverted)).implementation.state.heating_lounge
          = false := by
  decide

/-! ## Deadline arithmetic -/

/-- C28: for every clock value `now` and every 8-bit minute count `m`, the
deadline the code arms, `now + m * 60 * 1000` in `uint32_t`, is
`(now + m * 60000) mod 2^32`, has not passed at `now`, and for every elapsed
`e < 2^31` counts as passed at `now + e (mod 2^32)` iff `e > m * 60000`; the
largest delay `255 * 60000` is below `2^31`. -/
theorem deadline_arithmetic (now m e : Nat) (hm : m < 256) (he : e < 2147483648) :
    add32 now (mul32 (mul32 m 60) 1000) = (now + m * 60000) % 4294967296
    ∧ timeAfter now (add32 now (mul32 (mul32 m 60) 1000)) = false
    ∧ (timeAfter ((now + e) % 4294967296) (add32 now (mul32 (mul32 m 60) 1000)) = true
      ↔ e > m * 60000)
    ∧ 255 * 60000 < 2147483648 := by
  refine ⟨add32_minutes_mod now m, timeAfter_arm now m hm, ?_, by decide⟩
  rw [add32_minutes_mod]
  constructor
  · intro h
    by_contra hle
    have hf := timeAfter_not_elapsed now (m * 60000) e (by omega) (by omega)
    rw [hf] at h
    exact Bool.noConfusion h
  · intro hgt
    exact timeAfter_elapsed now (m * 60000) e hgt (by omega)

/-- Witness for C28: a five-minute deadline armed two seconds before the
32-bit clock wraps is still pending 299 s later and has passed after 301 s. -/
theorem deadline_arithmetic_witness :
    add32 4294965296 (mul32 (mul32 5 60) 1000) = 298000
    ∧ timeAfter ((4294965296 + 301000) % 4294967296)
        (add32 4294965296 (mul32 (mul32 5 60) 1000)) = true
    ∧ timeAfter 4294965296 (add32 4294965296 (mul32 (mul32 5 60) 1000)) = false :=
  ⟨by decide,
    (deadline_arithmetic 4294965296 5 301000 (by decide) (by decide)).2.2.1.mpr (by decide),
    (deadline_arithmetic 4294965296 5 301000 (by decide) (by decide)).2.1⟩

/-! ## Fan: irreversible escalation, end of the pause, timer invariant -/

theorem step_from_high (clk : Clock) (r : Readings) (i : Implementation)
    (hmode : i.state.mode = Mode.AUTO)
    (hhigh : i.state.fan_speed = Fan.Speed.HIGH) :
    ∃ j : Implementation,
      Implementation.step clk r i = advanceTimers clk j
      ∧ j.state.mode = Mode.AUTO ∧ j.configuration = i.configuration
      ∧ j.fan_timer_timestamp = i.fan_timer_timestamp
      ∧ (((timeAfter clk.rate_check i.next_update_timestamp = true
            ∧ i.fan_timer ≠ FanTimer.PAUSE ∧ r.room_values_valid = true
            ∧ r.humidity_per_mill ≤ i.configuration.min_humidity_per_mill)
          ∧ j.state.fan_speed = Fan.Speed.OFF ∧ j.fan_timer = FanTimer.OFF)
        ∨ (j.state.fan_speed = Fan.Speed.HIGH ∧ j.fan_timer = i.fan_timer)) := by
  have hne : i.state.fan_speed ≠ Fan.Speed.OFF := by rw [hhigh]; decide
  by_cases hheavy : timeAfter clk.rate_check i.next_update_timestamp = true
  · refine ⟨heavyEvaluation clk r i, step_heavy clk r i hheavy, ?_⟩
    obtain ⟨g1, g2, g3, g4, g5, -⟩ := heavy_fan clk r i hmode
    refine ⟨g1, g2, g3, ?_⟩
    by_cases hgate : i.fan_timer ≠ FanTimer.PAUSE ∧ r.room_values_valid = true
    · by_cases hstop : i.state.fan_speed ≠ Fan.Speed.OFF
          ∧ r.humidity_per_mill ≤ i.configuration.min_humidity_per_mill
      · rw [if_pos hgate, if_neg (fun h => hne h.1), if_pos hstop] at g4 g5
        exact Or.inl ⟨⟨hheavy, hgate.1, hgate.2, hstop.2⟩, g4, g5⟩
      · rw [if_pos hgate, if_neg (fun h => hne h.1), if_neg hstop] at g4 g5
        exact Or.inr ⟨g4.trans hhigh, g5⟩
    · rw [if_neg hgate] at g4 g5
      exact Or.inr ⟨g4.trans hhigh, g5⟩
  · refine ⟨i, ?_, hmode, rfl, rfl, Or.inr ⟨hhigh, rfl⟩⟩
    unfold Implementation.step
    rw [if_neg hheavy]

/-- C24: from every state whose fan speed is HIGH, a tick (any mode, clock
reads, readings and configuration) leaves the fan HIGH or OFF, never LOW; in
MANUAL it stays HIGH; and a tick that leaves it OFF is in AUTO mode and either
its heavy evaluation applied the humidity shut-off or the max-run expiry
fired: the timer was ON with its deadline passed at the check (line 212), or
it was armed in this very tick (line 209) and that deadline was already passed
at the check. The max-run minutes being an 8-bit value, the last case needs
the check to read the clock more than `max-run * 60000` ms after the arming,
so it is excluded when the clock advances by no more than that between the
two reads (as for a clock that stands still during the call). -/
theorem fan_high_irreversible (clk : Clock) (r : Readings) (c : Controller)
    (hhigh : c.implementation.state.fan_speed = Fan.Speed.HIGH) :
    ((Controller.run clk r c).implementation.state.fan_speed = Fan.Speed.HIGH
      ∨ (Controller.run clk r c).implementation.state.fan_speed = Fan.Speed.OFF)
    ∧ (Controller.run clk r c).implementation.state.fan_speed ≠ Fan.Speed.LOW
    ∧ (c.implementation.state.mode = Mode.MANUAL →
      (Controller.run clk r c).implementation.state.fan_speed = Fan.Speed.HIGH)
    ∧ ((Controller.run clk r c).implementation.state.fan_speed = Fan.Speed.OFF →
      c.implementation.state.mode = Mode.AUTO
      ∧ ((timeAfter clk.rate_check c.implementation.next_update_timestamp = true
          ∧ c.implementation.fan_timer ≠ FanTimer.PAUSE ∧ r.room_values_valid = true
          ∧ r.humidity_per_mill ≤ c.implementation.configuration.min_humidity_per_mill)
        ∨ (c.implementation.fan_timer = FanTimer.ON
          ∧ timeAfter clk.timer_check c.implementation.fan_timer_timestamp = true)
        ∨ (c.implementation.fan_timer = FanTimer.OFF
          ∧ c.implementation.configuration.fan_max_run_minutes ≠ 0
          ∧ timeAfter clk.timer_check
              ((clk.max_run_arm + c.implementation.configuration.fan_max_run_minutes * 60000)
                % 4294967296) = true)))
    ∧ (c.implementation.configuration.fan_max_run_minutes < 256 →
      sub32 clk.timer_check clk.max_run_arm
        ≤ c.implementation.configuration.fan_max_run_minutes * 60000 →
      (Controller.run clk r c).implementation.state.fan_speed = Fan.Speed.OFF →
      c.implementation.state.mode = Mode.AUTO
      ∧ ((timeAfter clk.rate_check c.implementation.next_update_timestamp = true
          ∧ c.implementation.fan_timer ≠ FanTimer.PAUSE ∧ r.room_values_valid = true
          ∧ r.humidity_per_mill ≤ c.implementation.configuration.min_humidity_per_mill)
        ∨ (c.implementation.fan_timer = FanTimer.ON
          ∧ timeAfter clk.timer_check c.implementation.fan_timer_timestamp = true))) := by
  have hHL : Fan.Speed.HIGH ≠ Fan.Speed.LOW := by decide
  have hOL : Fan.Speed.OFF ≠ Fan.Speed.LOW := by decide
  have hHO : Fan.Speed.HIGH ≠ Fan.Speed.OFF := by decide
  have hrun : (Controller.run clk r c).implementation
      = Implementation.step clk r c.implementation := rfl
  rw [hrun]
  have hcause : (Implementation.step clk r c.implementation).state.fan_speed = Fan.Speed.OFF →
      c.implementation.state.mode = Mode.AUTO
      ∧ ((timeAfter clk.rate_check c.implementation.next_update_timestamp = true
          ∧ c.implementation.fan_timer ≠ FanTimer.PAUSE ∧ r.room_values_valid = true
          ∧ r.humidity_per_mill ≤ c.implementation.configuration.min_humidity_per_mill)
        ∨ (c.implementation.fan_timer = FanTimer.ON
          ∧ timeAfter clk.timer_check c.implementation.fan_timer_timestamp = true)
        ∨ (c.implementation.fan_timer = FanTimer.OFF
          ∧ c.implementation.configuration.fan_max_run_minutes ≠ 0
          ∧ timeAfter clk.timer_check
              ((clk.max_run_arm + c.implementation.configuration.fan_max_run_minutes * 60000)
                % 4294967296) = true)) := by
    cases hmode : c.implementation.state.mode
    · obtain ⟨j, hstep, j1, j2, j3, hcase⟩ :=
        step_from_high clk r c.implementation hmode hhigh
      obtain ⟨a1, -, -, -, -, -⟩ := advanceTimers_fan clk j j1 _ _ _ rfl rfl rfl
      rw [hstep, a1, j2, j3]
      rcases hcase with ⟨hS, k1, k2⟩ | ⟨k1, k2⟩
      · intro _
        exact ⟨rfl, Or.inl hS⟩
      · rw [k1, k2]
        simp only [add32_minutes_mod]
        intro hoff
        refine ⟨trivial, Or.inr ?_⟩
        by_cases h0 : c.implementation.configuration.fan_max_run_minutes = 0 <;>
          by_cases hfresh : timeAfter clk.timer_check
              ((clk.max_run_arm
                + c.implementation.configuration.fan_max_run_minutes * 60000)
                % 4294967296) = true <;>
          cases h3 : c.implementation.fan_timer <;>
          simp_all
    · have hman := step_manual clk r c.implementation hmode
      rw [hman]
      have hfan : (if timeAfter clk.rate_check c.implementation.next_update_timestamp
              = true then
            ({ c.implementation with
              next_update_timestamp := add32 clk.rate_stamp 2500
              state := refreshSensors r c.implementation.state } : Implementation)
          else c.implementation).state.fan_speed = Fan.Speed.HIGH := by
        split_ifs
        · exact hhigh
        · exact hhigh
      rw [hfan]
      intro h
      exact absurd h hHO
  have hshape : ((Implementation.step clk r c.implementation).state.fan_speed = Fan.Speed.HIGH
        ∨ (Implementation.step clk r c.implementation).state.fan_speed = Fan.Speed.OFF)
      ∧ (c.implementation.state.mode = Mode.MANUAL →
        (Implementation.step clk r c.implementation).state.fan_speed = Fan.Speed.HIGH) := by
    cases hmode : c.implementation.state.mode
    · obtain ⟨j, hstep, j1, j2, j3, hcase⟩ :=
        step_from_high clk r c.implementation hmode hhigh
      obtain ⟨a1, -, -, -, -, -⟩ := advanceTimers_fan clk j j1 _ _ _ rfl rfl rfl
      rw [hstep, a1, j2, j3]
      refine ⟨?_, fun h => Mode.noConfusion h⟩
      rcases hcase with ⟨hS, k1, k2⟩ | ⟨k1, k2⟩
      · rw [k1, k2]
        simp [hOL]
      · rw [k1, k2]
        split_ifs <;> simp
    · have hman := step_manual clk r c.implementation hmode
      rw [hman]
      have hfan : (if timeAfter clk.rate_check c.implementation.next_update_timestamp
              = true then
            ({ c.implementation with
              next_update_timestamp := add32 clk.rate_stamp 2500
              state := refreshSensors r c.implementation.state } : Implementation)
          else c.implementation).state.fan_speed = Fan.Speed.HIGH := by
        split_ifs
        · exact hhigh
        · exact hhigh
      rw [hfan]
      exact ⟨Or.inl rfl, fun _ => rfl⟩
  refine ⟨hshape.1, ?_, hshape.2, hcause, ?_⟩
  · rcases hshape.1 with h | h
    · rw [h]; exact hHL
    · rw [h]; exact hOL
  · intro hm hnear hoff
    obtain ⟨c1, c2⟩ := hcause hoff
    refine ⟨c1, ?_⟩
    rcases c2 with h | h | h
    · exact Or.inl h
    · exact Or.inr h
    · have hnot := timeAfter_deadline_early clk.timer_check clk.max_run_arm _ hm hnear
      rw [hnot] at h
      exact absurd h.2.2 (by decide)

/-- Witness for C24: the fan escalated to HIGH in AUTO mode is switched OFF by
a heavy evaluation with dry air, which is the humidity shut-off. -/
theorem fan_high_irreversible_witness :
    Controller.autoHigh.implementation.state.fan_speed = Fan.Speed.HIGH
    ∧ (Controller.run (Clock.still 302503) Readings.cold
        Controller.autoHigh).implementation.state.fan_speed
        = Fan.Speed.OFF
    ∧ (Controller.run (Clock.still 302503) Readings.cold
        Controller.autoHigh).implementation.state.fan_speed
        ≠ Fan.Speed.LOW
    ∧ Controller.autoHigh.implementation.state.mode = Mode.AUTO :=
  ⟨by decide, by decide,
    (fan_high_irreversible (Clock.still 302503) Readings.cold Controller.autoHigh (by decide)).2.1,
    ((fan_high_irreversible (Clock.still 302503) Readings.cold Controller.autoHigh
      (by decide)).2.2.2.1 (by decide)).1⟩

theorem run_idle_light (clk : Clock) (r : Readings) (c : Controller)
    (hmode : c.implementation.state.mode = Mode.AUTO)
    (hoff : c.implementation.state.fan_speed = Fan.Speed.OFF)
    (htimer : c.implementation.fan_timer = FanTimer.OFF)
    (hlight : timeAfter clk.rate_check c.implementation.next_update_timestamp = false) :
    (Controller.run clk r c).implementation.state.mode = Mode.AUTO
    ∧ (Controller.run clk r c).implementation.state.fan_speed = Fan.Speed.OFF
    ∧ (Controller.run clk r c).implementation.fan_timer = FanTimer.OFF
    ∧ (Controller.run clk r c).implementation.next_update_timestamp
        = c.implementation.next_update_timestamp
    ∧ (Controller.run clk r c).implementation.configuration
        = c.implementation.configuration := by
  have hrun : (Controller.run clk r c).implementation
      = advanceTimers clk c.implementation := by
    show Implementation.step clk r c.implementation = _
    unfold Implementation.step
    rw [if_neg (by rw [hlight]; decide)]
  obtain ⟨b1, b2⟩ := advanceTimers_fan_off clk c.implementation hmode hoff
  rw [htimer] at b2
  simp only [ne_eq, not_true_eq_false, false_and, if_false] at b2
  refine ⟨(step_mode clk r c.implementation).trans hmode, ?_, ?_,
    (run_light clk r c hlight).2, step_configuration clk r c.implementation⟩
  · rw [hrun]
    exact b1
  · rw [hrun]
    exact b2

theorem runs_idle_light (ticks : List (Clock × Readings)) :
    ∀ c : Controller, c.implementation.state.mode = Mode.AUTO →
      c.implementation.state.fan_speed = Fan.Speed.OFF →
      c.implementation.fan_timer = FanTimer.OFF →
      (∀ p ∈ ticks, timeAfter p.1.rate_check c.implementation.next_update_timestamp = false) →
      (Controller.runs ticks c).implementation.state.mode = Mode.AUTO
      ∧ (Controller.runs ticks c).implementation.state.fan_speed = Fan.Speed.OFF
      ∧ (Controller.runs ticks c).implementation.fan_timer = FanTimer.OFF
      ∧ (Controller.runs ticks c).implementation.next_update_timestamp
          = c.implementation.next_update_timestamp
      ∧ (Controller.runs ticks c).implementation.configuration
          = c.implementation.configuration := by
  induction ticks with
  | nil =>
    intro c hmode hoff htimer _
    exact ⟨hmode, hoff, htimer, rfl, rfl⟩
  | cons p ps ih =>
    intro c hmode hoff htimer hlight
    obtain ⟨e1, e2, e3, e4, e5⟩ :=
      run_idle_light p.1 p.2 c hmode hoff htimer (hlight p (List.mem_cons_self p ps))
    obtain ⟨f1, f2, f3, f4, f5⟩ := ih (Controller.run p.1 p.2 c) e1 e2 e3
      (fun q hq => by rw [e4]; exact hlight q (List.mem_cons_of_mem p hq))
    exact ⟨f1, f2, f3, f4.trans e4, f5.trans e5⟩

theorem run_start_low (clk : Clock) (r : Readings) (c : Controller)
    (hmode : c.implementation.state.mode = Mode.AUTO)
    (hheavy : timeAfter clk.rate_check c.implementation.next_update_timestamp = true)
    (hvalid : r.room_values_valid = true)
    (hoff : c.implementation.state.fan_speed = Fan.Speed.OFF)
    (htimer : c.implementation.fan_timer = FanTimer.OFF)
    (hhum : r.humidity_per_mill ≥ c.implementation.configuration.max_humidity_per_mill)
    (hd : c.implementation.configuration.fan_speedup_delay_minutes < 256)
    (hm : c.implementation.configuration.fan_max_run_minutes < 256) :
    (heavyEvaluation clk r c.implementation).state.fan_speed = Fan.Speed.LOW
    ∧ (Controller.run clk r c).implementation.fan_speedup_timestamp
        = (clk.speedup_arm + c.implementation.configuration.fan_speedup_delay_minutes * 60000)
            % 4294967296
    ∧ (sub32 clk.speedup_check clk.speedup_arm
          ≤ c.implementation.configuration.fan_speedup_delay_minutes * 60000 →
        sub32 clk.timer_check clk.max_run_arm
          ≤ c.implementation.configuration.fan_max_run_minutes * 60000 →
        (Controller.run clk r c).implementation.state.fan_speed = Fan.Speed.LOW) := by
  obtain ⟨g1, g2, g3, g4, g5, g6⟩ := heavy_fan clk r c.implementation hmode
  have hgate : c.implementation.fan_timer ≠ FanTimer.PAUSE ∧ r.room_values_valid = true :=
    ⟨by rw [htimer]; decide, hvalid⟩
  rw [if_pos hgate, if_pos ⟨hoff, hhum⟩] at g4 g5 g6
  rw [htimer] at g5
  obtain ⟨a1, -, -, a4, -, -⟩ :=
    advanceTimers_fan clk (heavyEvaluation clk r c.implementation) g1 _ _ _ rfl rfl rfl
  rw [g4, g5, g6, g2, g3] at a1
  rw [g6, add32_minutes_mod] at a4
  simp only [add32_minutes_mod] at a1
  have hLO : Fan.Speed.LOW ≠ Fan.Speed.OFF := by decide
  have hrun : (Controller.run clk r c).implementation
      = advanceTimers clk (heavyEvaluation clk r c.implementation) := by
    show Implementation.step clk r c.implementation = _
    exact step_heavy clk r _ hheavy
  rw [hrun]
  refine ⟨g4, a4, ?_⟩
  intro he1 he2
  have hs := timeAfter_deadline_early clk.speedup_check clk.speedup_arm _ hd he1
  have ht := timeAfter_deadline_early clk.timer_check clk.max_run_arm _ hm he2
  rw [a1]
  by_cases h0 : c.implementation.configuration.fan_max_run_minutes = 0 <;>
    simp [h0, hLO, hs, ht]

/-- C26: in AUTO mode with FanTimer PAUSE, the fan OFF and `now` (the clock
read at line 212) after the pause deadline, the tick sets FanTimer to OFF and
leaves the fan OFF; ticks without a heavy evaluation that follow keep both
OFF; and in the next tick that performs a heavy evaluation with the room
sensor valid and humidity at or above max-humidity the humidity-start rule
fires: the evaluation sets the fan to LOW and arms the speed-up deadline, and
the tick ends with the fan LOW when the clock advances by no more than the
speed-up delay between the reads at lines 178 and 199 and by no more than the
max-run time between those at lines 209 and 212 (minute counts being 8-bit),
as it does for a clock that stands still during the call. -/
theorem pause_ends (clk : Clock) (r : Readings) (c : Controller)
    (hmode : c.implementation.state.mode = Mode.AUTO)
    (hpause : c.implementation.fan_timer = FanTimer.PAUSE)
    (hoff : c.implementation.state.fan_speed = Fan.Speed.OFF)
    (hexp : timeAfter clk.timer_check c.implementation.fan_timer_timestamp = true)
    (ticks : List (Clock × Readings))
    (hlight : ∀ p ∈ ticks,
      timeAfter p.1.rate_check
        (Controller.run clk r c).implementation.next_update_timestamp = false)
    (clk2 : Clock) (r2 : Readings)
    (hheavy2 : timeAfter clk2.rate_check
      (Controller.run clk r c).implementation.next_update_timestamp = true)
    (hvalid : r2.room_values_valid = true)
    (hhum : r2.humidity_per_mill ≥ c.implementation.configuration.max_humidity_per_mill)
    (hd : c.implementation.configuration.fan_speedup_delay_minutes < 256)
    (hm : c.implementation.configuration.fan_max_run_minutes < 256) :
    (Controller.run clk r c).implementation.fan_timer = FanTimer.OFF
    ∧ (Controller.run clk r c).implementation.state.fan_speed = Fan.Speed.OFF
    ∧ (Controller.runs ticks (Controller.run clk r c)).implementation.fan_timer
        = FanTimer.OFF
    ∧ (Controller.runs ticks (Controller.run clk r c)).implementation.state.fan_speed
        = Fan.Speed.OFF
    ∧ (heavyEvaluation clk2 r2
        (Controller.runs ticks (Controller.run clk r c)).implementation).state.fan_speed
          = Fan.Speed.LOW
    ∧ (Controller.run clk2 r2
        (Controller.runs ticks (Controller.run clk r c))).implementation.fan_speedup_timestamp
          = (clk2.speedup_arm
              + c.implementation.configuration.fan_speedup_delay_minutes * 60000)
              % 4294967296
    ∧ (sub32 clk2.speedup_check clk2.speedup_arm
          ≤ c.implementation.configuration.fan_speedup_delay_minutes * 60000 →
        sub32 clk2.timer_check clk2.max_run_arm
          ≤ c.implementation.configuration.fan_max_run_minutes * 60000 →
        (Controller.run clk2 r2
          (Controller.runs ticks (Controller.run clk r c))).implementation.state.fan_speed
            = Fan.Speed.LOW) := by
  have hJ : ∃ j : Implementation,
      Implementation.step clk r c.implementation = advanceTimers clk j
      ∧ j.state.mode = Mode.AUTO
      ∧ j.fan_timer_timestamp = c.implementation.fan_timer_timestamp
      ∧ j.state.fan_speed = Fan.Speed.OFF ∧ j.fan_timer = FanTimer.PAUSE := by
    by_cases hheavy : timeAfter clk.rate_check c.implementation.next_update_timestamp = true
    · refine ⟨heavyEvaluation clk r c.implementation, step_heavy clk r _ hheavy, ?_⟩
      obtain ⟨g1, g2, g3, g4, g5, g6⟩ := heavy_fan clk r c.implementation hmode
      rw [if_neg (fun h => h.1 hpause)] at g4 g5
      exact ⟨g1, g3, g4.trans hoff, g5.trans hpause⟩
    · refine ⟨c.implementation, ?_, hmode, rfl, hoff, hpause⟩
      unfold Implementation.step
      rw [if_neg hheavy]
  obtain ⟨j, hstep, j1, j3, j4, j5⟩ := hJ
  obtain ⟨b1, b2⟩ := advanceTimers_fan_off clk j j1 j4
  rw [j3, hexp, j5] at b2
  have hPO : FanTimer.PAUSE ≠ FanTimer.OFF := by decide
  have hPN : FanTimer.PAUSE ≠ FanTimer.ON := by decide
  simp only [ne_eq, hPO, not_false_eq_true, and_self, if_true, hPN, if_false] at b2
  have hrun : (Controller.run clk r c).implementation
      = Implementation.step clk r c.implementation := rfl
  have k1 : (Controller.run clk r c).implementation.fan_timer = FanTimer.OFF := by
    rw [hrun, hstep]; exact b2
  have k2 : (Controller.run clk r c).implementation.state.fan_speed = Fan.Speed.OFF := by
    rw [hrun, hstep]; exact b1
  have k3 : (Controller.run clk r c).implementation.state.mode = Mode.AUTO :=
    (step_mode clk r c.implementation).trans hmode
  have k4 : (Controller.run clk r c).implementation.configuration
      = c.implementation.configuration := step_configuration clk r c.implementation
  obtain ⟨f1, f2, f3, f4, f5⟩ :=
    runs_idle_light ticks (Controller.run clk r c) k3 k2 k1 hlight
  have hcfg : (Controller.runs ticks (Controller.run clk r c)).implementation.configuration
      = c.implementation.configuration := f5.trans k4
  obtain ⟨s1, s2, s3⟩ := run_start_low clk2 r2 _ f1 (by rw [f4]; exact hheavy2) hvalid f2 f3
    (by rw [hcfg]; exact hhum) (by rw [hcfg]; exact hd) (by rw [hcfg]; exact hm)
  rw [hcfg] at s2 s3
  exact ⟨k1, k2, f3, f2, s1, s2, s3⟩

/-- Witness for C26: `timedPaused` (pause until 120002 ms) at 120003 ms ends
its pause; the heavy evaluation at 122504 ms with humid air starts the fan. -/
theorem pause_ends_witness :
    Controller.timedPaused.implementation.fan_timer = FanTimer.PAUSE
    ∧ timeAfter 120003 Controller.timedPaused.implementation.fan_timer_timestamp = true
    ∧ (Controller.run (Clock.still 120003) Readings.humid
        Controller.timedPaused).implementation.fan_timer = FanTimer.OFF
    ∧ (Controller.run (Clock.still 122504) Readings.humid
        (Controller.runs [(Clock.still 120500, Readings.humid)]
          (Controller.run (Clock.still 120003) Readings.humid
            Controller.timedPaused))).implementation.state.fan_speed = Fan.Speed.LOW :=
  ⟨by decide, by decide,
    (pause_ends (Clock.still 120003) Readings.humid Controller.timedPaused (by decide)
      (by decide) (by decide) (by decide) [(Clock.still 120500, Readings.humid)] (by decide)
      (Clock.still 122504) Readings.humid (by decide) (by decide) (by decide) (by decide)
      (by decide)).1,
    (pause_ends (Clock.still 120003) Readings.humid Controller.timedPaused (by decide)
      (by decide) (by decide) (by decide) [(Clock.still 120500, Readings.humid)] (by decide)
      (Clock.still 122504) Readings.humid (by decide) (by decide) (by decide) (by decide)
      (by decide)).2.2.2.2.2.2 (by decide) (by decide)⟩

theorem heavy_timer_invariant (clk : Clock) (r : Readings) (i : Implementation)
    (hmode : i.state.mode = Mode.AUTO)
    (h1 : i.fan_timer = FanTimer.PAUSE → i.state.fan_speed = Fan.Speed.OFF)
    (h2 : i.fan_timer = FanTimer.ON → i.state.fan_speed ≠ Fan.Speed.OFF) :
    ((heavyEvaluation clk r i).fan_timer = FanTimer.PAUSE →
      (heavyEvaluation clk r i).state.fan_speed = Fan.Speed.OFF)
    ∧ ((heavyEvaluation clk r i).fan_timer = FanTimer.ON →
      (heavyEvaluation clk r i).state.fan_speed ≠ Fan.Speed.OFF) := by
  have hLO : Fan.Speed.LOW ≠ Fan.Speed.OFF := by decide
  obtain ⟨-, -, -, g4, g5, -⟩ := heavy_fan clk r i hmode
  rw [g4, g5]
  cases h3 : i.fan_timer <;> split_ifs <;> simp_all

theorem advanceTimers_timer_invariant (clk : Clock) (j : Implementation)
    (h1 : j.fan_timer = FanTimer.PAUSE → j.state.fan_speed = Fan.Speed.OFF)
    (h2 : j.fan_timer = FanTimer.ON → j.state.fan_speed ≠ Fan.Speed.OFF) :
    ((advanceTimers clk j).fan_timer = FanTimer.PAUSE →
      (advanceTimers clk j).state.fan_speed = Fan.Speed.OFF)
    ∧ ((advanceTimers clk j).fan_timer = FanTimer.ON →
      (advanceTimers clk j).state.fan_speed ≠ Fan.Speed.OFF) := by
  have hHO : Fan.Speed.HIGH ≠ Fan.Speed.OFF := by decide
  have hLO : Fan.Speed.LOW ≠ Fan.Speed.OFF := by decide
  cases hmode : j.state.mode
  · obtain ⟨a1, a2, -, -, -, -⟩ := advanceTimers_fan clk j hmode _ _ _ rfl rfl rfl
    rw [a1, a2]
    cases h3 : j.fan_timer <;> split_ifs <;> simp_all
  · have hid : advanceTimers clk j = j := by
      unfold advanceTimers
      rw [if_neg (by rw [hmode]; decide)]
    rw [hid]
    exact ⟨h1, h2⟩

theorem step_timer_invariant (clk : Clock) (r : Readings) (i : Implementation)
    (h1 : i.fan_timer = FanTimer.PAUSE → i.state.fan_speed = Fan.Speed.OFF)
    (h2 : i.fan_timer = FanTimer.ON → i.state.fan_speed ≠ Fan.Speed.OFF) :
    ((Implementation.step clk r i).fan_timer = FanTimer.PAUSE →
      (Implementation.step clk r i).state.fan_speed = Fan.Speed.OFF)
    ∧ ((Implementation.step clk r i).fan_timer = FanTimer.ON →
      (Implementation.step clk r i).state.fan_speed ≠ Fan.Speed.OFF) := by
  cases hmode : i.state.mode
  · unfold Implementation.step
    split_ifs with hheavy
    · obtain ⟨k1, k2⟩ := heavy_timer_invariant clk r i hmode h1 h2
      exact advanceTimers_timer_invariant clk _ k1 k2
    · exact advanceTimers_timer_invariant clk i h1 h2
  · rw [step_manual clk r i hmode]
    split_ifs
    · exact ⟨h1, h2⟩
    · exact ⟨h1, h2⟩

theorem apply_timer_invariant (op : Operation) (sys : System)
    (h1 : sys.controller.implementation.fan_timer = FanTimer.PAUSE →
      sys.controller.implementation.state.fan_speed = Fan.Speed.OFF)
    (h2 : sys.controller.implementation.fan_timer = FanTimer.ON →
      sys.controller.implementation.state.fan_speed ≠ Fan.Speed.OFF) :
    ((System.apply op sys).controller.implementation.fan_timer = FanTimer.PAUSE →
      (System.apply op sys).controller.implementation.state.fan_speed = Fan.Speed.OFF)
    ∧ ((System.apply op sys).controller.implementation.fan_timer = FanTimer.ON →
      (System.apply op sys).controller.implementation.state.fan_speed ≠ Fan.Speed.OFF) := by
  cases op with
  | begin =>
    show ((Implementation.loadConfiguration sys.eeprom
          sys.controller.implementation).fan_timer = FanTimer.PAUSE →
        (Implementation.loadConfiguration sys.eeprom
          sys.controller.implementation).state.fan_speed = Fan.Speed.OFF)
      ∧ ((Implementation.loadConfiguration sys.eeprom
          sys.controller.implementation).fan_timer = FanTimer.ON →
        (Implementation.loadConfiguration sys.eeprom
          sys.controller.implementation).state.fan_speed ≠ Fan.Speed.OFF)
    unfold Implementation.loadConfiguration
    simp only []
    split_ifs
    · exact ⟨h1, h2⟩
    · exact ⟨h1, h2⟩
    · exact ⟨h1, h2⟩
  | run clk sclk hw =>
    exact step_timer_invariant clk (Sensors.poll sclk hw sys.sensors).1
      sys.controller.implementation h1 h2
  | setAutoMode =>
    exact ⟨fun h => rfl, fun h => FanTimer.noConfusion h⟩
  | setFanSpeed value =>
    exact ⟨fun h => FanTimer.noConfusion h, fun h => FanTimer.noConfusion h⟩
  | setHeatingLounge value => exact ⟨h1, h2⟩
  | setHeatingVestibule value => exact ⟨h1, h2⟩
  | setLedColor value => exact ⟨h1, h2⟩
  | setConfiguration value => exact ⟨h1, h2⟩

theorem applyAll_timer_invariant (ops : List Operation) :
    ∀ sys : System,
      (sys.controller.implementation.fan_timer = FanTimer.PAUSE →
        sys.controller.implementation.state.fan_speed = Fan.Speed.OFF) →
      (sys.controller.implementation.fan_timer = FanTimer.ON →
        sys.controller.implementation.state.fan_speed ≠ Fan.Speed.OFF) →
      ((System.applyAll ops sys).controller.implementation.fan_timer = FanTimer.PAUSE →
        (System.applyAll ops sys).controller.implementation.state.fan_speed
          = Fan.Speed.OFF)
      ∧ ((System.applyAll ops sys).controller.implementation.fan_timer = FanTimer.ON →
        (System.applyAll ops sys).controller.implementation.state.fan_speed
          ≠ Fan.Speed.OFF) := by
  induction ops with
  | nil => intro sys h1 h2; exact ⟨h1, h2⟩
  | cons op ops ih =>
    intro sys h1 h2
    obtain ⟨k1, k2⟩ := apply_timer_invariant op sys h1 h2
    exact ih (System.apply op sys) k1 k2

/-- C27: in every state reached from the initial state (any EEPROM content)
by any sequence of `begin`, ticks, `setAutoMode`, the four manual setters and
`setConfiguration`, FanTimer PAUSE implies fan speed OFF and FanTimer ON
implies fan speed not OFF. -/
theorem timer_invariant (ops : List Operation) (e : EEPROM) (t h : Int) :
    ((System.applyAll ops (System.init e t h)).controller.implementation.fan_timer
        = FanTimer.PAUSE →
      (System.applyAll ops (System.init e t h)).controller.implementation.state.fan_speed
        = Fan.Speed.OFF)
    ∧ ((System.applyAll ops (System.init e t h)).controller.implementation.fan_timer
        = FanTimer.ON →
      (System.applyAll ops (System.init e t h)).controller.implementation.state.fan_speed
        ≠ Fan.Speed.OFF) :=
  applyAll_timer_invariant ops (System.init e t h)
    (fun hp => FanTimer.noConfusion hp) (fun hp => FanTimer.noConfusion hp)

/-- Witness for C27: with max-run 1 minute, a tick that starts the fan and a
tick after the deadline reach FanTimer PAUSE, and the fan is OFF there. -/
theorem timer_invariant_witness :
    (System.applyAll
        [Operation.setConfiguration Configuration.timed, Operation.runAt 1 Hardware.humid,
          Operation.runAt 60002 Hardware.humid]
        (System.init EEPROM.erased 0 0)).controller.implementation.fan_timer = FanTimer.PAUSE
    ∧ (System.applyAll
        [Operation.setConfiguration Configuration.timed, Operation.runAt 1 Hardware.humid,
          Operation.runAt 60002 Hardware.humid]
        (System.init EEPROM.erased 0 0)).controller.implementation.state.fan_speed
          = Fan.Speed.OFF :=
  ⟨by decide,
    (timer_invariant
      [Operation.setConfiguration Configuration.timed, Operation.runAt 1 Hardware.humid,
        Operation.runAt 60002 Hardware.humid] EEPROM.erased 0 0).1 (by decide)⟩

/-! ## Radio commands -/

/-- C21 fails on the code for the enumerations: a SET_FAN frame with payload
byte 7 and a SET_LED frame with payload byte 9 are not rejected; `Radio::run`
casts the byte and calls the setter, so the mode becomes MANUAL and the State
holds fan speed 7, resp. lamp color 9, values outside the enumerations. A
SET_CONFIG frame of the wrong length does leave the Configuration alone. -/
theorem radio_accepts_invalid_enumeration :
    (System.init EEPROM.erased 0 0).controller.implementation.state.mode = Mode.AUTO
    ∧ (System.init EEPROM.erased 0 0).controller.implementation.state.fan_speed
        = Fan.Speed.OFF
    ∧ (Radio.run (some [5, 7])
        (System.init EEPROM.erased 0 0)).2.controller.implementation.state.mode
          = Mode.MANUAL
    ∧ (Radio.run (some [5, 7])
        (System.init EEPROM.erased 0 0)).2.controller.implementation.state.fan_speed
          = { raw := 7 }
    ∧ (Radio.run (some [8, 9])
        (System.init EEPROM.erased 0 0)).2.controller.implementation.state.mode
          = Mode.MANUAL
    ∧ (Radio.run (some [8, 9])
        (System.init EEPROM.erased 0 0)).2.controller.implementation.state.led_color
          = { raw := 9 }
    ∧ (Radio.run (some [3, 1, 2])
        (System.init EEPROM.erased 0 0)).2.controller.implementation.configuration
          = (System.init EEPROM.erased 0 0).controller.implementation.configuration := by
  decide

/-! ## Console output -/

/-- C29 fails on the code: for tenths values from -9 to -1 the integer part
`t / 10` is 0 and carries no sign, so -0.5 °C prints the same text as
+0.5 °C, namely `0.5°C`; the same holds for `printHumidity`. -/
theorem print_loses_sign :
    printTemperature (-5) = printTemperature 5
    ∧ printTemperature (-5)
        = "0.5°C" ++ String.singleton (Char.ofNat 13) ++ String.singleton (Char.ofNat 10)
    ∧ printTemperature (-15)
        = "-1.5°C" ++ String.singleton (Char.ofNat 13) ++ String.singleton (Char.ofNat 10)
    ∧ printHumidity (-5) = printHumidity 5 := by
  decide

end CavyCave
